import Mathlib

/-!
# SoundScape: trip context and adaptive playlist orchestration

A shallow embedding of the decision logic of the SoundScape trip companion
(`src/screens/NavigationScreen.js`, `src/services/ai.js`) together with the
properties its design document states about it.

Conventions of the embedding:

* a JavaScript value that may be `undefined` or `null` is an `Option`;
  strict equality `===` on strings is equality of `Option String`;
* arrays are lists; `Array.prototype.slice`, `map` and `filter` build fresh
  lists and leave their receiver untouched;
* numbers that the code only compares, rounds and divides are exact
  rationals or integers;
* the two effects of `generatePlaylistPrompt`, the call to the recommender
  and the random comparator handed to `sort`, are explicit parameters.
-/

namespace SoundScape

/-! ## Conditions -/

/-- Weather record as produced by `getWeather` and the demo script. -/
structure Weather where
  condition : Option String
  description : Option String
  temperature : Option Int
deriving DecidableEq, Repr

/-- Traffic record; callers build it as an object with a `level` field. -/
structure Traffic where
  level : Option String
deriving DecidableEq, Repr

/-- Transcription of `chooseInitialVibe` (NavigationScreen.js, 367-382):
`weather?.condition` and `traffic?.level` are read with optional chaining,
`vibe` starts as the declared mood and is overwritten by the first branch
that matches. -/
def chooseInitialVibe (userMood : String) (weather : Option Weather)
    (traffic : Option Traffic) : String :=
  let condition := weather.bind (fun w => w.condition)
  let level := traffic.bind (fun t => t.level)
  let vibe := userMood
  if condition = some "Rain" ∨ condition = some "Drizzle" then
    "calm"
  else if level = some "heavy" ∨ level = some "severe" then
    "focus"
  else if (level = some "light" ∨ level = some "smooth") ∧ condition = some "Clear" then
    "hype"
  else
    vibe

/-- The condition string `chooseInitialVibe` reads, `undefined` as `none`. -/
def weatherCondition (weather : Option Weather) : Option String :=
  weather.bind (fun w => w.condition)

/-- The traffic level `chooseInitialVibe` reads, `undefined` as `none`. -/
def trafficLevel (traffic : Option Traffic) : Option String :=
  traffic.bind (fun t => t.level)

/-! ## Candidate tracks and the recommender response -/

/-- Candidate track, the fields `generatePlaylistPrompt` reads to identify a
track (`id`) and to name it in the offered list (`name`, `artist`).  The
optional audio features only feed the text of an offered line. -/
structure Track where
  id : String
  name : String
  artist : String
deriving DecidableEq, Repr

/-- JavaScript values a field of the parsed recommender response can hold.
An array holds the indices the recommender chose, as integers. -/
inductive JsValue where
  | undefined
  | null
  | bool (b : Bool)
  | number (n : Int)
  | string (s : String)
  | object
  | array (xs : List Int)
deriving DecidableEq, Repr

/-- JavaScript truthiness (`ToBoolean`): `undefined`, `null`, `false`, `0`
and the empty string are falsy, every object and every array is truthy. -/
def JsValue.truthy : JsValue → Bool
  | .undefined => false
  | .null => false
  | .bool b => b
  | .number n => n != 0
  | .string s => s != ""
  | .object => true
  | .array _ => true

/-- Model of `Array.isArray`. -/
def JsValue.isArray : JsValue → Bool
  | .array _ => true
  | _ => false

/-- Parsed recommender response: the object `JSON.parse` returns, of which
the code reads the fields `selectedTracks` and `reasoning`; a field that is
not present reads as `undefined`. -/
structure AIResponse where
  selectedTracks : JsValue
  reasoning : JsValue
deriving DecidableEq, Repr

/-- Value returned by `generatePlaylistPrompt`. -/
structure PlaylistResult where
  tracks : List Track
  reasoning : JsValue
deriving DecidableEq, Repr

/-- Array read `xs[k]` for an integer `k`: `undefined` outside `0 .. length-1`. -/
def jsIndex {α : Type} (xs : List α) (k : Int) : Option α :=
  if 0 ≤ k then xs[k.toNat]? else none

/-- The bound `tracksToUse = Math.min(100, userTracks.length)` (ai.js, 17). -/
def tracksToUse (userTracks : List Track) : Nat :=
  min 100 userTracks.length

/-- The candidate list offered to the recommender (ai.js, 19-33):
`userTracks.slice(0, tracksToUse).map((track, idx) => ...)`.  Each entry is
the number `idx + 1` printed in front of the line and the track the line
describes. -/
def trackList (userTracks : List Track) : List (Nat × Track) :=
  ((userTracks.take (tracksToUse userTracks)).enum).map (fun p => (p.1 + 1, p.2))

/-- Index mapping (ai.js, 115-117):
`result.selectedTracks.map((idx) => userTracks[idx - 1]).filter(Boolean)`.
A track is an object, hence truthy, so `filter(Boolean)` drops exactly the
`undefined` reads. -/
def mapSelected (userTracks : List Track) (indices : List Int) : List Track :=
  (indices.map (fun idx => jsIndex userTracks (idx - 1))).filterMap id

/-- The pool tracks that padding may draw from (ai.js, 126-127):
`userTracks.filter((t) => !selectedTracks.find((st) => st.id === t.id))`. -/
def remainingTracks (userTracks selected : List Track) : List Track :=
  userTracks.filter (fun t => !(selected.find? (fun st => st.id == t.id)).isSome)

/-- Padding (ai.js, 124-131).  `shuffle` stands for
`sort(() => 0.5 - Math.random())`, which reorders the filtered array. -/
def padSelected (shuffle : List Track → List Track) (userTracks selected : List Track) :
    List Track :=
  if selected.length < 8 then
    let remaining := (shuffle (remainingTracks userTracks selected)).take (10 - selected.length)
    selected ++ remaining
  else
    selected

/-- Response handling of `generatePlaylistPrompt` (ai.js, 111-136): the
format guard, index mapping, padding and the returned record.  Calling
`map` on a value that is not an array would raise a `TypeError`; the guard
makes that branch unreachable. -/
def handleResponse (shuffle : List Track → List Track) (userTracks : List Track)
    (result : AIResponse) : Except String PlaylistResult :=
  if !result.selectedTracks.truthy || !result.selectedTracks.isArray then
    .error "Invalid AI response format"
  else
    match result.selectedTracks with
    | .array indices =>
      let selectedTracks := mapSelected userTracks indices
      .ok (PlaylistResult.mk (padSelected shuffle userTracks selectedTracks)
            (if result.reasoning.truthy then result.reasoning else .string ""))
    | _ => .error "TypeError: result.selectedTracks.map is not a function"

/-! ## Building the request -/

/-- `Math.round` on an exact number: nearest integer, halves rounded up. -/
def jsRound (x : ℚ) : Int := ⌊x + 1 / 2⌋

/-- `Math.ceil` on an exact number. -/
def jsCeil (x : ℚ) : Int := ⌈x⌉

/-- The line `const durationMins = Math.round(duration / 60)` (ai.js, 16). -/
def durationMins (duration : ℚ) : Int :=
  jsRound (duration / 60)

/-- The line `const songsNeeded = Math.max(12, Math.min(20,
Math.ceil(durationMins / 3)))` (ai.js, 35). -/
def songsNeeded (duration : ℚ) : Int :=
  max 12 (min 20 (jsCeil ((durationMins duration : ℚ) / 3)))

/-- How a template literal prints a possibly missing string. -/
def jsShow : Option String → String
  | some s => s
  | none => "undefined"

/-- The comparison `weather.temperature > 20`; `undefined > 20` is false. -/
def jsGreater (x : Option Int) (bound : Int) : Bool :=
  match x with
  | some v => decide (bound < v)
  | none => false

/-- The instruction lines `generatePlaylistPrompt` can put into the request:
the two priority notes (ai.js, 42-44), the lines pushed by
`getSelectionRules` (144-174) and those pushed by `getContextRules`
(177-193).  `Instruction.text` gives the text of each. -/
inductive Instruction where
  | moodPriorityNote (songNumber : Nat) (mood : String)
  | conditionsNote (songNumber : Nat) (condition level : Option String)
  | topPriorityMood (mood : String)
  | sadMood
  | energeticMood
  | focusChillMood
  | heavyTrafficRule
  | rainRule
  | rainyContext
  | sunnyContext
  | heavyTrafficContext
  | lightTrafficContext
deriving DecidableEq, Repr

/-- The text of an instruction line, as the source writes it. -/
def Instruction.text : Instruction → String
  | .moodPriorityNote n mood =>
    "\n🎯 CRITICAL: This is song #" ++ toString n ++
      " of the trip. For the FIRST 2-3 SONGS, PRIORITIZE THE USER'S CHOSEN MOOD (" ++ mood ++
      ") ABOVE ALL ELSE. Ignore weather and traffic for initial songs.\n"
  | .conditionsNote n condition level =>
    "\n🎯 NOTE: This is song #" ++ toString n ++ ". You can now adjust for weather (" ++
      jsShow condition ++ ") and traffic (" ++ jsShow level ++
      ") while still respecting mood.\n"
  | .topPriorityMood mood =>
    "\n🎯 TOP PRIORITY FOR SONGS 1-3: Match the user's MOOD (" ++ mood ++
      ") perfectly. IGNORE weather and traffic for now.\n"
  | .sadMood => "- For SAD mood: valence < 0.45, tempo 60-115 BPM"
  | .energeticMood => "- For ENERGETIC mood: valence > 0.5, energy > 0.7, tempo > 115 BPM"
  | .focusChillMood => "- For FOCUS/CHILL: energy < 0.65, prefer instrumental"
  | .heavyTrafficRule => "- HEAVY TRAFFIC: avoid aggressive songs, prefer calm (energy < 0.7)"
  | .rainRule => "- RAIN: favor cozy, introspective tracks"
  | .rainyContext => "🌧️ RAINY: Cozy, mellow music preferred"
  | .sunnyContext => "☀️ SUNNY: Upbeat, feel-good music works well"
  | .heavyTrafficContext => "🚗 HEAVY TRAFFIC: Calm, steady music for safety"
  | .lightTrafficContext => "🛣️ LIGHT TRAFFIC: More energetic tracks are safe"

/-- The `priorityNote` of the request (ai.js, 42-44). -/
def priorityNote (trackNumber : Nat) (mood : String) (weather : Weather) (traffic : Traffic) :
    Instruction :=
  if trackNumber < 3 then
    .moodPriorityNote (trackNumber + 1) mood
  else
    .conditionsNote (trackNumber + 1) weather.condition traffic.level

/-- One guarded `push` of the rule builders: `if (c) rules.push(x)` adds the
line `x` when `c` holds and nothing otherwise. -/
def pushIf (c : Prop) [Decidable c] (x : Instruction) : List Instruction :=
  if c then [x] else []

/-- Transcription of `getSelectionRules` (ai.js, 144-174): `rules` starts
empty and grows by one guarded `push` per test, in source order; the result
is joined line by line. -/
def getSelectionRules (weather : Weather) (traffic : Traffic) (mood : String)
    (trackNumber : Nat) : List Instruction :=
  pushIf (trackNumber < 3) (.topPriorityMood mood) ++
  pushIf (mood = "sad" ∨ mood = "melancholy") .sadMood ++
  pushIf (mood = "energetic" ∨ mood = "hype") .energeticMood ++
  pushIf (mood = "focus" ∨ mood = "chill") .focusChillMood ++
  pushIf (traffic.level = some "heavy" ∧ trackNumber ≥ 3) .heavyTrafficRule ++
  pushIf ((weather.condition = some "Rain" ∨ weather.condition = some "Drizzle") ∧
    trackNumber ≥ 3) .rainRule

/-- Transcription of `getContextRules` (ai.js, 177-193): two `if / else if`
statements, the first on the weather and the second on the traffic, each
pushing at most one line.  The function has no `trackNumber` parameter. -/
def getContextRules (weather : Weather) (traffic : Traffic) (_mood : String) :
    List Instruction :=
  (if weather.condition = some "Rain" ∨ weather.condition = some "Drizzle" then
      [Instruction.rainyContext]
    else if weather.condition = some "Clear" ∧ jsGreater weather.temperature 20 = true then
      [Instruction.sunnyContext]
    else []) ++
  (if traffic.level = some "heavy" ∨ traffic.level = some "severe" then
      [Instruction.heavyTrafficContext]
    else if traffic.level = some "light" then
      [Instruction.lightTrafficContext]
    else [])

/-- Arguments of `generatePlaylistPrompt` (ai.js, 6-14); `trackNumber`
defaults to `0` when the caller leaves it out. -/
structure PlaylistArgs where
  mood : String
  weather : Weather
  traffic : Traffic
  duration : ℚ
  userTracks : List Track
  preferencesText : Option String
  trackNumber : Nat := 0

/-- The parts of the prompt `generatePlaylistPrompt` sends (ai.js, 49-76),
one field per interpolated value. -/
structure Prompt where
  preferenceSection : String
  priorityNote : Instruction
  mood : String
  weather : Weather
  traffic : Traffic
  durationMins : Int
  contextRules : List Instruction
  tracksToUse : Nat
  trackList : List (Nat × Track)
  songsNeeded : Int
  selectionRules : List Instruction

/-- The `preferenceSection` of the prompt (ai.js, 37-39); an empty or
missing text is falsy. -/
def preferenceSection (preferencesText : Option String) : String :=
  match preferencesText with
  | some text =>
    if text != "" then "LEARNED USER PREFERENCES:\n" ++ text ++ "\n"
    else "LEARNED USER PREFERENCES:\n- No explicit feedback yet. Use general good-driving defaults.\n"
  | none =>
    "LEARNED USER PREFERENCES:\n- No explicit feedback yet. Use general good-driving defaults.\n"

/-- Request construction of `generatePlaylistPrompt` (ai.js, 16-76). -/
def buildPrompt (args : PlaylistArgs) : Prompt :=
  Prompt.mk
    (preferenceSection args.preferencesText)
    (priorityNote args.trackNumber args.mood args.weather args.traffic)
    args.mood args.weather args.traffic
    (durationMins args.duration)
    (getContextRules args.weather args.traffic args.mood)
    (tracksToUse args.userTracks)
    (trackList args.userTracks)
    (songsNeeded args.duration)
    (getSelectionRules args.weather args.traffic args.mood args.trackNumber)

/-- Transcription of `generatePlaylistPrompt` (ai.js, 6-141).  `recommend`
stands for the chat-completion call followed by `JSON.parse`: it yields the
parsed response or the error the call or the parse raised, which the
`catch` block logs and rethrows. -/
def generatePlaylistPrompt (recommend : Prompt → Except String AIResponse)
    (shuffle : List Track → List Track) (args : PlaylistArgs) :
    Except String PlaylistResult :=
  match recommend (buildPrompt args) with
  | .error e => .error e
  | .ok result => handleResponse shuffle args.userTracks result

/-- The request context of the claims about sequencing: the priority note,
the context rules and the selection rules of a prompt, in prompt order. -/
def requestContext (p : Prompt) : List Instruction :=
  p.priorityNote :: (p.contextRules ++ p.selectionRules)

/-- Instructions that tell the recommender to follow the declared vibe and
ignore weather and traffic. -/
def Instruction.isVibePriority : Instruction → Bool
  | .moodPriorityNote _ _ => true
  | .topPriorityMood _ => true
  | _ => false

/-- Instructions that tell the recommender to adjust to weather or traffic. -/
def Instruction.isConditionsAdjustment : Instruction → Bool
  | .conditionsNote _ _ _ => true
  | .heavyTrafficRule => true
  | .rainRule => true
  | .rainyContext => true
  | .sunnyContext => true
  | .heavyTrafficContext => true
  | .lightTrafficContext => true
  | _ => false

/-- Index mapping as the design document words it: walk the indices in the
order given; an index `i` with `1 ≤ i ≤ pool size` contributes the `i`-th
pool track, any other index contributes nothing. -/
def selectInBounds (pool : List Track) : List Int → List Track
  | [] => []
  | i :: rest =>
    if h : 1 ≤ i ∧ i ≤ (pool.length : Int) then
      pool.get ⟨(i - 1).toNat, by omega⟩ :: selectInBounds pool rest
    else
      selectInBounds pool rest

/-- The clamp of the design document: `x` limited to the range `lo .. hi`. -/
def clamp (x lo hi : Int) : Int :=
  if x < lo then lo else if hi < x then hi else x

/-- Target playlist length as the design document states it, read with
`durationMinutes = tripDurationSeconds / 60` taken exactly:
`clamp(ceil(durationMinutes / 3), 12, 20)`. -/
def targetLengthExactMinutes (tripDurationSeconds : ℚ) : Int :=
  clamp ⌈tripDurationSeconds / 60 / 3⌉ 12 20

/-! ## PreferenceLearner -/

/-- The entry handed to `logFeedback` by `logTrackAction` and `logTripRating`
(feedback.js, 74-84 and 99-106); a field the helper does not set reads as
`undefined`. -/
structure FeedbackEntry where
  type : Option String
  action : Option String
  rating : Option String
  trackId : Option String
  trackName : Option String
  artist : Option String
  mood : Option String
  vibe : Option String
  weather : Option String
  traffic : Option String
deriving DecidableEq, Repr

/-- A stored record: the entry plus the creation timestamp `logFeedback`
adds (feedback.js, 33-36). -/
structure FeedbackLog extends FeedbackEntry where
  timestamp : Nat
deriving DecidableEq, Repr

/-- The eight counters of `summarizePreferences` (feedback.js, 123-132). -/
structure Counters where
  rainSkips : Nat
  rainLoves : Nat
  heavyFocusSkips : Nat
  heavyFocusLoves : Nat
  hypeClearLoves : Nat
  greatTrips : Nat
  mehTrips : Nat
  badTrips : Nat
deriving DecidableEq, Repr

/-- All counters at zero, their initial value. -/
def Counters.zero : Counters :=
  Counters.mk 0 0 0 0 0 0 0 0

/-- Block 1 of the track-action branch, rainy against non-rainy
(feedback.js, 137-147 and 159-163). -/
def countRain (c : Counters) (log : FeedbackLog) : Counters :=
  let isNegative : Bool :=
    decide (log.action = some "skipped" ∨ log.action = some "bad_fit")
  let w := log.weather
  let isRainy : Bool :=
    decide (w = some "Rain" ∨ w = some "Drizzle" ∨ w = some "Thunderstorm")
  if isRainy then
    let c : Counters := if isNegative then { c with rainSkips := c.rainSkips + 1 } else c
    if log.action = some "loved" then { c with rainLoves := c.rainLoves + 1 } else c
  else c

/-- Block 2 of the track-action branch, heavy traffic with focus vibe
(feedback.js, 154-157 and 165-169). -/
def countHeavyFocus (c : Counters) (log : FeedbackLog) : Counters :=
  let isNegative : Bool :=
    decide (log.action = some "skipped" ∨ log.action = some "bad_fit")
  let t := log.traffic
  let isHeavyTraffic : Bool := decide (t = some "heavy" ∨ t = some "severe")
  if isHeavyTraffic ∧ log.vibe = some "focus" then
    let c : Counters :=
      if isNegative then { c with heavyFocusSkips := c.heavyFocusSkips + 1 } else c
    if log.action = some "loved" then { c with heavyFocusLoves := c.heavyFocusLoves + 1 }
    else c
  else c

/-- Block 3 of the track-action branch, clear weather with hype or energetic
vibe (feedback.js, 149-152 and 171-174). -/
def countHypeClear (c : Counters) (log : FeedbackLog) : Counters :=
  let w := log.weather
  let isClearish : Bool := decide (w = some "Clear" ∨ w = some "Clouds")
  if isClearish ∧ (log.vibe = some "hype" ∨ log.vibe = some "energetic") then
    if log.action = some "loved" then { c with hypeClearLoves := c.hypeClearLoves + 1 }
    else c
  else c

/-- The trip-rating branch (feedback.js, 177-181). -/
def countTripRating (c : Counters) (log : FeedbackLog) : Counters :=
  if log.type = some "trip_rating" then
    if log.rating = some "great" then { c with greatTrips := c.greatTrips + 1 }
    else if log.rating = some "meh" then { c with mehTrips := c.mehTrips + 1 }
    else if log.rating = some "bad" then { c with badTrips := c.badTrips + 1 }
    else c
  else c

/-- The body of the `logs.forEach` callback (feedback.js, 134-182): the
counters after one more record has been looked at.  A track action runs the
three blocks one after the other, none of them an `else` of another; the
trip-rating test follows for every record. -/
def countLog (c : Counters) (log : FeedbackLog) : Counters :=
  let c : Counters :=
    if log.type = some "track_action" then
      countHypeClear (countHeavyFocus (countRain c log) log) log
    else c
  countTripRating c log

/-- The counters after `logs.forEach` has run over the whole log. -/
def tally (logs : List FeedbackLog) : Counters :=
  logs.foldl countLog Counters.zero

/-- The lines `summarizePreferences` can return.  `PreferenceLine.text`
gives the text of each. -/
inductive PreferenceLine where
  | noFeedbackYet
  | rainAvoid
  | rainEnjoy
  | heavyFocusDislike
  | heavyFocusWorks
  | hypeClearLove
  | tripsGreat
  | tripsBad
  | tripsMeh
  | noStrongPatterns
deriving DecidableEq, Repr

/-- The text of a summary line, as the source writes it. -/
def PreferenceLine.text : PreferenceLine → String
  | .noFeedbackYet => "No explicit feedback yet. Use general good-driving-music defaults."
  | .rainAvoid =>
    "- In rainy conditions, user often skips or marks tracks as bad fit; avoid overly mellow or sleepy rain music."
  | .rainEnjoy =>
    "- In rainy conditions, user enjoys cozy / mellow tracks; leaning into chill rain vibes is okay."
  | .heavyFocusDislike =>
    "- In heavy traffic with focus vibe, user often dislikes the music; try slightly more uplifting but still non-stressful tracks."
  | .heavyFocusWorks =>
    "- In heavy traffic with focus vibe, current calm / focus style works well; keep similar low-distraction tracks."
  | .hypeClearLove =>
    "- In clear weather with hype/energetic vibe, user tends to love energetic tracks; high-energy songs are a good choice here."
  | .tripsGreat =>
    "- Overall, trips are often rated great; current strategy is mostly good, so only subtle adjustments are needed."
  | .tripsBad =>
    "- User often rates trips as bad; be conservative, avoid extreme genre shifts, and stay closer to safe, widely-liked tracks."
  | .tripsMeh =>
    "- Many trips are rated as “meh”; increase variety within the chosen vibe so playlists feel less repetitive."
  | .noStrongPatterns =>
    "- No strong patterns detected yet; use general good-driving-music defaults and balanced choices."

/-- The rain block (feedback.js, 188-199). -/
def rainLines (c : Counters) : List PreferenceLine :=
  let totalRainActions := c.rainSkips + c.rainLoves
  if totalRainActions ≥ 3 then
    if c.rainSkips > c.rainLoves then [.rainAvoid]
    else if c.rainLoves > c.rainSkips then [.rainEnjoy]
    else []
  else []

/-- The heavy-traffic block (feedback.js, 201-212). -/
def heavyFocusLines (c : Counters) : List PreferenceLine :=
  let totalHeavyFocusActions := c.heavyFocusSkips + c.heavyFocusLoves
  if totalHeavyFocusActions ≥ 3 then
    if c.heavyFocusSkips > c.heavyFocusLoves then [.heavyFocusDislike]
    else if c.heavyFocusLoves > c.heavyFocusSkips then [.heavyFocusWorks]
    else []
  else []

/-- The clear-weather block (feedback.js, 214-218). -/
def hypeClearLines (c : Counters) : List PreferenceLine :=
  if c.hypeClearLoves ≥ 2 then [.hypeClearLove] else []

/-- The trip-level block (feedback.js, 222-237). -/
def tripLines (c : Counters) : List PreferenceLine :=
  let totalTrips := c.greatTrips + c.mehTrips + c.badTrips
  if totalTrips ≥ 3 then
    if c.greatTrips ≥ c.badTrips + 2 then [.tripsGreat]
    else if c.badTrips ≥ c.greatTrips + 1 then [.tripsBad]
    else if c.mehTrips > c.greatTrips ∧ c.mehTrips > c.badTrips then [.tripsMeh]
    else []
  else []

/-- The array `lines` before the default is added (feedback.js, 184-237):
the four blocks push in source order. -/
def ruleLines (c : Counters) : List PreferenceLine :=
  rainLines c ++ heavyFocusLines c ++ hypeClearLines c ++ tripLines c

/-- The lines of the summary `summarizePreferences` returns (feedback.js,
117-246): the fixed sentence for an empty log, otherwise the rule lines, or
the default line when no rule pushed one. -/
def summaryLines (logs : List FeedbackLog) : List PreferenceLine :=
  if logs.length = 0 then
    [.noFeedbackYet]
  else
    let lines := ruleLines (tally logs)
    if lines.length = 0 then [.noStrongPatterns] else lines

/-- Transcription of `summarizePreferences`: the summary lines joined by
newlines. -/
def summarizePreferences (logs : List FeedbackLog) : String :=
  "\n".intercalate ((summaryLines logs).map PreferenceLine.text)

/-- The lines of a text: the pieces between its line feeds. -/
def linesOf (text : String) : List String :=
  text.split (fun c => c == Char.ofNat 10)

/-- The three trip-level lines of a summary, as the source writes them. -/
def tripLevelLines : List String :=
  ["- Overall, trips are often rated great; current strategy is mostly good, so only subtle adjustments are needed.",
    "- User often rates trips as bad; be conservative, avoid extreme genre shifts, and stay closer to safe, widely-liked tracks.",
    "- Many trips are rated as “meh”; increase variety within the chosen vibe so playlists feel less repetitive."]

/-- A track action in the rain family, as the design document words bucket
(a): a `track_action` record whose weather is Rain, Drizzle or Thunderstorm. -/
def inRainBucket (log : FeedbackLog) : Prop :=
  log.type = some "track_action" ∧
    (log.weather = some "Rain" ∨ log.weather = some "Drizzle" ∨
      log.weather = some "Thunderstorm")

/-- A track action of bucket (b): heavy or severe traffic while the vibe is
focus. -/
def inHeavyFocusBucket (log : FeedbackLog) : Prop :=
  log.type = some "track_action" ∧
    (log.traffic = some "heavy" ∨ log.traffic = some "severe") ∧ log.vibe = some "focus"

/-- A track action of bucket (c): Clear or Clouds weather while the vibe is
hype or energetic. -/
def inClearBucket (log : FeedbackLog) : Prop :=
  log.type = some "track_action" ∧
    (log.weather = some "Clear" ∨ log.weather = some "Clouds") ∧
    (log.vibe = some "hype" ∨ log.vibe = some "energetic")

instance (log : FeedbackLog) : Decidable (inRainBucket log) := by
  unfold inRainBucket; infer_instance

instance (log : FeedbackLog) : Decidable (inHeavyFocusBucket log) := by
  unfold inHeavyFocusBucket; infer_instance

instance (log : FeedbackLog) : Decidable (inClearBucket log) := by
  unfold inClearBucket; infer_instance

/-- The action counts as loved. -/
def isLoved (log : FeedbackLog) : Prop := log.action = some "loved"

/-- The action counts as negative: skipped or bad fit. -/
def isNegativeAction (log : FeedbackLog) : Prop :=
  log.action = some "skipped" ∨ log.action = some "bad_fit"

instance (log : FeedbackLog) : Decidable (isLoved log) := by
  unfold isLoved; infer_instance

instance (log : FeedbackLog) : Decidable (isNegativeAction log) := by
  unfold isNegativeAction; infer_instance

/-- Number of records of a log that satisfy `p`. -/
def countWhere (p : FeedbackLog → Prop) [DecidablePred p] (logs : List FeedbackLog) : Nat :=
  logs.countP (fun log => decide (p log))

/-- Number of trip ratings of a log with the given rating. -/
def tripCount (rating : String) (logs : List FeedbackLog) : Nat :=
  logs.countP (fun log => decide (log.type = some "trip_rating" ∧ log.rating = some rating))

/-- The three trip-level lines. -/
def PreferenceLine.isTripLine : PreferenceLine → Bool
  | .tripsGreat => true
  | .tripsBad => true
  | .tripsMeh => true
  | _ => false

/-- Some bucket rule or trip-rating rule fires on the log, in terms of the
counts of the design document: a rain or heavy-traffic bucket with at least
3 relevant events and unequal sides, at least 2 loved events in the
clear-weather bucket, or at least 3 trip ratings with one of the three
trip-level conditions. -/
def ruleFires (logs : List FeedbackLog) : Prop :=
  (3 ≤ countWhere (fun l => inRainBucket l ∧ isNegativeAction l) logs +
      countWhere (fun l => inRainBucket l ∧ isLoved l) logs ∧
    countWhere (fun l => inRainBucket l ∧ isNegativeAction l) logs ≠
      countWhere (fun l => inRainBucket l ∧ isLoved l) logs) ∨
  (3 ≤ countWhere (fun l => inHeavyFocusBucket l ∧ isNegativeAction l) logs +
      countWhere (fun l => inHeavyFocusBucket l ∧ isLoved l) logs ∧
    countWhere (fun l => inHeavyFocusBucket l ∧ isNegativeAction l) logs ≠
      countWhere (fun l => inHeavyFocusBucket l ∧ isLoved l) logs) ∨
  2 ≤ countWhere (fun l => inClearBucket l ∧ isLoved l) logs ∨
  (3 ≤ tripCount "great" logs + tripCount "meh" logs + tripCount "bad" logs ∧
    (tripCount "bad" logs + 2 ≤ tripCount "great" logs ∨
      tripCount "great" logs + 1 ≤ tripCount "bad" logs ∨
      (tripCount "great" logs < tripCount "meh" logs ∧
        tripCount "bad" logs < tripCount "meh" logs)))

/-! ## GeoProgressTracker -/

/-- A JavaScript number that is either not-a-number (`none`) or an exact
value.  Rounding of floating-point arithmetic is not modelled. -/
abbrev JsNumber := Option ℚ

/-- The comparison `x < bound`; it is false when `x` is not-a-number. -/
def jsLess (x : JsNumber) (bound : ℚ) : Bool :=
  match x with
  | some v => decide (v < bound)
  | none => false

/-- The functions of the `Math` object that `calculateDistance` calls, as
functions on exact numbers; `sqrt` may answer not-a-number. -/
structure JsMath where
  pi : ℚ
  sin : ℚ → ℚ
  cos : ℚ → ℚ
  sqrt : ℚ → JsNumber
  atan2 : ℚ → ℚ → ℚ

/-- Transcription of `calculateDistance` (mapbox.js, 205-218), the haversine
distance in metres.  Every arithmetic step propagates not-a-number, and each
of the four arguments enters the result. -/
def calculateDistance (m : JsMath) (lat1 lng1 lat2 lng2 : JsNumber) : JsNumber := do
  let lat1 ← lat1
  let lng1 ← lng1
  let lat2 ← lat2
  let lng2 ← lng2
  let R : ℚ := 6371000
  let phi1 := lat1 * m.pi / 180
  let phi2 := lat2 * m.pi / 180
  let deltaPhi := (lat2 - lat1) * m.pi / 180
  let deltaLambda := (lng2 - lng1) * m.pi / 180
  let a := m.sin (deltaPhi / 2) * m.sin (deltaPhi / 2) +
    m.cos phi1 * m.cos phi2 * m.sin (deltaLambda / 2) * m.sin (deltaLambda / 2)
  let rootA ← m.sqrt a
  let rootB ← m.sqrt (1 - a)
  let c := 2 * m.atan2 rootA rootB
  pure (R * c)

/-- A position `{ lat, lng }`. -/
structure Coordinate where
  lat : JsNumber
  lng : JsNumber
deriving DecidableEq, Repr

/-- A maneuver step (mapbox.js, 35-42; NavigationScreen.js, 101-152);
`location` is the pair `[lng, lat]` of the maneuver point. -/
structure ManeuverStep where
  distance : ℚ
  text : String
  type : String
  modifier : String
  location : Option (JsNumber × JsNumber)
deriving DecidableEq, Repr

/-- The state of the navigation screen (NavigationScreen.js, 35-52), one
field per `useState` cell the trip logic reads or writes.
`distanceToNextStep` is `null` (`none`) until a distance has been stored. -/
structure TripSession where
  currentLocation : Option Coordinate
  weatherData : Option Weather
  trafficData : Option Traffic
  navigationSteps : List ManeuverStep
  currentStepIndex : Nat
  distanceToNextStep : Option JsNumber
  playlist : List Track
  currentTrackIndex : Nat
  isPlaying : Bool
  currentVibe : String
  loading : Bool

/-- The state right after mount, before `initializeTrip` has run. -/
def TripSession.initial (mood : String) : TripSession :=
  { currentLocation := none, weatherData := none, trafficData := none,
    navigationSteps := [], currentStepIndex := 0, distanceToNextStep := none,
    playlist := [], currentTrackIndex := 0, isPlaying := false, currentVibe := mood,
    loading := true }

/-- One run of the navigation progress effect (NavigationScreen.js,
279-300): the live progress tracker.  Each early `return` leaves the state
as it is. -/
def trackProgress (m : JsMath) (demoMode : Bool) (s : TripSession) : TripSession :=
  match s.currentLocation with
  | none => s
  | some currentLocation =>
    if s.navigationSteps.length = 0 ∨ demoMode = true then s
    else
      match s.navigationSteps[s.currentStepIndex]? with
      | none => s
      | some currentStep =>
        match currentStep.location with
        | none => s
        | some location =>
          let distance :=
            calculateDistance m currentLocation.lat currentLocation.lng location.2 location.1
          let s := { s with distanceToNextStep := some distance }
          if jsLess distance 20 = true ∧ s.currentStepIndex < s.navigationSteps.length - 1 then
            { s with currentStepIndex := s.currentStepIndex + 1 }
          else s

/-! ## DemoSimulator -/

/-- A waypoint of the demo script (mockRoute.js). -/
structure Waypoint where
  lat : ℚ
  lng : ℚ
  traffic : String
  weather : Weather
deriving DecidableEq, Repr

/-- The scripted demo route `MOCK_ROUTE` (mockRoute.js, 7-121). -/
def MOCK_ROUTE : List Waypoint :=
  [
    Waypoint.mk 43.0592 (-89.5040) "light" (Weather.mk (some "Clear") (some "sunny") (some 23)),
    Waypoint.mk 43.0608 (-89.4976) "light" (Weather.mk (some "Clear") (some "sunny") (some 23)),
    Waypoint.mk 43.0614 (-89.4929) "moderate" (Weather.mk (some "Clouds") (some "partly cloudy") (some 22)),
    Waypoint.mk 43.0620 (-89.4871) "moderate" (Weather.mk (some "Clouds") (some "partly cloudy") (some 22)),
    Waypoint.mk 43.0627 (-89.4813) "heavy" (Weather.mk (some "Clouds") (some "cloudy") (some 21)),
    Waypoint.mk 43.0652 (-89.4748) "heavy" (Weather.mk (some "Rain") (some "light rain") (some 20)),
    Waypoint.mk 43.0667 (-89.4695) "heavy" (Weather.mk (some "Rain") (some "light rain") (some 19)),
    Waypoint.mk 43.0679 (-89.4643) "severe" (Weather.mk (some "Rain") (some "moderate rain") (some 18)),
    Waypoint.mk 43.0685 (-89.4599) "severe" (Weather.mk (some "Rain") (some "heavy rain") (some 18)),
    Waypoint.mk 43.0689 (-89.4520) "moderate" (Weather.mk (some "Rain") (some "heavy rain") (some 19)),
    Waypoint.mk 43.0687 (-89.4435) "moderate" (Weather.mk (some "Rain") (some "heavy rain") (some 20)),
    Waypoint.mk 43.0700 (-89.4350) "moderate" (Weather.mk (some "Clouds") (some "clouds clearing") (some 20)),
    Waypoint.mk 43.0707 (-89.4241) "heavy" (Weather.mk (some "Clouds") (some "overcast") (some 20)),
    Waypoint.mk 43.0709 (-89.4190) "moderate" (Weather.mk (some "Clouds") (some "cloudy") (some 21)),
    Waypoint.mk 43.0711 (-89.4147) "light" (Weather.mk (some "Clouds") (some "clouds breaking") (some 22)),
    Waypoint.mk 43.0715 (-89.4075) "smooth" (Weather.mk (some "Clear") (some "sunny") (some 23))
  ]

/-- The mock navigation steps `initializeTrip` installs in demo mode
(NavigationScreen.js, 101-152). -/
def demoNavigationSteps : List ManeuverStep :=
  [
    ManeuverStep.mk 500 "Head west on Mineral Point Rd" "depart" "straight" (some (some (-89.5040), some 43.0592)),
    ManeuverStep.mk 800 "Continue on Mineral Point Rd" "continue" "straight" (some (some (-89.4932), some 43.0605)),
    ManeuverStep.mk 300 "Turn right onto Whitney Way" "turn" "right" (some (some (-89.4811), some 43.0624)),
    ManeuverStep.mk 600 "Turn left onto University Ave" "turn" "left" (some (some (-89.4687), some 43.0660)),
    ManeuverStep.mk 400 "Continue onto Regent St" "new name" "straight" (some (some (-89.4588), some 43.0692)),
    ManeuverStep.mk 200 "Turn slight right to stay on Regent St" "turn" "slight right" (some (some (-89.4237), some 43.0708)),
    ManeuverStep.mk 100 "Arrive at Union South" "arrive" "straight" (some (some (-89.4075), some 43.0715))
  ]

/-- What `AsyncStorage.getItem` followed by `JSON.parse` yields for a key:
no item, the stored log, or a failure of the read or of the parse. -/
inductive StoredItem where
  | missing
  | logs (records : List FeedbackLog)
  | unreadable
deriving DecidableEq, Repr

/-- The feedback storage, by storage key. -/
abbrev FeedbackStore := String → StoredItem

/-- The storage key of a user (feedback.js, 13-15). -/
def getKey (username : String) : String :=
  "vibenav_feedback_" ++ username

/-- Transcription of `getFeedbackLogs` (feedback.js, 49-59): no log for a
missing or empty username, for a missing item and for a failed read. -/
def getFeedbackLogs (store : FeedbackStore) (username : Option String) : List FeedbackLog :=
  match username with
  | none => []
  | some name =>
    if name = "" then []
    else
      match store (getKey name) with
      | .missing => []
      | .logs records => records
      | .unreadable => []

/-- Transcription of `getPreferenceSummary` (feedback.js, 252-255). -/
def getPreferenceSummary (store : FeedbackStore) (username : Option String) : String :=
  summarizePreferences (getFeedbackLogs store username)

/-- The argument object of the playlist request at trip start in demo mode
(NavigationScreen.js, 164-171).  No `trackNumber` is passed. -/
def demoStartArgs (initialVibe : String) (start : Waypoint) (userTracks : Option (List Track))
    (preferencesText : String) : PlaylistArgs :=
  { mood := initialVibe, weather := start.weather, traffic := Traffic.mk (some start.traffic),
    duration := 1200, userTracks := userTracks.getD [],
    preferencesText := some preferencesText }

/-- The argument object of the playlist request at trip start in live mode
(NavigationScreen.js, 232-239).  No `trackNumber` is passed. -/
def liveStartArgs (initialVibe : String) (weather : Weather) (traffic : Traffic)
    (routeDuration : ℚ) (userTracks : Option (List Track)) (preferencesText : String) :
    PlaylistArgs :=
  { mood := initialVibe, weather := weather, traffic := traffic, duration := routeDuration,
    userTracks := userTracks.getD [], preferencesText := some preferencesText }

/-- The argument object of the playlist request of a demo tick
(NavigationScreen.js, 341-348).  No `trackNumber` is passed. -/
def demoTickArgs (currentVibe : String) (point : Waypoint) (userTracks : Option (List Track))
    (preferencesText : String) : PlaylistArgs :=
  { mood := currentVibe, weather := point.weather, traffic := Traffic.mk (some point.traffic),
    duration := 1200, userTracks := userTracks.getD [],
    preferencesText := some preferencesText }

/-- The values the interval callback of the demo loop captured from the
render in which the effect ran (NavigationScreen.js, 305-362): the callback
reads these, not the current state. -/
structure DemoClosure where
  navigationSteps : List ManeuverStep
  currentStepIndex : Nat
  currentVibe : String
  username : Option String
  userTracks : Option (List Track)

/-- What the outside world answers during one tick: the recommender, the
random reordering used by padding, and the feedback storage as it is then. -/
structure TickEnv where
  recommend : Prompt → Except String AIResponse
  shuffle : List Track → List Track
  store : FeedbackStore

/-- The demo loop between ticks: the local counter `index`, whether the
interval is still set, the screen state, and the playlist requests issued so
far, oldest first (a record kept for the statements, not a variable of the
source). -/
structure DemoRun where
  index : Nat
  running : Bool
  session : TripSession
  requests : List PlaylistArgs

/-- The three state updates that move the demo to a waypoint
(NavigationScreen.js, 323-327). -/
def moveToWaypoint (point : Waypoint) (s : TripSession) : TripSession :=
  let s := { s with currentLocation := some (Coordinate.mk (some point.lat) (some point.lng)) }
  let s := { s with trafficData := some (Traffic.mk (some point.traffic)) }
  { s with weatherData := some point.weather }

/-- The step advance of a demo tick (NavigationScreen.js, 329-334).  The
two guards read the captured `navigationSteps` and `currentStepIndex`; the
update `prev => Math.min(prev + 1, navigationSteps.length - 1)` reads the
current step index and the captured steps. -/
def advanceDemoStep (cl : DemoClosure) (index : Nat) (s : TripSession) : TripSession :=
  if cl.navigationSteps.length > 0 ∧ cl.currentStepIndex < cl.navigationSteps.length - 1 then
    if index % 2 = 0 then
      let next := Nat.min (s.currentStepIndex + 1) (cl.navigationSteps.length - 1)
      { s with currentStepIndex := next }
    else s
  else s

/-- The `try / catch` around the playlist request of a demo tick
(NavigationScreen.js, 340-358): a result is installed and the track index
reset, a failure is logged and leaves the state as it is. -/
def installPlaylist (outcome : Except String PlaylistResult) (s : TripSession) :
    TripSession :=
  match outcome with
  | .ok playlistResult => { s with playlist := playlistResult.tracks, currentTrackIndex := 0 }
  | .error _ => s

/-- One tick of the demo loop (NavigationScreen.js, 312-359), taken as a
whole: the answer of the recommender arrives before the next tick.  After
the test `index >= MOCK_ROUTE.length` the read `MOCK_ROUTE[index]` always
finds a waypoint; the branch for a missing one cannot be reached. -/
def demoTick (cl : DemoClosure) (env : TickEnv) (r : DemoRun) : DemoRun :=
  if r.running = false then r
  else
    let index := r.index + 1
    if index ≥ MOCK_ROUTE.length then
      { r with index := index, running := false }
    else
      match MOCK_ROUTE[index]? with
      | none => { r with index := index, running := false }
      | some point =>
        let s := moveToWaypoint point r.session
        let s := advanceDemoStep cl index s
        let preferencesText := getPreferenceSummary env.store cl.username
        let args := demoTickArgs cl.currentVibe point cl.userTracks preferencesText
        let s := installPlaylist (generatePlaylistPrompt env.recommend env.shuffle args) s
        { index := index, running := true, session := s, requests := r.requests ++ [args] }

/-- A sequence of ticks, one environment per tick. -/
def demoTicks (cl : DemoClosure) (envs : List TickEnv) (r : DemoRun) : DemoRun :=
  envs.foldl (fun run env => demoTick cl env run) r

/-- The demo branch of `initializeTrip` (NavigationScreen.js, 79-176) from
the state after mount, and the demo loop at its start: counter `0`, interval
set, one request issued.  A failed request is caught by `initializeTrip`,
which then only clears `loading`. -/
def startDemo (mood : String) (username : Option String) (userTracks : Option (List Track))
    (env : TickEnv) : DemoRun :=
  match MOCK_ROUTE.head? with
  | none => { index := 0, running := true, session := TripSession.initial mood, requests := [] }
  | some start =>
    let s := TripSession.initial mood
    let s := moveToWaypoint start s
    let s := { s with navigationSteps := demoNavigationSteps, currentStepIndex := 0 }
    let initialVibe :=
      chooseInitialVibe mood (some start.weather) (some (Traffic.mk (some start.traffic)))
    let s := { s with currentVibe := initialVibe }
    let preferencesText := getPreferenceSummary env.store username
    let args := demoStartArgs initialVibe start userTracks preferencesText
    let s :=
      match generatePlaylistPrompt env.recommend env.shuffle args with
      | .ok playlistResult =>
        { s with playlist := playlistResult.tracks, currentTrackIndex := 0, isPlaying := true,
                 loading := false }
      | .error _ => { s with loading := false }
    { index := 0, running := true, session := s, requests := [args] }

/-- The closure of the demo loop when the effect runs on the state `s`. -/
def closureOf (s : TripSession) (username : Option String)
    (userTracks : Option (List Track)) : DemoClosure :=
  { navigationSteps := s.navigationSteps, currentStepIndex := s.currentStepIndex,
    currentVibe := s.currentVibe, username := username, userTracks := userTracks }

/-! ## PreferenceLearner: the storage -/

/-- An operation on the feedback storage: it yields a value and the storage
it leaves behind. -/
abbrev Storage (α : Type) := FeedbackStore → α × FeedbackStore

/-- The read `AsyncStorage.getItem(key)` followed by `JSON.parse`. -/
def asyncGetItem (key : String) : Storage StoredItem :=
  fun store => (store key, store)

/-- The write `AsyncStorage.setItem(key, JSON.stringify(logs))`. -/
def asyncSetItem (key : String) (logs : List FeedbackLog) : Storage Unit :=
  fun store => ((), fun k => if k = key then StoredItem.logs logs else store k)

/-- `getFeedbackLogs` (feedback.js, 49-59) as an operation on the storage:
its only access is one `getItem`. -/
def readFeedbackLogs (username : Option String) : Storage (List FeedbackLog) :=
  fun store =>
    match username with
    | none => ([], store)
    | some name =>
      if name = "" then ([], store)
      else
        match asyncGetItem (getKey name) store with
        | (StoredItem.missing, store) => ([], store)
        | (StoredItem.logs records, store) => (records, store)
        | (StoredItem.unreadable, store) => ([], store)

/-- `getPreferenceSummary` (feedback.js, 252-255) as an operation on the
storage. -/
def readPreferenceSummary (username : Option String) : Storage String :=
  fun store =>
    match readFeedbackLogs username store with
    | (logs, store) => (summarizePreferences logs, store)

/-- Transcription of `logFeedback` (feedback.js, 22-42).  `now` is the value
of `Date.now()`; `writeOk` tells whether `setItem` succeeds.  A failed read
or parse and a failed write are caught and logged, and nothing is written. -/
def logFeedback (now : Nat) (writeOk : Bool) (username : Option String)
    (entry : FeedbackEntry) : Storage Unit :=
  fun store =>
    match username with
    | none => ((), store)
    | some name =>
      if name = "" then ((), store)
      else
        match asyncGetItem (getKey name) store with
        | (StoredItem.unreadable, store) => ((), store)
        | (StoredItem.missing, store) =>
          let logs : List FeedbackLog := []
          let logs := logs ++ [{ toFeedbackEntry := entry, timestamp := now }]
          if writeOk = true then asyncSetItem (getKey name) logs store else ((), store)
        | (StoredItem.logs records, store) =>
          let logs := records ++ [{ toFeedbackEntry := entry, timestamp := now }]
          if writeOk = true then asyncSetItem (getKey name) logs store else ((), store)

/-! ## Double-precision numbers -/

/-- The number of binary digits of `n`, `0` for `0`; `fuel` bounds the
number of halvings and `n` itself is enough. -/
def bitLength : Nat → Nat → Nat
  | 0, _ => 0
  | fuel + 1, n => if n = 0 then 0 else bitLength fuel (n / 2) + 1

/-- A finite non-negative JavaScript number, an IEEE 754 binary64 value, as
`mant * 2 ^ exp`.  Infinities, not-a-number, negative and subnormal values do
not occur in the arithmetic modelled with it. -/
structure JsDouble where
  mant : Nat
  exp : Int
deriving DecidableEq, Repr

/-- The exact value of a double. -/
def JsDouble.toRat (d : JsDouble) : ℚ :=
  d.mant * (2 : ℚ) ^ d.exp

/-- The integer part of the binary logarithm of `num / den`. -/
def floorLog2 (num den : Nat) : Int :=
  let b : Int := (bitLength num num : Int) - (bitLength den den : Int)
  if num * 2 ^ (-b).toNat ≥ den * 2 ^ b.toNat then b else b - 1

/-- The multiple of `2 ^ e` nearest to `num / den`, the even one of the two
when they are equally near. -/
def roundAt (num den : Nat) (e : Int) : JsDouble :=
  let scaledNum := num * 2 ^ (-e).toNat
  let scaledDen := den * 2 ^ e.toNat
  let q := scaledNum / scaledDen
  let r := scaledNum % scaledDen
  if 2 * r > scaledDen ∨ (2 * r = scaledDen ∧ q % 2 = 1) then JsDouble.mk (q + 1) e
  else JsDouble.mk q e

/-- The double nearest to `num / den`, with 53 significant binary digits and
ties to even: the value of a decimal literal such as `0.3`, and the rounding
every arithmetic operation applies to its exact result. -/
def roundDouble (num den : Nat) : JsDouble :=
  if num = 0 ∨ den = 0 then JsDouble.mk 0 0 else roundAt num den (floorLog2 num den - 52)

/-- A count or an integer literal as a double. -/
def JsDouble.ofNat (n : Nat) : JsDouble :=
  roundDouble n 1

/-- The product `a * b` of JavaScript: the exact product, rounded. -/
def JsDouble.mul (a b : JsDouble) : JsDouble :=
  roundDouble (a.mant * b.mant * 2 ^ (a.exp + b.exp).toNat) (2 ^ (-(a.exp + b.exp)).toNat)

/-- The quotient `a / b` of JavaScript for `b` other than zero: the exact
quotient, rounded. -/
def JsDouble.div (a b : JsDouble) : JsDouble :=
  roundDouble (a.mant * 2 ^ (a.exp - b.exp).toNat) (b.mant * 2 ^ (b.exp - a.exp).toNat)

/-- The comparison `a < b`. -/
def JsDouble.lt (a b : JsDouble) : Bool :=
  decide (a.mant * 2 ^ (a.exp - min a.exp b.exp).toNat <
    b.mant * 2 ^ (b.exp - min a.exp b.exp).toNat)

/-- The double `d` is a nearest double to `x`, with 53 significant binary
digits and the even neighbour at a tie: what IEEE 754 asks of a rounding. -/
def IsRounding (x : ℚ) (d : JsDouble) : Prop :=
  (x = 0 ∧ d.mant = 0) ∨
  (0 < x ∧ (2 : ℚ) ^ 52 ≤ x * (2 : ℚ) ^ (-d.exp) ∧ x * (2 : ℚ) ^ (-d.exp) < (2 : ℚ) ^ 53 ∧
    (d.mant : ℚ) - 1 / 2 ≤ x * (2 : ℚ) ^ (-d.exp) ∧
    x * (2 : ℚ) ^ (-d.exp) ≤ (d.mant : ℚ) + 1 / 2 ∧
    ((x * (2 : ℚ) ^ (-d.exp) = (d.mant : ℚ) + 1 / 2 ∨
        x * (2 : ℚ) ^ (-d.exp) = (d.mant : ℚ) - 1 / 2) → d.mant % 2 = 0))

/-! ## Traffic analysis -/

/-- The record `analyzeTraffic` returns. -/
structure TrafficAnalysis where
  level : String
  heavy : JsDouble
  moderate : JsDouble
  low : JsDouble
  description : String
deriving DecidableEq, Repr

/-- The four counters of `analyzeTraffic` (mapbox.js, 148-151). -/
structure CongestionCounts where
  heavy : Nat
  moderate : Nat
  low : Nat
  severe : Nat
deriving DecidableEq, Repr

/-- The body of the `congestionData.forEach` callback (mapbox.js, 153-158). -/
def countCongestion (c : CongestionCounts) (level : String) : CongestionCounts :=
  if level = "severe" then { c with severe := c.severe + 1 }
  else if level = "heavy" then { c with heavy := c.heavy + 1 }
  else if level = "moderate" then { c with moderate := c.moderate + 1 }
  else { c with low := c.low + 1 }

/-- The answer of `analyzeTraffic` without data (mapbox.js, 138-146). -/
def trafficUnavailable : TrafficAnalysis :=
  TrafficAnalysis.mk "unknown" (JsDouble.ofNat 0) (JsDouble.ofNat 0) (JsDouble.ofNat 0)
    "Traffic data unavailable"

/-- Transcription of `analyzeTraffic` (mapbox.js, 137-195) in double
precision; a missing list is `none`.  The counters stay below `2 ^ 53`, where
counting is exact. -/
def analyzeTraffic (congestionData : Option (List String)) : TrafficAnalysis :=
  match congestionData with
  | none => trafficUnavailable
  | some data =>
    if data.length = 0 then trafficUnavailable
    else
      let c := data.foldl countCongestion (CongestionCounts.mk 0 0 0 0)
      let total := JsDouble.ofNat data.length
      let heavyPercent :=
        ((JsDouble.ofNat (c.heavy + c.severe)).div total).mul (JsDouble.ofNat 100)
      let moderatePercent := ((JsDouble.ofNat c.moderate).div total).mul (JsDouble.ofNat 100)
      let lowPercent := ((JsDouble.ofNat c.low).div total).mul (JsDouble.ofNat 100)
      if (total.mul (roundDouble 3 10)).lt (JsDouble.ofNat c.severe) = true then
        TrafficAnalysis.mk "severe" heavyPercent moderatePercent lowPercent
          "Severe traffic congestion"
      else if (JsDouble.ofNat 40).lt heavyPercent = true then
        TrafficAnalysis.mk "heavy" heavyPercent moderatePercent lowPercent
          "Heavy traffic expected"
      else if (JsDouble.ofNat 30).lt moderatePercent = true ∨
          (JsDouble.ofNat 20).lt heavyPercent = true then
        TrafficAnalysis.mk "moderate" heavyPercent moderatePercent lowPercent
          "Moderate traffic"
      else if (total.mul (roundDouble 7 10)).lt (JsDouble.ofNat c.low) = true then
        TrafficAnalysis.mk "light" heavyPercent moderatePercent lowPercent "Light traffic"
      else
        TrafficAnalysis.mk "smooth" heavyPercent moderatePercent lowPercent
          "Traffic is smooth"

/-- The fraction of the samples of `data` that satisfy `p`. -/
def sampleFraction (p : String → Bool) (data : List String) : ℚ :=
  (data.countP p : ℚ) / (data.length : ℚ)

/-- A sample that is neither severe, heavy nor moderate: a `low` sample, an
`unknown` sample, or any other text. -/
def isOtherSample (level : String) : Bool :=
  level != "severe" && level != "heavy" && level != "moderate"

/-- The number of samples that are neither severe, heavy nor moderate
exceeds the double-precision product of the number of samples and `0.7`. -/
def otherSamplesExceed (data : List String) : Bool :=
  ((JsDouble.ofNat data.length).mul (roundDouble 7 10)).lt
    (JsDouble.ofNat (data.countP isOtherSample))

/-- The level of a non-empty list of samples by the first rule that
matches: the first three rules on the fractions of the samples, the fourth on
the double-precision test for the remaining samples. -/
def levelByFractions (data : List String) : String :=
  if sampleFraction (fun l => l == "severe") data > 30 / 100 then "severe"
  else if sampleFraction (fun l => l == "heavy" || l == "severe") data > 40 / 100 then "heavy"
  else if sampleFraction (fun l => l == "moderate") data > 30 / 100 ∨
      sampleFraction (fun l => l == "heavy" || l == "severe") data > 20 / 100 then "moderate"
  else if otherSamplesExceed data = true then "light"
  else "smooth"

/-! ## TripSession: live start and events -/

/-- What `getRoute` returns, as far as `initializeTrip` reads it
(mapbox.js, 49-55). -/
structure RouteInfo where
  distance : ℚ
  duration : ℚ
  congestion : Option (List String)
  steps : Option (List ManeuverStep)

/-- What the outside world answers during `initializeTrip` in live mode:
the permission prompt, the position fix, the route, the weather, and the
recommender, padding order and feedback storage. -/
structure LiveEnv where
  permissionGranted : Bool
  position : Except String Coordinate
  route : Except String RouteInfo
  weather : Except String Weather
  tick : TickEnv

/-- The result of `initializeTrip`: the screen state, the playlist requests
issued, the alert shown if any, and whether location tracking was started
(the last three are records kept for the statements). -/
structure InitOutcome where
  session : TripSession
  requests : List PlaylistArgs
  alert : Option String
  tracking : Bool

/-- The `catch` block of `initializeTrip` (NavigationScreen.js, 244-248):
an alert with the message of the error, and `loading` cleared. -/
def initFailed (s : TripSession) (requests : List PlaylistArgs) (tracking : Bool)
    (message : String) : InitOutcome :=
  let s := { s with loading := false }
  { session := s, requests := requests,
    alert := some (if message != "" then message else "Failed to initialize trip"),
    tracking := tracking }

/-- The live branch of `initializeTrip` (NavigationScreen.js, 179-249) from
the state after mount.  Every awaited call that fails throws into the one
`catch` block of the function. -/
def initializeTripLive (mood : String) (username : Option String)
    (userTracks : Option (List Track)) (env : LiveEnv) : InitOutcome :=
  let s := TripSession.initial mood
  if env.permissionGranted = false then
    let s := { s with loading := false }
    { session := s, requests := [], alert := some "Location permission is required",
      tracking := false }
  else
    match env.position with
    | .error e => initFailed s [] false e
    | .ok origin =>
      let s := { s with currentLocation := some origin }
      match env.route with
      | .error e => initFailed s [] false e
      | .ok routeInfo =>
        let s :=
          match routeInfo.steps with
          | none => s
          | some steps =>
            if steps.length > 0 then { s with navigationSteps := steps, currentStepIndex := 0 }
            else s
        match env.weather with
        | .error e => initFailed s [] true e
        | .ok weather =>
          let s := { s with weatherData := some weather }
          let traffic := Traffic.mk (some (analyzeTraffic routeInfo.congestion).level)
          let s := { s with trafficData := some traffic }
          let initialVibe := chooseInitialVibe mood (some weather) (some traffic)
          let s := { s with currentVibe := initialVibe }
          let preferencesText := getPreferenceSummary env.tick.store username
          let args := liveStartArgs initialVibe weather traffic routeInfo.duration userTracks
            preferencesText
          match generatePlaylistPrompt env.tick.recommend env.tick.shuffle args with
          | .error e => initFailed s [args] true e
          | .ok playlistResult =>
            let s := { s with playlist := playlistResult.tracks, currentTrackIndex := 0 }
            let s := { s with isPlaying := true, loading := false }
            { session := s, requests := [args], alert := none, tracking := true }

/-- The state change of `handleNext` (NavigationScreen.js, 387-404); the
skip record it also logs goes to the feedback storage. -/
def handleNext (s : TripSession) : TripSession :=
  if s.currentTrackIndex < s.playlist.length - 1 then
    { s with currentTrackIndex := s.currentTrackIndex + 1 }
  else s

/-- Transcription of `handlePrevious` (NavigationScreen.js, 406-410). -/
def handlePrevious (s : TripSession) : TripSession :=
  if s.currentTrackIndex > 0 then { s with currentTrackIndex := s.currentTrackIndex - 1 }
  else s

/-- The events of a trip session. -/
inductive TripEvent where
  | positionUpdate (position : Coordinate)
  | demoTick (env : TickEnv)
  | nextTrack
  | previousTrack

/-- The effect of one event.  A position update stores the position and
runs the progress effect; a demo tick fires only in demo mode, where the
interval exists. -/
def applyEvent (m : JsMath) (demoMode : Bool) (cl : DemoClosure) (r : DemoRun)
    (e : TripEvent) : DemoRun :=
  match e with
  | .positionUpdate position =>
    let moved := { r.session with currentLocation := some position }
    { r with session := trackProgress m demoMode moved }
  | .demoTick env => if demoMode = true then demoTick cl env r else r
  | .nextTrack => { r with session := handleNext r.session }
  | .previousTrack => { r with session := handlePrevious r.session }

/-- The effect of a sequence of events. -/
def applyEvents (m : JsMath) (demoMode : Bool) (cl : DemoClosure) (events : List TripEvent)
    (r : DemoRun) : DemoRun :=
  events.foldl (applyEvent m demoMode cl) r

/-- A trip session in live mode, where no demo loop exists: the counter and
the request record of the run are not used. -/
def liveRun (s : TripSession) : DemoRun :=
  { index := 0, running := false, session := s, requests := [] }

/-- The closure the demo loop runs with.  The effect is keyed on
`[demoMode, currentVibe, user, userTracks]` (NavigationScreen.js, 362): it is
set up on the state after mount, and set up again, from the state
`initializeTrip` has produced, only when the vibe selected at trip start
differs from the declared mood. -/
def demoLoopClosure (mood : String) (username : Option String)
    (userTracks : Option (List Track)) (env : TickEnv) : DemoClosure :=
  if (startDemo mood username userTracks env).session.currentVibe = mood then
    closureOf (TripSession.initial mood) username userTracks
  else
    closureOf (startDemo mood username userTracks env).session username userTracks

/-- The conditions a waypoint of the script carries. -/
def Waypoint.conditions (p : Waypoint) : Weather × Traffic :=
  (p.weather, Traffic.mk (some p.traffic))

/-- The conditions a playlist request carries. -/
def PlaylistArgs.conditions (a : PlaylistArgs) : Weather × Traffic :=
  (a.weather, a.traffic)

/-- The conditions the screen shows. -/
def TripSession.conditions (s : TripSession) : Option Weather × Option Traffic :=
  (s.weatherData, s.trafficData)

/-! ## Concrete inputs -/

/-- A pool of `n` tracks with the pairwise distinct ids `1`, ..., `n`. -/
def numberedPool (n : Nat) : List Track :=
  (List.range n).map (fun i => Track.mk (toString (i + 1)) "Song" "Artist")

/-- A request for a twenty-minute trip in clear weather and light traffic
over the pool `userTracks`, at sequence position `trackNumber`. -/
def sampleArgs (userTracks : List Track) (trackNumber : Nat) : PlaylistArgs :=
  PlaylistArgs.mk "hype" (Weather.mk (some "Clear") (some "sunny") (some 23))
    (Traffic.mk (some "light")) 1200 userTracks none trackNumber

/-- A recommender that answers every prompt with the index list `indices`. -/
def fixedRecommender (indices : List Int) : Prompt → Except String AIResponse :=
  fun _ => .ok (AIResponse.mk (.array indices) (.string "fits the mood"))

/-- A request at sequence position `trackNumber` in rain and heavy traffic. -/
def rainyHeavyArgs (trackNumber : Nat) : PlaylistArgs :=
  PlaylistArgs.mk "hype" (Weather.mk (some "Rain") (some "light rain") (some 12))
    (Traffic.mk (some "heavy")) 1200 (numberedPool 12) none trackNumber

/-- A stored track action with the given action, weather, traffic and vibe. -/
def trackLog (action weather traffic vibe : String) : FeedbackLog :=
  { type := some "track_action", action := some action, rating := none,
    trackId := some "1", trackName := some "Song", artist := some "Artist",
    mood := some "happy", vibe := some vibe, weather := some weather,
    traffic := some traffic, timestamp := 0 }

/-- A stored trip rating with the given rating. -/
def ratingLog (rating : String) : FeedbackLog :=
  { type := some "trip_rating", action := none, rating := some rating,
    trackId := none, trackName := none, artist := none,
    mood := some "happy", vibe := some "hype", weather := some "Clear",
    traffic := some "light", timestamp := 0 }

/-- The scenario log of the design document: five track actions in rain,
four skipped and one loved, in light traffic with a calm vibe. -/
def rainScenarioLog : List FeedbackLog :=
  [trackLog "skipped" "Rain" "light" "calm", trackLog "skipped" "Rain" "light" "calm",
    trackLog "loved" "Rain" "light" "calm", trackLog "skipped" "Rain" "light" "calm",
    trackLog "skipped" "Rain" "light" "calm"]

/-- Three track actions skipped in a thunderstorm, in heavy traffic with the
focus vibe that `chooseInitialVibe` selects under these conditions. -/
def stormHeavyFocusLog : List FeedbackLog :=
  [trackLog "skipped" "Thunderstorm" "heavy" "focus",
    trackLog "skipped" "Thunderstorm" "heavy" "focus",
    trackLog "skipped" "Thunderstorm" "heavy" "focus"]

/-- Seven trip ratings: three great and four meh. -/
def mehPluralityLog : List FeedbackLog :=
  [ratingLog "great", ratingLog "great", ratingLog "great", ratingLog "meh", ratingLog "meh",
    ratingLog "meh", ratingLog "meh"]

/-- Three trip ratings: one great and two meh. -/
def mehOnlyLog : List FeedbackLog :=
  [ratingLog "great", ratingLog "meh", ratingLog "meh"]

/-- A `Math` object under which `calculateDistance` answers `d` metres for
every pair of well-formed positions. -/
def constantDistanceMath (d : ℚ) : JsMath :=
  { pi := 22 / 7, sin := fun x => x, cos := fun _ => 1, sqrt := fun x => some x,
    atan2 := fun _ _ => d / 12742000 }

/-- A `Math` object of first-order approximations for small angles:
`sin x` is `x`, `cos x` is `1 - x² / 2`, `sqrt` is the rational square root,
exact on squares, and `atan2 y x` is `y`, the angle of a point with small `y`
and `x` next to `1`.  Under it a point `d` metres due north or south of
another is reported at `d` metres, with 355/113 for `Math.PI`. -/
def smallAngleMath : JsMath :=
  { pi := 355 / 113, sin := fun x => x, cos := fun x => 1 - x * x / 2,
    sqrt := fun x => if x < 0 then none else some (Rat.sqrt x),
    atan2 := fun y _ => y }

/-- The position `d` metres due south of the maneuver point of the third
demo step, which lies at latitude 43.0624 and longitude -89.4811. -/
def southOfThirdStep (d : ℚ) : Coordinate :=
  Coordinate.mk (some (43.0624 - d * 180 / (6371000 * (355 / 113)))) (some (-89.4811))

/-- A live trip over the seven demo steps, at step `index`, at position
`position`, with `distance` the distance stored so far. -/
def liveSession (index : Nat) (position : Coordinate) (distance : Option JsNumber) :
    TripSession :=
  { currentLocation := some position, weatherData := none, trafficData := none,
    navigationSteps := demoNavigationSteps, currentStepIndex := index,
    distanceToNextStep := distance, playlist := [], currentTrackIndex := 0,
    isPlaying := true, currentVibe := "hype", loading := false }

/-- An environment whose recommender answers with the first twelve indices,
whose padding keeps the pool order, and whose feedback storage is empty. -/
def quietEnv : TickEnv :=
  { recommend := fixedRecommender [1, 2, 3, 4, 5, 6, 7, 8, 9, 10, 11, 12],
    shuffle := fun l => l, store := fun _ => StoredItem.missing }

/-- A feedback storage without any item. -/
def emptyStore : FeedbackStore :=
  fun _ => StoredItem.missing

/-- The entry `logTrackAction` builds for a track skipped in rain. -/
def skipEntry : FeedbackEntry :=
  { type := some "track_action", action := some "skipped", rating := none,
    trackId := some "1", trackName := some "Song", artist := some "Artist",
    mood := some "calm", vibe := some "calm", weather := some "Rain",
    traffic := some "light" }

/-- An environment whose recommender call fails, as when the network is
down. -/
def failingEnv : TickEnv :=
  { recommend := fun _ => .error "Network request failed",
    shuffle := fun l => l, store := fun _ => StoredItem.missing }

/-- A live start at which the position and the route are obtained and
the weather request fails. -/
def weatherDownEnv : LiveEnv :=
  { permissionGranted := true,
    position := .ok (Coordinate.mk (some 43) (some (-89))),
    route := .ok { distance := 8000, duration := 1200,
                   congestion := some ["low", "heavy", "low"],
                   steps := some demoNavigationSteps },
    weather := .error "Network Error",
    tick := quietEnv }

/-- Ninety congestion samples: 63 low, 18 moderate and 9 heavy. -/
def seventyPercentLowRoute : List String :=
  List.replicate 63 "low" ++ List.replicate 18 "moderate" ++ List.replicate 9 "heavy"

/-- Ten congestion samples for which Mapbox reports no level. -/
def unknownRoute : List String :=
  List.replicate 10 "unknown"

/-- Ten congestion samples: 7 low, 2 moderate and 1 heavy. -/
def shortLowRoute : List String :=
  List.replicate 7 "low" ++ List.replicate 2 "moderate" ++ List.replicate 1 "heavy"

/-! ## Shared lemmas on index mapping and padding -/

theorem jsIndex_eq_some_iff {α : Type} (xs : List α) (k : Int) (a : α) :
    jsIndex xs k = some a ↔ 0 ≤ k ∧ xs[k.toNat]? = some a := by
  unfold jsIndex
  split_ifs with h <;> simp [h]

theorem jsIndex_mem {α : Type} {xs : List α} {k : Int} {a : α}
    (h : jsIndex xs k = some a) : a ∈ xs := by
  rw [jsIndex_eq_some_iff] at h
  exact List.getElem?_mem h.2

theorem mapSelected_nil (pool : List Track) : mapSelected pool [] = [] := rfl

theorem mapSelected_cons (pool : List Track) (i : Int) (is : List Int) :
    mapSelected pool (i :: is) =
      match jsIndex pool (i - 1) with
      | some t => t :: mapSelected pool is
      | none => mapSelected pool is := by
  unfold mapSelected
  cases h : jsIndex pool (i - 1) <;> simp [List.filterMap_cons, h]

theorem mem_mapSelected_iff (pool : List Track) (indices : List Int) (t : Track) :
    t ∈ mapSelected pool indices ↔ ∃ i ∈ indices, jsIndex pool (i - 1) = some t := by
  unfold mapSelected
  simp [List.mem_filterMap]

theorem mem_pool_of_mem_mapSelected {pool : List Track} {indices : List Int} {t : Track}
    (h : t ∈ mapSelected pool indices) : t ∈ pool := by
  obtain ⟨i, _, hi⟩ := (mem_mapSelected_iff pool indices t).1 h
  exact jsIndex_mem hi

theorem mapSelected_length_le (pool : List Track) (indices : List Int) :
    (mapSelected pool indices).length ≤ indices.length := by
  unfold mapSelected
  exact (List.length_filterMap_le _ _).trans (by simp)

theorem mem_remainingTracks_iff (pool selected : List Track) (t : Track) :
    t ∈ remainingTracks pool selected ↔ t ∈ pool ∧ ∀ st ∈ selected, st.id ≠ t.id := by
  unfold remainingTracks
  simp [List.mem_filter, List.find?_eq_none]

theorem padSelected_of_lt (shuffle : List Track → List Track) (pool selected : List Track)
    (h : selected.length < 8) :
    padSelected shuffle pool selected =
      selected ++ (shuffle (remainingTracks pool selected)).take (10 - selected.length) := by
  simp [padSelected, h]

theorem padSelected_of_ge (shuffle : List Track → List Track) (pool selected : List Track)
    (h : 8 ≤ selected.length) : padSelected shuffle pool selected = selected := by
  simp [padSelected, Nat.not_lt.2 h]

theorem mem_padSelected {shuffle : List Track → List Track}
    (hshuffle : ∀ l, (shuffle l).Perm l) {pool selected : List Track} {t : Track}
    (h : t ∈ padSelected shuffle pool selected) :
    t ∈ selected ∨ t ∈ remainingTracks pool selected := by
  by_cases hlen : selected.length < 8
  · rw [padSelected_of_lt _ _ _ hlen, List.mem_append] at h
    rcases h with h | h
    · exact Or.inl h
    · exact Or.inr ((hshuffle _).mem_iff.1 (List.mem_of_mem_take h))
  · rw [padSelected_of_ge _ _ _ (Nat.not_lt.1 hlen)] at h
    exact Or.inl h

theorem padSelected_length (shuffle : List Track → List Track)
    (hshuffle : ∀ l, (shuffle l).Perm l) (pool selected : List Track) :
    (padSelected shuffle pool selected).length =
      if selected.length < 8 then
        min 10 (selected.length + (remainingTracks pool selected).length)
      else selected.length := by
  by_cases hlen : selected.length < 8
  · rw [padSelected_of_lt _ _ _ hlen, if_pos hlen, List.length_append, List.length_take,
      (hshuffle _).length_eq]
    omega
  · rw [padSelected_of_ge _ _ _ (Nat.not_lt.1 hlen), if_neg hlen]

/-- The value `generatePlaylistPrompt` returns once the recommender has
answered with an index list. -/
theorem generatePlaylistPrompt_of_array (recommend : Prompt → Except String AIResponse)
    (shuffle : List Track → List Track) (args : PlaylistArgs) (indices : List Int)
    (reasoning : JsValue)
    (hrec : recommend (buildPrompt args) = .ok (AIResponse.mk (.array indices) reasoning)) :
    generatePlaylistPrompt recommend shuffle args =
      .ok (PlaylistResult.mk
        (padSelected shuffle args.userTracks (mapSelected args.userTracks indices))
        (if reasoning.truthy then reasoning else .string "")) := by
  simp [generatePlaylistPrompt, hrec, handleResponse, JsValue.truthy, JsValue.isArray]

theorem trackList_map_snd (pool : List Track) :
    (trackList pool).map Prod.snd = pool.take (tracksToUse pool) := by
  unfold trackList
  rw [List.map_map]
  exact List.enum_map_snd _

theorem trackList_map_fst (pool : List Track) :
    (trackList pool).map Prod.fst = List.range' 1 (tracksToUse pool) := by
  unfold trackList
  rw [List.map_map]
  have h : (Prod.fst ∘ fun p : Nat × Track => (p.1 + 1, p.2)) = (fun n => n + 1) ∘ Prod.fst := rfl
  rw [h, ← List.map_map, List.enum_map_fst, List.length_take, List.range_eq_range',
    show (fun n : Nat => n + 1) = (fun n => 1 + n) from funext (fun n => Nat.add_comm n 1),
    List.map_add_range']
  simp [tracksToUse]

theorem remainingTracks_length_ge (pool selected : List Track)
    (hids : (pool.map Track.id).Nodup) :
    pool.length ≤ selected.length + (remainingTracks pool selected).length := by
  have hsplit := List.length_eq_length_filter_add
    (fun t : Track => !(selected.find? (fun st => st.id == t.id)).isSome) (l := pool)
  have hsub : ((pool.filter
      (fun t => !(!(selected.find? (fun st => st.id == t.id)).isSome))).map Track.id).Subperm
      (selected.map Track.id) := by
    apply List.subperm_of_subset
    · exact hids.sublist (List.Sublist.map _ (List.filter_sublist _))
    · intro x hx
      obtain ⟨t, ht, rfl⟩ := List.mem_map.1 hx
      have hp := (List.mem_filter.1 ht).2
      simp only [Bool.not_not] at hp
      obtain ⟨st, hst⟩ := Option.isSome_iff_exists.1 hp
      have hmem := List.mem_of_find?_eq_some hst
      have heq := List.find?_some hst
      exact List.mem_map.2 ⟨st, hmem, by simpa using heq⟩
  have hle := hsub.length_le
  simp only [List.length_map] at hle
  unfold remainingTracks
  omega

theorem position_eq_of_id_eq {pool : List Track} (hids : (pool.map Track.id).Nodup)
    {a b : Nat} {t u : Track} (ha : pool[a]? = some t) (hb : pool[b]? = some u)
    (hid : t.id = u.id) : a = b := by
  obtain ⟨hla, rfl⟩ := List.getElem?_eq_some.1 ha
  obtain ⟨hlb, rfl⟩ := List.getElem?_eq_some.1 hb
  have hmapa : a < (pool.map Track.id).length := by simpa using hla
  have hmapb : b < (pool.map Track.id).length := by simpa using hlb
  exact (@List.Nodup.getElem_inj_iff _ _ hids a hmapa b hmapb).1 (by simpa using hid)

/-- Distinct indices select tracks with distinct ids from a pool whose ids
are pairwise distinct. -/
theorem mapSelected_ids_nodup {pool : List Track} (hids : (pool.map Track.id).Nodup)
    {indices : List Int} (hnd : indices.Nodup) :
    ((mapSelected pool indices).map Track.id).Nodup := by
  induction indices with
  | nil => simp [mapSelected_nil]
  | cons i rest ih =>
    have hnd2 := List.nodup_cons.1 hnd
    rw [mapSelected_cons]
    cases hi : jsIndex pool (i - 1) with
    | none => exact ih hnd2.2
    | some t =>
      simp only [List.map_cons, List.nodup_cons]
      refine ⟨?_, ih hnd2.2⟩
      intro hmem
      obtain ⟨u, hu, hid⟩ := List.mem_map.1 hmem
      obtain ⟨j, hj, hju⟩ := (mem_mapSelected_iff pool rest u).1 hu
      rw [jsIndex_eq_some_iff] at hi hju
      have hpos := position_eq_of_id_eq hids hi.2 hju.2 hid.symm
      have hij : i = j := by omega
      exact hnd2.1 (hij ▸ hj)

/-- The playlist built from distinct indices over a pool with pairwise
distinct ids has pairwise distinct ids, padding included. -/
theorem padSelected_ids_nodup {shuffle : List Track → List Track}
    (hshuffle : ∀ l, (shuffle l).Perm l) {pool : List Track}
    (hids : (pool.map Track.id).Nodup) {indices : List Int} (hnd : indices.Nodup) :
    ((padSelected shuffle pool (mapSelected pool indices)).map Track.id).Nodup := by
  by_cases hlen : (mapSelected pool indices).length < 8
  · rw [padSelected_of_lt _ _ _ hlen, List.map_append]
    have hsub : ((shuffle (remainingTracks pool (mapSelected pool indices))).take
        (10 - (mapSelected pool indices).length)).Subperm
        (remainingTracks pool (mapSelected pool indices)) :=
      (List.take_sublist _ _).subperm.trans (hshuffle _).subperm
    refine List.Nodup.append (mapSelected_ids_nodup hids hnd) ?_ ?_
    · have hrem : ((shuffle (remainingTracks pool (mapSelected pool indices))).map
          Track.id).Nodup :=
        (((hshuffle _).map Track.id).nodup_iff).2
          (hids.sublist (List.Sublist.map _ (List.filter_sublist _)))
      exact hrem.sublist (List.Sublist.map _ (List.take_sublist _ _))
    · intro x hx1 hx2
      obtain ⟨st, hst, hsx⟩ := List.mem_map.1 hx1
      obtain ⟨t, ht, htx⟩ := List.mem_map.1 hx2
      exact ((mem_remainingTracks_iff _ _ _).1 (hsub.subset ht)).2 st hst (hsx.trans htx.symm)
  · rw [padSelected_of_ge _ _ _ (Nat.not_lt.1 hlen)]
    exact mapSelected_ids_nodup hids hnd

/-! ## VibeSelector -/

/-- C1: `chooseInitialVibe` returns a vibe for every declared mood and every
conditions record, absent weather or traffic included: `calm` when the
weather condition is Rain or Drizzle; otherwise `focus` when the traffic
level is heavy or severe; otherwise `hype` when the traffic level is light or
smooth and the weather is Clear; otherwise the declared mood.  Rain with
light traffic and declared mood `hype` gives `calm`, and the result is always
the declared mood or one of calm, focus, hype. -/
theorem chooseInitialVibe_precedence (mood : String) (weather : Option Weather)
    (traffic : Option Traffic) :
    ((weatherCondition weather = some "Rain" ∨ weatherCondition weather = some "Drizzle") →
      chooseInitialVibe mood weather traffic = "calm") ∧
    (¬ (weatherCondition weather = some "Rain" ∨ weatherCondition weather = some "Drizzle") →
      (trafficLevel traffic = some "heavy" ∨ trafficLevel traffic = some "severe") →
      chooseInitialVibe mood weather traffic = "focus") ∧
    (¬ (weatherCondition weather = some "Rain" ∨ weatherCondition weather = some "Drizzle") →
      ¬ (trafficLevel traffic = some "heavy" ∨ trafficLevel traffic = some "severe") →
      ((trafficLevel traffic = some "light" ∨ trafficLevel traffic = some "smooth") ∧
        weatherCondition weather = some "Clear") →
      chooseInitialVibe mood weather traffic = "hype") ∧
    (¬ (weatherCondition weather = some "Rain" ∨ weatherCondition weather = some "Drizzle") →
      ¬ (trafficLevel traffic = some "heavy" ∨ trafficLevel traffic = some "severe") →
      ¬ ((trafficLevel traffic = some "light" ∨ trafficLevel traffic = some "smooth") ∧
        weatherCondition weather = some "Clear") →
      chooseInitialVibe mood weather traffic = mood) ∧
    chooseInitialVibe mood none none = mood ∧
    chooseInitialVibe "hype" (some (Weather.mk (some "Rain") none none))
      (some (Traffic.mk (some "light"))) = "calm" ∧
    (chooseInitialVibe mood weather traffic = mood ∨
      chooseInitialVibe mood weather traffic ∈ ["calm", "focus", "hype"]) := by
  refine ⟨?_, ?_, ?_, ?_, ?_, ?_, ?_⟩
  · intro h
    simp only [weatherCondition] at h
    simp [chooseInitialVibe, h]
  · intro h1 h2
    simp only [weatherCondition, trafficLevel] at h1 h2
    simp [chooseInitialVibe, h1, h2]
  · intro h1 h2 h3
    simp only [weatherCondition, trafficLevel] at h1 h2 h3
    simp [chooseInitialVibe, h1, h2, h3]
  · intro h1 h2 h3
    simp only [weatherCondition, trafficLevel] at h1 h2 h3
    simp [chooseInitialVibe, h1, h2, h3]
  · simp [chooseInitialVibe]
  · simp [chooseInitialVibe]
  · unfold chooseInitialVibe
    simp only []
    split_ifs <;> simp

/-! ## PlaylistOrchestrator: the returned playlist -/

set_option maxRecDepth 100000 in
/-- C2, counterexample: with a pool of 101 tracks the recommender is offered
the first 100; when it answers with index 101 the returned playlist holds the
101st track, which is not in the offered list. -/
theorem playlist_track_outside_offered_list :
    ∃ r, generatePlaylistPrompt (fixedRecommender [101, 1, 2, 3, 4, 5, 6, 7]) id
        (sampleArgs (numberedPool 101) 0) = .ok r ∧
      ∃ t ∈ r.tracks, t ∉ (trackList (numberedPool 101)).map Prod.snd := by
  refine ⟨_, generatePlaylistPrompt_of_array _ _ _ _ _ rfl, Track.mk "101" "Song" "Artist", ?_, ?_⟩
  · decide
  · decide

/-- C2 (amended): once the recommender has answered with an index list,
`generatePlaylistPrompt` returns a playlist each of whose tracks is a member
of the candidate pool passed in; when the pool has at most 100 tracks that is
the list offered to the recommender. -/
theorem playlist_tracks_from_pool (recommend : Prompt → Except String AIResponse)
    (shuffle : List Track → List Track) (hshuffle : ∀ l, (shuffle l).Perm l)
    (args : PlaylistArgs) (indices : List Int) (reasoning : JsValue)
    (hrec : recommend (buildPrompt args) = .ok (AIResponse.mk (.array indices) reasoning)) :
    ∃ r, generatePlaylistPrompt recommend shuffle args = .ok r ∧
      (∀ t ∈ r.tracks, t ∈ args.userTracks) ∧
      (args.userTracks.length ≤ 100 →
        ∀ t ∈ r.tracks, t ∈ (buildPrompt args).trackList.map Prod.snd) := by
  refine ⟨_, generatePlaylistPrompt_of_array recommend shuffle args indices reasoning hrec, ?_, ?_⟩
  · intro t ht
    rcases mem_padSelected hshuffle ht with h | h
    · exact mem_pool_of_mem_mapSelected h
    · exact ((mem_remainingTracks_iff _ _ _).1 h).1
  · intro hlen t ht
    have hpool : t ∈ args.userTracks := by
      rcases mem_padSelected hshuffle ht with h | h
      · exact mem_pool_of_mem_mapSelected h
      · exact ((mem_remainingTracks_iff _ _ _).1 h).1
    show t ∈ (trackList args.userTracks).map Prod.snd
    rw [trackList_map_snd, tracksToUse, Nat.min_eq_right hlen, List.take_length]
    exact hpool

/-- Witness of `playlist_tracks_from_pool`: a pool of three tracks and the
answer `[2, 5]`, padded in reversed order. -/
theorem playlist_tracks_from_pool_witness :
    (∀ l : List Track, (List.reverse l).Perm l) ∧
    ∃ r, generatePlaylistPrompt (fixedRecommender [2, 5]) List.reverse
        (sampleArgs (numberedPool 3) 0) = .ok r ∧
      (∀ t ∈ r.tracks, t ∈ (sampleArgs (numberedPool 3) 0).userTracks) ∧
      ((sampleArgs (numberedPool 3) 0).userTracks.length ≤ 100 →
        ∀ t ∈ r.tracks,
          t ∈ (buildPrompt (sampleArgs (numberedPool 3) 0)).trackList.map Prod.snd) :=
  ⟨fun l => List.reverse_perm l,
    playlist_tracks_from_pool (fixedRecommender [2, 5]) List.reverse
      (fun l => List.reverse_perm l) (sampleArgs (numberedPool 3) 0) [2, 5]
      (.string "fits the mood") rfl⟩

/-- C3, the code at a repeated index: over a pool of twelve tracks with
pairwise distinct ids, the answer that lists index 3 twice yields a playlist
in which the track with id `3` occurs twice. -/
theorem playlist_repeats_track_on_repeated_index :
    ((numberedPool 12).map Track.id).Nodup ∧
    ∃ r, generatePlaylistPrompt (fixedRecommender [3, 3, 1, 2, 4, 5, 6, 7, 8, 9, 10, 11]) id
        (sampleArgs (numberedPool 12) 0) = .ok r ∧
      r.tracks.length = 12 ∧
      (r.tracks.map Track.id).count "3" = 2 ∧
      ¬ (r.tracks.map Track.id).Nodup := by
  refine ⟨by decide, _, generatePlaylistPrompt_of_array _ _ _ _ _ rfl, ?_, ?_, ?_⟩
  · decide
  · decide
  · decide

/-- C4, counterexample: twenty-one in-range indices over a pool of twenty-one
tracks give a playlist of twenty-one tracks, above the maximum of 20; the
answer `[1, 2]` over a pool of three tracks gives a playlist of three tracks,
below the floor of 8. -/
theorem playlist_length_outside_bounds :
    (∃ r, generatePlaylistPrompt
        (fixedRecommender [1, 2, 3, 4, 5, 6, 7, 8, 9, 10, 11, 12, 13, 14, 15, 16, 17, 18, 19, 20, 21])
        id (sampleArgs (numberedPool 21) 0) = .ok r ∧ 20 < r.tracks.length) ∧
    (∃ r, generatePlaylistPrompt (fixedRecommender [1, 2]) id
        (sampleArgs (numberedPool 3) 0) = .ok r ∧ r.tracks.length < 8) := by
  refine ⟨⟨_, generatePlaylistPrompt_of_array _ _ _ _ _ rfl, ?_⟩,
    ⟨_, generatePlaylistPrompt_of_array _ _ _ _ _ rfl, ?_⟩⟩
  · decide
  · decide

/-- C4 (amended): once the recommender has answered with a list of `k`
indices, the returned playlist has at most `max 10 k` tracks, hence at most
20 when the recommender returns at most 20 indices; over a candidate pool
with pairwise distinct ids it has at least `min 8 n` tracks, `n` the size of
the pool, hence at least 8 whenever the pool holds at least 8 tracks. -/
theorem playlist_length_bounds (recommend : Prompt → Except String AIResponse)
    (shuffle : List Track → List Track) (hshuffle : ∀ l, (shuffle l).Perm l)
    (args : PlaylistArgs) (indices : List Int) (reasoning : JsValue)
    (hrec : recommend (buildPrompt args) = .ok (AIResponse.mk (.array indices) reasoning)) :
    ∃ r, generatePlaylistPrompt recommend shuffle args = .ok r ∧
      r.tracks.length ≤ max 10 indices.length ∧
      (indices.length ≤ 20 → r.tracks.length ≤ 20) ∧
      ((args.userTracks.map Track.id).Nodup →
        min 8 args.userTracks.length ≤ r.tracks.length ∧
        (8 ≤ args.userTracks.length → 8 ≤ r.tracks.length)) := by
  refine ⟨_, generatePlaylistPrompt_of_array recommend shuffle args indices reasoning hrec, ?_, ?_, ?_⟩
  · have hlen := padSelected_length shuffle hshuffle args.userTracks
      (mapSelected args.userTracks indices)
    have hsel := mapSelected_length_le args.userTracks indices
    show (padSelected shuffle args.userTracks (mapSelected args.userTracks indices)).length ≤ _
    rw [hlen]
    split_ifs <;> omega
  · intro hk
    have hlen := padSelected_length shuffle hshuffle args.userTracks
      (mapSelected args.userTracks indices)
    have hsel := mapSelected_length_le args.userTracks indices
    show (padSelected shuffle args.userTracks (mapSelected args.userTracks indices)).length ≤ _
    rw [hlen]
    split_ifs <;> omega
  · intro hids
    have hlen := padSelected_length shuffle hshuffle args.userTracks
      (mapSelected args.userTracks indices)
    have hrem := remainingTracks_length_ge args.userTracks
      (mapSelected args.userTracks indices) hids
    show min 8 args.userTracks.length ≤
        (padSelected shuffle args.userTracks (mapSelected args.userTracks indices)).length ∧
      (8 ≤ args.userTracks.length →
        8 ≤ (padSelected shuffle args.userTracks (mapSelected args.userTracks indices)).length)
    rw [hlen]
    split_ifs <;> omega

/-- Witness of `playlist_length_bounds`: a pool of eight tracks and the
answer `[2, 40, 5]`, padded in reversed order. -/
theorem playlist_length_bounds_witness :
    (∀ l : List Track, (List.reverse l).Perm l) ∧
    ∃ r, generatePlaylistPrompt (fixedRecommender [2, 40, 5]) List.reverse
        (sampleArgs (numberedPool 8) 0) = .ok r ∧
      r.tracks.length ≤ max 10 [(2 : Int), 40, 5].length ∧
      ([(2 : Int), 40, 5].length ≤ 20 → r.tracks.length ≤ 20) ∧
      (((sampleArgs (numberedPool 8) 0).userTracks.map Track.id).Nodup →
        min 8 (sampleArgs (numberedPool 8) 0).userTracks.length ≤ r.tracks.length ∧
        (8 ≤ (sampleArgs (numberedPool 8) 0).userTracks.length → 8 ≤ r.tracks.length)) :=
  ⟨fun l => List.reverse_perm l,
    playlist_length_bounds (fixedRecommender [2, 40, 5]) List.reverse
      (fun l => List.reverse_perm l) (sampleArgs (numberedPool 8) 0) [2, 40, 5]
      (.string "fits the mood") rfl⟩

/-- C5: when fewer than 8 tracks survive index mapping, the returned playlist
is the selected tracks followed by a padding drawn from the remaining pool
tracks, those whose id differs from every selected id: the padding is the
first `10 - selected` tracks of the shuffled remainder, the playlist has
`min 10 (selected + remaining)` tracks, so 10 when the remainder suffices, and
otherwise the padding is every remaining pool track. -/
theorem padding_below_floor (recommend : Prompt → Except String AIResponse)
    (shuffle : List Track → List Track) (hshuffle : ∀ l, (shuffle l).Perm l)
    (args : PlaylistArgs) (indices : List Int) (reasoning : JsValue)
    (hrec : recommend (buildPrompt args) = .ok (AIResponse.mk (.array indices) reasoning))
    (hfew : (mapSelected args.userTracks indices).length < 8) :
    ∃ r pad, generatePlaylistPrompt recommend shuffle args = .ok r ∧
      r.tracks = mapSelected args.userTracks indices ++ pad ∧
      pad.Subperm (remainingTracks args.userTracks (mapSelected args.userTracks indices)) ∧
      (∀ t ∈ pad, t ∈ args.userTracks ∧
        ∀ st ∈ mapSelected args.userTracks indices, st.id ≠ t.id) ∧
      r.tracks.length = min 10 ((mapSelected args.userTracks indices).length +
        (remainingTracks args.userTracks (mapSelected args.userTracks indices)).length) ∧
      (10 ≤ (mapSelected args.userTracks indices).length +
          (remainingTracks args.userTracks (mapSelected args.userTracks indices)).length →
        r.tracks.length = 10) ∧
      ((mapSelected args.userTracks indices).length +
          (remainingTracks args.userTracks (mapSelected args.userTracks indices)).length ≤ 10 →
        pad.Perm (remainingTracks args.userTracks (mapSelected args.userTracks indices))) := by
  have hsub : ((shuffle (remainingTracks args.userTracks
      (mapSelected args.userTracks indices))).take
      (10 - (mapSelected args.userTracks indices).length)).Subperm
      (remainingTracks args.userTracks (mapSelected args.userTracks indices)) :=
    (List.take_sublist _ _).subperm.trans (hshuffle _).subperm
  have hlen := padSelected_length shuffle hshuffle args.userTracks
    (mapSelected args.userTracks indices)
  rw [if_pos hfew] at hlen
  refine ⟨_, (shuffle (remainingTracks args.userTracks
      (mapSelected args.userTracks indices))).take
      (10 - (mapSelected args.userTracks indices).length),
    generatePlaylistPrompt_of_array recommend shuffle args indices reasoning hrec,
    padSelected_of_lt _ _ _ hfew, hsub, ?_, hlen, ?_, ?_⟩
  · intro t ht
    exact (mem_remainingTracks_iff _ _ _).1 (hsub.subset ht)
  · intro h
    show (padSelected shuffle args.userTracks (mapSelected args.userTracks indices)).length = 10
    rw [hlen]
    omega
  · intro h
    have htake : (shuffle (remainingTracks args.userTracks
        (mapSelected args.userTracks indices))).take
        (10 - (mapSelected args.userTracks indices).length) =
        shuffle (remainingTracks args.userTracks (mapSelected args.userTracks indices)) := by
      apply List.take_of_length_le
      rw [(hshuffle _).length_eq]
      omega
    rw [htake]
    exact hshuffle _

/-- Witness of `padding_below_floor`: a pool of twelve tracks and the answer
`[2, 40, 5]`, of which two indices survive, padded in reversed order. -/
theorem padding_below_floor_witness :
    (∀ l : List Track, (List.reverse l).Perm l) ∧
    (mapSelected (sampleArgs (numberedPool 12) 0).userTracks [2, 40, 5]).length < 8 ∧
    ∃ r pad, generatePlaylistPrompt (fixedRecommender [2, 40, 5]) List.reverse
        (sampleArgs (numberedPool 12) 0) = .ok r ∧
      r.tracks = mapSelected (sampleArgs (numberedPool 12) 0).userTracks [2, 40, 5] ++ pad ∧
      r.tracks.length = 10 :=
  ⟨fun l => List.reverse_perm l, by decide,
    (padding_below_floor (fixedRecommender [2, 40, 5]) List.reverse
      (fun l => List.reverse_perm l) (sampleArgs (numberedPool 12) 0) [2, 40, 5]
      (.string "fits the mood") rfl (by decide)).imp
      (fun _ h => h.imp (fun _ h => ⟨h.1, h.2.1, h.2.2.2.2.2.1 (by decide)⟩))⟩

/-- C6: given a parsed recommender response, `generatePlaylistPrompt` fails
exactly when the `selectedTracks` field is missing or is not a list, and then
with the error `Invalid AI response format`; when the field is a list it
returns the playlist result built from it, whatever the indices. -/
theorem invalid_format_iff_not_list (recommend : Prompt → Except String AIResponse)
    (shuffle : List Track → List Track) (args : PlaylistArgs) (result : AIResponse)
    (hrec : recommend (buildPrompt args) = .ok result) :
    ((∃ e, generatePlaylistPrompt recommend shuffle args = .error e) ↔
      (result.selectedTracks = JsValue.undefined ∨
        ∀ indices, result.selectedTracks ≠ JsValue.array indices)) ∧
    (∀ e, generatePlaylistPrompt recommend shuffle args = .error e →
      e = "Invalid AI response format") ∧
    (∀ indices, result.selectedTracks = JsValue.array indices →
      generatePlaylistPrompt recommend shuffle args =
        .ok (PlaylistResult.mk
          (padSelected shuffle args.userTracks (mapSelected args.userTracks indices))
          (if result.reasoning.truthy then result.reasoning else .string ""))) := by
  obtain ⟨sel, reasoning⟩ := result
  cases sel <;>
    simp [generatePlaylistPrompt, hrec, handleResponse, JsValue.truthy, JsValue.isArray]

/-- Witness of `invalid_format_iff_not_list`: the response whose
`selectedTracks` field is the string `"1, 2"`. -/
theorem invalid_format_iff_not_list_witness :
    generatePlaylistPrompt (fun _ => .ok (AIResponse.mk (.string "1, 2") .undefined)) id
      (sampleArgs (numberedPool 3) 0) = .error "Invalid AI response format" := by
  have h := invalid_format_iff_not_list
    (fun _ => .ok (AIResponse.mk (.string "1, 2") .undefined)) id
    (sampleArgs (numberedPool 3) 0) (AIResponse.mk (.string "1, 2") .undefined) rfl
  obtain ⟨e, he⟩ := h.1.2 (Or.inr (fun _ hx => by cases hx))
  rw [he, h.2.1 e he]

/-! ## PlaylistOrchestrator: index mapping and the offered list -/

theorem jsIndex_pred_of_inBounds (pool : List Track) (i : Int)
    (h : 1 ≤ i ∧ i ≤ (pool.length : Int)) :
    jsIndex pool (i - 1) = some (pool.get ⟨(i - 1).toNat, by omega⟩) := by
  rw [jsIndex_eq_some_iff]
  refine ⟨by omega, ?_⟩
  rw [List.getElem?_eq_some]
  exact ⟨by omega, rfl⟩

theorem jsIndex_pred_of_not_inBounds (pool : List Track) (i : Int)
    (h : ¬ (1 ≤ i ∧ i ≤ (pool.length : Int))) : jsIndex pool (i - 1) = none := by
  unfold jsIndex
  split_ifs with h0
  · rw [List.getElem?_eq_none_iff]
    omega
  · rfl

/-- C7: the tracks selected before padding are the pool tracks at the
in-bounds 1-based indices, in the order the recommender gave them; an index
that is 0, negative or greater than the pool size is dropped; and the number
a track carries in the offered list maps back to that track. -/
theorem mapSelected_eq_selectInBounds (pool : List Track) (indices : List Int) :
    mapSelected pool indices = selectInBounds pool indices ∧
    (∀ i : Int, (i ≤ 0 ∨ (pool.length : Int) < i) →
      ∀ before after, mapSelected pool (before ++ i :: after) =
        mapSelected pool (before ++ after)) ∧
    (∀ n t, (n, t) ∈ trackList pool → mapSelected pool [(n : Int)] = [t]) := by
  refine ⟨?_, ?_, ?_⟩
  · induction indices with
    | nil => rfl
    | cons i rest ih =>
      rw [mapSelected_cons, selectInBounds]
      by_cases h : 1 ≤ i ∧ i ≤ (pool.length : Int)
      · rw [dif_pos h, jsIndex_pred_of_inBounds pool i h, ih]
      · rw [dif_neg h, jsIndex_pred_of_not_inBounds pool i h, ih]
  · intro i hi before after
    have hnone : jsIndex pool (i - 1) = none :=
      jsIndex_pred_of_not_inBounds pool i (by omega)
    simp [mapSelected, hnone]
  · intro n t hmem
    unfold trackList at hmem
    obtain ⟨p, hp, hpeq⟩ := List.mem_map.1 hmem
    have hget := List.mem_enum_iff_getElem?.1 hp
    have hn : n = p.1 + 1 := (congrArg Prod.fst hpeq).symm
    have ht : t = p.2 := (congrArg Prod.snd hpeq).symm
    have hlt : p.1 < tracksToUse pool := by
      by_contra hge
      rw [List.getElem?_take, if_neg hge] at hget
      exact Option.noConfusion hget
    rw [List.getElem?_take_of_lt hlt] at hget
    have hjs : jsIndex pool ((n : Int) - 1) = some t := by
      rw [jsIndex_eq_some_iff, hn, ht]
      refine ⟨by omega, ?_⟩
      have hnat : (((p.1 + 1 : Nat) : Int) - 1).toNat = p.1 := by omega
      rw [hnat]
      exact hget
    simp [mapSelected, hjs]

/-- C8: the list offered to the recommender is the first `min 100 n` tracks
of the pool in their original order, numbered `1 .. min 100 n`: entry `k`
carries the number `k + 1` and the pool track at position `k`. -/
theorem trackList_numbered_prefix (pool : List Track) :
    trackList pool =
      (List.range' 1 (min 100 pool.length)).zip (pool.take (min 100 pool.length)) ∧
    (trackList pool).length = min 100 pool.length ∧
    (trackList pool).map Prod.snd = pool.take (min 100 pool.length) ∧
    (trackList pool).map Prod.fst = List.range' 1 (min 100 pool.length) ∧
    (∀ k, k < min 100 pool.length →
      (trackList pool)[k]? = pool[k]?.map (fun t => (k + 1, t))) := by
  refine ⟨List.zip_of_prod (trackList_map_fst pool) (trackList_map_snd pool), ?_,
    trackList_map_snd pool, trackList_map_fst pool, ?_⟩
  · simp [trackList, tracksToUse]
  · intro k hk
    unfold trackList
    rw [List.getElem?_map, List.getElem?_enum, List.getElem?_take_of_lt (by simpa [tracksToUse] using hk)]
    cases pool[k]? <;> rfl

/-! ## PlaylistOrchestrator: building the request -/

theorem durationMins_eq_iff (duration : ℚ) (m : Int) :
    durationMins duration = m ↔
      60 * (m : ℚ) - 30 ≤ duration ∧ duration < 60 * (m : ℚ) + 30 := by
  unfold durationMins jsRound
  rw [Int.floor_eq_iff]
  constructor
  · rintro ⟨h1, h2⟩
    constructor <;> linarith
  · rintro ⟨h1, h2⟩
    constructor <;> linarith

theorem max_min_eq_clamp (x : Int) : max 12 (min 20 x) = clamp x 12 20 := by
  unfold clamp
  split_ifs <;> omega

/-- C9, counterexample: for a trip of 2161 seconds the code asks for 12
tracks, while `clamp(ceil(durationMinutes / 3), 12, 20)` with
`durationMinutes = 2161 / 60` is 13. -/
theorem songsNeeded_differs_from_exact_minutes :
    songsNeeded 2161 = 12 ∧ targetLengthExactMinutes 2161 = 13 ∧
      songsNeeded 2161 ≠ targetLengthExactMinutes 2161 := by
  have h1 : songsNeeded 2161 = 12 := by
    have hm : durationMins 2161 = 36 := by
      rw [durationMins_eq_iff]
      norm_num
    have hc : ⌈((36 : Int) : ℚ) / 3⌉ = 12 := by
      rw [Int.ceil_eq_iff]
      norm_num
    unfold songsNeeded jsCeil
    rw [hm, hc]
    rfl
  have h2 : targetLengthExactMinutes 2161 = 13 := by
    have hc : ⌈(2161 : ℚ) / 60 / 3⌉ = 13 := by
      rw [Int.ceil_eq_iff]
      norm_num
    unfold targetLengthExactMinutes
    rw [hc]
    rfl
  refine ⟨h1, h2, ?_⟩
  rw [h1, h2]
  decide

/-- C9 (amended): for every trip duration in seconds the target playlist
length equals `clamp(ceil(durationMinutes / 3), 12, 20)` where
`durationMinutes` is the duration rounded to the nearest whole minute, halves
up: the integer `m` with `60 m - 30 ≤ duration < 60 m + 30`.  The length lies
in `12 .. 20`, and for a whole number of minutes it is the value computed from
the exact minutes. -/
theorem songsNeeded_eq_clamp_rounded_minutes (duration : ℚ) :
    songsNeeded duration = clamp ⌈((durationMins duration : Int) : ℚ) / 3⌉ 12 20 ∧
    (∀ m : Int, durationMins duration = m ↔
      60 * (m : ℚ) - 30 ≤ duration ∧ duration < 60 * (m : ℚ) + 30) ∧
    12 ≤ songsNeeded duration ∧ songsNeeded duration ≤ 20 ∧
    (∀ m : Int, duration = 60 * (m : ℚ) →
      songsNeeded duration = targetLengthExactMinutes duration) := by
  have hclamp : songsNeeded duration =
      clamp ⌈((durationMins duration : Int) : ℚ) / 3⌉ 12 20 := by
    unfold songsNeeded jsCeil
    exact max_min_eq_clamp _
  refine ⟨hclamp, durationMins_eq_iff duration, ?_, ?_, ?_⟩
  · unfold songsNeeded
    omega
  · unfold songsNeeded
    omega
  · intro m hm
    have hmins : durationMins duration = m := by
      rw [durationMins_eq_iff, hm]
      constructor <;> linarith
    rw [hclamp, hmins]
    unfold targetLengthExactMinutes
    rw [hm]
    congr 2
    ring

theorem mem_pushIf {c : Prop} [Decidable c] (x i : Instruction) :
    i ∈ pushIf c x ↔ c ∧ i = x := by
  unfold pushIf
  split_ifs with h <;> simp [h]

theorem mem_ite_else {a b : Prop} [Decidable a] [Decidable b] (x y i : Instruction) :
    i ∈ (if a then [x] else if b then [y] else []) ↔
      (a ∧ i = x) ∨ (¬ a ∧ b ∧ i = y) := by
  by_cases h1 : a <;> by_cases h2 : b <;> simp [h1, h2]

/-- The lines `getSelectionRules` returns, one disjunct per `push`. -/
theorem mem_getSelectionRules_iff (weather : Weather) (traffic : Traffic) (mood : String)
    (trackNumber : Nat) (i : Instruction) :
    i ∈ getSelectionRules weather traffic mood trackNumber ↔
      (trackNumber < 3 ∧ i = .topPriorityMood mood) ∨
      ((mood = "sad" ∨ mood = "melancholy") ∧ i = .sadMood) ∨
      ((mood = "energetic" ∨ mood = "hype") ∧ i = .energeticMood) ∨
      ((mood = "focus" ∨ mood = "chill") ∧ i = .focusChillMood) ∨
      ((traffic.level = some "heavy" ∧ trackNumber ≥ 3) ∧ i = .heavyTrafficRule) ∨
      (((weather.condition = some "Rain" ∨ weather.condition = some "Drizzle") ∧
        trackNumber ≥ 3) ∧ i = .rainRule) := by
  unfold getSelectionRules
  simp only [List.mem_append, mem_pushIf, or_assoc]

/-- The lines `getContextRules` returns, one disjunct per `push`. -/
theorem mem_getContextRules_iff (weather : Weather) (traffic : Traffic) (mood : String)
    (i : Instruction) :
    i ∈ getContextRules weather traffic mood ↔
      ((weather.condition = some "Rain" ∨ weather.condition = some "Drizzle") ∧
        i = .rainyContext) ∨
      (¬ (weather.condition = some "Rain" ∨ weather.condition = some "Drizzle") ∧
        (weather.condition = some "Clear" ∧ jsGreater weather.temperature 20 = true) ∧
        i = .sunnyContext) ∨
      ((traffic.level = some "heavy" ∨ traffic.level = some "severe") ∧
        i = .heavyTrafficContext) ∨
      (¬ (traffic.level = some "heavy" ∨ traffic.level = some "severe") ∧
        traffic.level = some "light" ∧ i = .lightTrafficContext) := by
  unfold getContextRules
  simp only [List.mem_append, mem_ite_else, or_assoc]

/-- C10, counterexample: the request for the first song of a trip in rain and
heavy traffic has sequence position 0 and its request context holds the
weather line `RAINY: Cozy, mellow music preferred` and the traffic line
`HEAVY TRAFFIC: Calm, steady music for safety`, both conditions-adjustment
instructions. -/
theorem first_song_context_has_conditions_rules :
    (rainyHeavyArgs 0).trackNumber < 3 ∧
    Instruction.rainyContext ∈ requestContext (buildPrompt (rainyHeavyArgs 0)) ∧
    Instruction.heavyTrafficContext ∈ requestContext (buildPrompt (rainyHeavyArgs 0)) ∧
    Instruction.rainyContext.isConditionsAdjustment = true ∧
    Instruction.heavyTrafficContext.isConditionsAdjustment = true ∧
    ¬ (∀ i ∈ requestContext (buildPrompt (rainyHeavyArgs 0)),
        i.isConditionsAdjustment = false) := by
  refine ⟨by decide, by decide, by decide, rfl, rfl, ?_⟩
  intro h
  exact absurd (h Instruction.rainyContext (by decide)) (by decide)

/-- C10 (amended): for a request with sequence position below 3 the priority
note and the selection rules carry the vibe-priority instruction and no
weather or traffic adjustment, for every weather and traffic value; the
context rules are computed from weather and traffic alone, the same at every
sequence position; for a request with sequence position 3 or more the
priority note is the conditions-adjustment note and no part of the request
context is a vibe-priority instruction. -/
theorem sequencing_policy (args : PlaylistArgs) :
    (args.trackNumber < 3 →
      (buildPrompt args).priorityNote = .moodPriorityNote (args.trackNumber + 1) args.mood ∧
      Instruction.topPriorityMood args.mood ∈ (buildPrompt args).selectionRules ∧
      (∀ i ∈ (buildPrompt args).priorityNote :: (buildPrompt args).selectionRules,
        i.isConditionsAdjustment = false) ∧
      (∃ i ∈ (buildPrompt args).priorityNote :: (buildPrompt args).selectionRules,
        i.isVibePriority = true)) ∧
    (∀ n : Nat, (buildPrompt (PlaylistArgs.mk args.mood args.weather args.traffic
        args.duration args.userTracks args.preferencesText n)).contextRules =
      (buildPrompt args).contextRules) ∧
    (3 ≤ args.trackNumber →
      (buildPrompt args).priorityNote =
        .conditionsNote (args.trackNumber + 1) args.weather.condition args.traffic.level ∧
      (buildPrompt args).priorityNote.isConditionsAdjustment = true ∧
      (args.traffic.level = some "heavy" →
        Instruction.heavyTrafficRule ∈ (buildPrompt args).selectionRules) ∧
      ((args.weather.condition = some "Rain" ∨ args.weather.condition = some "Drizzle") →
        Instruction.rainRule ∈ (buildPrompt args).selectionRules) ∧
      (∀ i ∈ requestContext (buildPrompt args), i.isVibePriority = false)) := by
  refine ⟨?_, fun _ => rfl, ?_⟩
  · intro h
    have hnote : (buildPrompt args).priorityNote =
        .moodPriorityNote (args.trackNumber + 1) args.mood := by
      simp [buildPrompt, priorityNote, h]
    refine ⟨hnote, ?_, ?_, ?_⟩
    · exact (mem_getSelectionRules_iff _ _ _ _ _).2 (Or.inl ⟨h, rfl⟩)
    · intro i hi
      rcases List.mem_cons.1 hi with hi | hi
      · rw [hi, hnote]
        rfl
      · rcases (mem_getSelectionRules_iff _ _ _ _ _).1 hi with
          ⟨_, rfl⟩ | ⟨_, rfl⟩ | ⟨_, rfl⟩ | ⟨_, rfl⟩ | ⟨⟨_, h3⟩, rfl⟩ | ⟨⟨_, h3⟩, rfl⟩
        · rfl
        · rfl
        · rfl
        · rfl
        · omega
        · omega
    · exact ⟨_, List.mem_cons_self _ _, by rw [hnote]; rfl⟩
  · intro h
    have hnote : (buildPrompt args).priorityNote =
        .conditionsNote (args.trackNumber + 1) args.weather.condition args.traffic.level := by
      have h3 : ¬ args.trackNumber < 3 := by omega
      simp [buildPrompt, priorityNote, h3]
    refine ⟨hnote, by rw [hnote]; rfl,
      fun hheavy => (mem_getSelectionRules_iff _ _ _ _ _).2
        (Or.inr (Or.inr (Or.inr (Or.inr (Or.inl ⟨⟨hheavy, h⟩, rfl⟩))))),
      fun hrain => (mem_getSelectionRules_iff _ _ _ _ _).2
        (Or.inr (Or.inr (Or.inr (Or.inr (Or.inr ⟨⟨hrain, h⟩, rfl⟩))))), ?_⟩
    intro i hi
    rcases List.mem_cons.1 hi with hi | hi
    · rw [hi, hnote]
      rfl
    · rcases List.mem_append.1 hi with hi | hi
      · rcases (mem_getContextRules_iff args.weather args.traffic args.mood i).1 hi with
          ⟨_, rfl⟩ | ⟨_, _, rfl⟩ | ⟨_, rfl⟩ | ⟨_, _, rfl⟩ <;> rfl
      · rcases (mem_getSelectionRules_iff _ _ _ _ _).1 hi with
          ⟨h3, rfl⟩ | ⟨_, rfl⟩ | ⟨_, rfl⟩ | ⟨_, rfl⟩ | ⟨_, rfl⟩ | ⟨_, rfl⟩
        · omega
        · rfl
        · rfl
        · rfl
        · rfl
        · rfl

/-! ## PreferenceLearner: counting -/

theorem countRain_eq (c : Counters) (log : FeedbackLog) :
    countRain c log =
      { c with
        rainSkips := c.rainSkips +
          (if (log.weather = some "Rain" ∨ log.weather = some "Drizzle" ∨
            log.weather = some "Thunderstorm") ∧ isNegativeAction log then 1 else 0),
        rainLoves := c.rainLoves +
          (if (log.weather = some "Rain" ∨ log.weather = some "Drizzle" ∨
            log.weather = some "Thunderstorm") ∧ isLoved log then 1 else 0) } := by
  unfold countRain isNegativeAction isLoved
  by_cases h1 : (log.weather = some "Rain" ∨ log.weather = some "Drizzle" ∨
      log.weather = some "Thunderstorm") <;>
    by_cases h2 : (log.action = some "skipped" ∨ log.action = some "bad_fit") <;>
    by_cases h3 : log.action = some "loved" <;>
    simp [h1, h2, h3]

theorem countHeavyFocus_eq (c : Counters) (log : FeedbackLog) :
    countHeavyFocus c log =
      { c with
        heavyFocusSkips := c.heavyFocusSkips +
          (if ((log.traffic = some "heavy" ∨ log.traffic = some "severe") ∧
            log.vibe = some "focus") ∧ isNegativeAction log then 1 else 0),
        heavyFocusLoves := c.heavyFocusLoves +
          (if ((log.traffic = some "heavy" ∨ log.traffic = some "severe") ∧
            log.vibe = some "focus") ∧ isLoved log then 1 else 0) } := by
  unfold countHeavyFocus isNegativeAction isLoved
  by_cases h1 : ((log.traffic = some "heavy" ∨ log.traffic = some "severe") ∧
      log.vibe = some "focus") <;>
    by_cases h2 : (log.action = some "skipped" ∨ log.action = some "bad_fit") <;>
    by_cases h3 : log.action = some "loved" <;>
    simp [h1, h2, h3]

theorem countHypeClear_eq (c : Counters) (log : FeedbackLog) :
    countHypeClear c log =
      { c with
        hypeClearLoves := c.hypeClearLoves +
          (if ((log.weather = some "Clear" ∨ log.weather = some "Clouds") ∧
            (log.vibe = some "hype" ∨ log.vibe = some "energetic")) ∧ isLoved log
          then 1 else 0) } := by
  unfold countHypeClear isLoved
  by_cases h1 : ((log.weather = some "Clear" ∨ log.weather = some "Clouds") ∧
      (log.vibe = some "hype" ∨ log.vibe = some "energetic")) <;>
    by_cases h3 : log.action = some "loved" <;>
    simp [h1, h3]

theorem countTripRating_eq (c : Counters) (log : FeedbackLog) :
    countTripRating c log =
      { c with
        greatTrips := c.greatTrips +
          (if log.type = some "trip_rating" ∧ log.rating = some "great" then 1 else 0),
        mehTrips := c.mehTrips +
          (if log.type = some "trip_rating" ∧ log.rating = some "meh" then 1 else 0),
        badTrips := c.badTrips +
          (if log.type = some "trip_rating" ∧ log.rating = some "bad" then 1 else 0) } := by
  unfold countTripRating
  by_cases h0 : log.type = some "trip_rating"
  · by_cases h1 : log.rating = some "great"
    · simp [h0, h1]
    · by_cases h2 : log.rating = some "meh"
      · simp [h0, h2]
      · by_cases h3 : log.rating = some "bad"
        · simp [h0, h3]
        · simp [h0, h1, h2, h3]
  · simp [h0]

/-- One step of the count: every counter grows by one exactly when the
record belongs to its bucket. -/
theorem countLog_eq (c : Counters) (log : FeedbackLog) :
    countLog c log = Counters.mk
      (c.rainSkips + if inRainBucket log ∧ isNegativeAction log then 1 else 0)
      (c.rainLoves + if inRainBucket log ∧ isLoved log then 1 else 0)
      (c.heavyFocusSkips + if inHeavyFocusBucket log ∧ isNegativeAction log then 1 else 0)
      (c.heavyFocusLoves + if inHeavyFocusBucket log ∧ isLoved log then 1 else 0)
      (c.hypeClearLoves + if inClearBucket log ∧ isLoved log then 1 else 0)
      (c.greatTrips + if log.type = some "trip_rating" ∧ log.rating = some "great" then 1 else 0)
      (c.mehTrips + if log.type = some "trip_rating" ∧ log.rating = some "meh" then 1 else 0)
      (c.badTrips + if log.type = some "trip_rating" ∧ log.rating = some "bad" then 1 else 0) := by
  unfold countLog
  simp only [countTripRating_eq]
  by_cases h0 : log.type = some "track_action"
  · simp only [h0, if_true, countHypeClear_eq, countHeavyFocus_eq, countRain_eq,
      inRainBucket, inHeavyFocusBucket, inClearBucket, true_and]
  · simp only [h0, if_false, inRainBucket, inHeavyFocusBucket, inClearBucket, false_and,
      Nat.add_zero]

theorem foldl_countLog (logs : List FeedbackLog) (c : Counters) :
    logs.foldl countLog c = Counters.mk
      (c.rainSkips + countWhere (fun l => inRainBucket l ∧ isNegativeAction l) logs)
      (c.rainLoves + countWhere (fun l => inRainBucket l ∧ isLoved l) logs)
      (c.heavyFocusSkips +
        countWhere (fun l => inHeavyFocusBucket l ∧ isNegativeAction l) logs)
      (c.heavyFocusLoves + countWhere (fun l => inHeavyFocusBucket l ∧ isLoved l) logs)
      (c.hypeClearLoves + countWhere (fun l => inClearBucket l ∧ isLoved l) logs)
      (c.greatTrips + tripCount "great" logs)
      (c.mehTrips + tripCount "meh" logs)
      (c.badTrips + tripCount "bad" logs) := by
  induction logs generalizing c with
  | nil => simp [countWhere, tripCount]
  | cons log rest ih =>
    rw [List.foldl_cons, ih, countLog_eq]
    simp only [countWhere, tripCount, List.countP_cons, decide_eq_true_eq]
    congr 1 <;> omega

/-- The counters of `summarizePreferences` are the bucket counts of the log. -/
theorem tally_eq (logs : List FeedbackLog) :
    tally logs = Counters.mk
      (countWhere (fun l => inRainBucket l ∧ isNegativeAction l) logs)
      (countWhere (fun l => inRainBucket l ∧ isLoved l) logs)
      (countWhere (fun l => inHeavyFocusBucket l ∧ isNegativeAction l) logs)
      (countWhere (fun l => inHeavyFocusBucket l ∧ isLoved l) logs)
      (countWhere (fun l => inClearBucket l ∧ isLoved l) logs)
      (tripCount "great" logs) (tripCount "meh" logs) (tripCount "bad" logs) := by
  unfold tally
  rw [foldl_countLog]
  simp [Counters.zero]

/-! ## PreferenceLearner: the summary lines -/

theorem mem_rainLines_iff (c : Counters) (x : PreferenceLine) :
    x ∈ rainLines c ↔
      (x = .rainAvoid ∧ 3 ≤ c.rainSkips + c.rainLoves ∧ c.rainLoves < c.rainSkips) ∨
      (x = .rainEnjoy ∧ 3 ≤ c.rainSkips + c.rainLoves ∧ c.rainSkips < c.rainLoves) := by
  unfold rainLines
  simp only []
  split_ifs with h1 h2 h3 <;> simp only [List.mem_singleton, List.not_mem_nil] <;>
    constructor <;> intro h <;> (try subst h) <;>
    (try rcases h with ⟨rfl, _, _⟩ | ⟨rfl, _, _⟩) <;>
    first
      | rfl
      | omega
      | exact Or.inl ⟨rfl, by omega, by omega⟩
      | exact Or.inr ⟨rfl, by omega, by omega⟩

theorem mem_heavyFocusLines_iff (c : Counters) (x : PreferenceLine) :
    x ∈ heavyFocusLines c ↔
      (x = .heavyFocusDislike ∧ 3 ≤ c.heavyFocusSkips + c.heavyFocusLoves ∧
        c.heavyFocusLoves < c.heavyFocusSkips) ∨
      (x = .heavyFocusWorks ∧ 3 ≤ c.heavyFocusSkips + c.heavyFocusLoves ∧
        c.heavyFocusSkips < c.heavyFocusLoves) := by
  unfold heavyFocusLines
  simp only []
  split_ifs with h1 h2 h3 <;> simp only [List.mem_singleton, List.not_mem_nil] <;>
    constructor <;> intro h <;> (try subst h) <;>
    (try rcases h with ⟨rfl, _, _⟩ | ⟨rfl, _, _⟩) <;>
    first
      | rfl
      | omega
      | exact Or.inl ⟨rfl, by omega, by omega⟩
      | exact Or.inr ⟨rfl, by omega, by omega⟩

theorem mem_hypeClearLines_iff (c : Counters) (x : PreferenceLine) :
    x ∈ hypeClearLines c ↔ x = .hypeClearLove ∧ 2 ≤ c.hypeClearLoves := by
  unfold hypeClearLines
  split_ifs with h1 <;> simp only [List.mem_singleton, List.not_mem_nil] <;>
    constructor <;> intro h <;>
    first
      | exact ⟨h, by omega⟩
      | exact h.1
      | exact h.elim
      | exact absurd h.2 h1

theorem mem_tripLines_iff (c : Counters) (x : PreferenceLine) :
    x ∈ tripLines c ↔
      3 ≤ c.greatTrips + c.mehTrips + c.badTrips ∧
      ((x = .tripsGreat ∧ c.badTrips + 2 ≤ c.greatTrips) ∨
        (x = .tripsBad ∧ c.greatTrips < c.badTrips + 2 ∧ c.greatTrips + 1 ≤ c.badTrips) ∨
        (x = .tripsMeh ∧ c.greatTrips < c.badTrips + 2 ∧ c.badTrips < c.greatTrips + 1 ∧
          c.greatTrips < c.mehTrips ∧ c.badTrips < c.mehTrips)) := by
  unfold tripLines
  simp only []
  split_ifs with h1 h2 h3 h4 <;> simp only [List.mem_singleton, List.not_mem_nil] <;>
    constructor <;> intro h <;> (try subst h) <;>
    (try rcases h with ⟨_, ⟨rfl, _⟩ | ⟨rfl, _, _⟩ | ⟨rfl, _, _, _, _⟩⟩) <;>
    first
      | rfl
      | omega
      | exact ⟨by omega, Or.inl ⟨rfl, by omega⟩⟩
      | exact ⟨by omega, Or.inr (Or.inl ⟨rfl, by omega, by omega⟩)⟩
      | exact ⟨by omega, Or.inr (Or.inr ⟨rfl, by omega, by omega, by omega, by omega⟩)⟩

theorem mem_ruleLines_iff (c : Counters) (x : PreferenceLine) :
    x ∈ ruleLines c ↔
      x ∈ rainLines c ∨ x ∈ heavyFocusLines c ∨ x ∈ hypeClearLines c ∨ x ∈ tripLines c := by
  unfold ruleLines
  simp only [List.mem_append, or_assoc]

theorem rainLines_eq_nil_iff (c : Counters) :
    rainLines c = [] ↔ ¬ (3 ≤ c.rainSkips + c.rainLoves ∧ c.rainSkips ≠ c.rainLoves) := by
  unfold rainLines
  simp only []
  split_ifs <;> simp <;> omega

theorem heavyFocusLines_eq_nil_iff (c : Counters) :
    heavyFocusLines c = [] ↔
      ¬ (3 ≤ c.heavyFocusSkips + c.heavyFocusLoves ∧
        c.heavyFocusSkips ≠ c.heavyFocusLoves) := by
  unfold heavyFocusLines
  simp only []
  split_ifs <;> simp <;> omega

theorem hypeClearLines_eq_nil_iff (c : Counters) :
    hypeClearLines c = [] ↔ ¬ 2 ≤ c.hypeClearLoves := by
  unfold hypeClearLines
  split_ifs <;> simp <;> omega

theorem tripLines_eq_nil_iff (c : Counters) :
    tripLines c = [] ↔
      ¬ (3 ≤ c.greatTrips + c.mehTrips + c.badTrips ∧
        (c.badTrips + 2 ≤ c.greatTrips ∨ c.greatTrips + 1 ≤ c.badTrips ∨
          (c.greatTrips < c.mehTrips ∧ c.badTrips < c.mehTrips))) := by
  unfold tripLines
  simp only []
  split_ifs <;> simp <;> omega

/-- No rule line is pushed exactly when no rule fires on the counts. -/
theorem ruleLines_tally_eq_nil_iff (logs : List FeedbackLog) :
    ruleLines (tally logs) = [] ↔ ¬ ruleFires logs := by
  unfold ruleLines ruleFires
  simp only [List.append_eq_nil, rainLines_eq_nil_iff, heavyFocusLines_eq_nil_iff,
    hypeClearLines_eq_nil_iff, tripLines_eq_nil_iff, tally_eq, not_or, and_assoc]

theorem ruleLines_tally_nil : ruleLines (tally []) = [] := by
  decide

/-- A rule line is in the summary exactly when its block pushed it. -/
theorem mem_summaryLines_iff (logs : List FeedbackLog) (x : PreferenceLine)
    (h1 : x ≠ .noFeedbackYet) (h2 : x ≠ .noStrongPatterns) :
    x ∈ summaryLines logs ↔ x ∈ ruleLines (tally logs) := by
  unfold summaryLines
  by_cases hlogs : logs.length = 0
  · have hnil : logs = [] := List.length_eq_zero.1 hlogs
    subst hnil
    rw [if_pos hlogs, ruleLines_tally_nil]
    simp [h1]
  · rw [if_neg hlogs]
    simp only []
    by_cases hlines : (ruleLines (tally logs)).length = 0
    · rw [if_pos hlines, List.length_eq_zero.1 hlines]
      simp [h2]
    · rw [if_neg hlines]

theorem tripLines_length_le (c : Counters) : (tripLines c).length ≤ 1 := by
  unfold tripLines
  simp only []
  split_ifs <;> simp

theorem filter_isTripLine_ruleLines (c : Counters) :
    (ruleLines c).filter PreferenceLine.isTripLine = tripLines c := by
  have h1 : (rainLines c).filter PreferenceLine.isTripLine = [] := by
    unfold rainLines
    simp only []
    split_ifs <;> rfl
  have h2 : (heavyFocusLines c).filter PreferenceLine.isTripLine = [] := by
    unfold heavyFocusLines
    simp only []
    split_ifs <;> rfl
  have h3 : (hypeClearLines c).filter PreferenceLine.isTripLine = [] := by
    unfold hypeClearLines
    split_ifs <;> rfl
  have h4 : (tripLines c).filter PreferenceLine.isTripLine = tripLines c := by
    unfold tripLines
    simp only []
    split_ifs <;> rfl
  unfold ruleLines
  rw [List.filter_append, List.filter_append, List.filter_append, h1, h2, h3, h4]
  rfl

/-! ## PreferenceLearner: the returned text -/

theorem intercalate_go_data (sep : String) (rest : List String) (acc : String) :
    (String.intercalate.go acc sep rest).data =
      acc.data ++ (rest.map (fun s => sep.data ++ s.data)).flatten := by
  induction rest generalizing acc with
  | nil => simp [String.intercalate.go]
  | cons a rest ih =>
    rw [String.intercalate.go, ih]
    simp [String.data_append, List.append_assoc]

theorem splitOnP_newline (rest : List (List Char)) (a : List Char)
    (ha : ∀ c ∈ a, c ≠ Char.ofNat 10) (hrest : ∀ s ∈ rest, ∀ c ∈ s, c ≠ Char.ofNat 10) :
    List.splitOnP (fun c => c == Char.ofNat 10)
        (a ++ (rest.map (fun s => Char.ofNat 10 :: s)).flatten) =
      a :: rest := by
  induction rest generalizing a with
  | nil =>
    simp only [List.map_nil, List.flatten_nil, List.append_nil]
    exact List.splitOnP_eq_single _ _ (fun c hc => by simpa using ha c hc)
  | cons b rest ih =>
    simp only [List.map_cons, List.flatten_cons, List.cons_append]
    rw [List.splitOnP_first _ _ (fun c hc => by simpa using ha c hc) (Char.ofNat 10) (by simp)]
    rw [ih b (hrest b (List.mem_cons_self _ _))
      (fun s hs => hrest s (List.mem_cons_of_mem _ hs))]

/-- Splitting at line feeds undoes joining with line feeds, for lines that
hold no line feed. -/
theorem linesOf_intercalate (a : String) (rest : List String)
    (h : ∀ s ∈ a :: rest, ∀ c ∈ s.data, c ≠ Char.ofNat 10) :
    linesOf ("\n".intercalate (a :: rest)) = a :: rest := by
  unfold linesOf
  rw [String.split_of_valid, String.intercalate, intercalate_go_data]
  have hdata : ("\n" : String).data = [Char.ofNat 10] := rfl
  simp only [hdata, List.singleton_append]
  have hmap : (rest.map (fun s => Char.ofNat 10 :: s.data)) =
      (rest.map String.data).map (fun s => Char.ofNat 10 :: s) := by
    rw [List.map_map]; rfl
  rw [hmap, splitOnP_newline (rest.map String.data) a.data
    (h a (List.mem_cons_self _ _))]
  · have hid : (String.mk ∘ String.data) = id := rfl
    simp [hid]
  · intro s hs c hc
    obtain ⟨t, ht, rfl⟩ := List.mem_map.1 hs
    exact h t (List.mem_cons_of_mem _ ht) c hc

set_option maxRecDepth 100000 in
theorem text_no_newline (x : PreferenceLine) : ∀ c ∈ x.text.data, c ≠ Char.ofNat 10 := by
  cases x <;> decide

set_option maxRecDepth 100000 in
theorem text_injective (x y : PreferenceLine) (h : x.text = y.text) : x = y := by
  cases x <;> cases y <;> first | rfl | exact absurd h (by decide)

theorem summaryLines_ne_nil (logs : List FeedbackLog) : summaryLines logs ≠ [] := by
  unfold summaryLines
  by_cases h1 : logs.length = 0
  · rw [if_pos h1]
    exact List.cons_ne_nil _ _
  · rw [if_neg h1]
    simp only []
    by_cases h2 : (ruleLines (tally logs)).length = 0
    · rw [if_pos h2]
      exact List.cons_ne_nil _ _
    · rw [if_neg h2]
      exact fun h => h2 (by rw [h]; rfl)

theorem linesOf_lines (lines : List PreferenceLine) (h : lines ≠ []) :
    linesOf ("\n".intercalate (lines.map PreferenceLine.text)) =
      lines.map PreferenceLine.text := by
  cases lines with
  | nil => exact absurd rfl h
  | cons x rest =>
    rw [List.map_cons]
    apply linesOf_intercalate
    intro s hs
    rw [← List.map_cons, List.mem_map] at hs
    obtain ⟨y, _, rfl⟩ := hs
    exact text_no_newline y

/-- The lines of the returned summary are the texts of the summary lines. -/
theorem linesOf_summary (logs : List FeedbackLog) :
    linesOf (summarizePreferences logs) = (summaryLines logs).map PreferenceLine.text :=
  linesOf_lines (summaryLines logs) (summaryLines_ne_nil logs)

theorem mem_linesOf_summary_iff (logs : List FeedbackLog) (x : PreferenceLine) :
    x.text ∈ linesOf (summarizePreferences logs) ↔ x ∈ summaryLines logs := by
  rw [linesOf_summary, List.mem_map]
  constructor
  · rintro ⟨y, hy, hxy⟩
    rw [← text_injective y x hxy]
    exact hy
  · intro h
    exact ⟨x, h, rfl⟩

/-- The returned summary is the join of given lines exactly when these are
the summary lines. -/
theorem summarizePreferences_eq_iff (logs : List FeedbackLog) (lines : List PreferenceLine)
    (h : lines ≠ []) :
    summarizePreferences logs = "\n".intercalate (lines.map PreferenceLine.text) ↔
      summaryLines logs = lines := by
  constructor
  · intro heq
    have h1 := congrArg linesOf heq
    rw [linesOf_summary, linesOf_lines lines h] at h1
    exact List.map_injective_iff.2 (fun x y hxy => text_injective x y hxy) h1
  · intro heq
    unfold summarizePreferences
    rw [heq]

theorem isTripLine_iff_text (x : PreferenceLine) :
    decide (x.text ∈ tripLevelLines) = x.isTripLine := by
  cases x <;> decide

/-- C16: the text `summarizePreferences` returns holds the rain line and
the heavy-traffic-with-focus line exactly when the bucket holds at least 3
loved or skipped/bad-fit actions and the two counts differ, with the `avoid`
wording when the negative count is larger and the `works well` wording when
the loved count is larger; it holds the clear-weather line exactly when the
loved count of that bucket is at least 2. -/
theorem bucket_lines_iff (logs : List FeedbackLog) :
    ("- In rainy conditions, user often skips or marks tracks as bad fit; avoid overly mellow or sleepy rain music." ∈
        linesOf (summarizePreferences logs) ↔
      3 ≤ countWhere (fun l => inRainBucket l ∧ isNegativeAction l) logs +
          countWhere (fun l => inRainBucket l ∧ isLoved l) logs ∧
        countWhere (fun l => inRainBucket l ∧ isLoved l) logs <
          countWhere (fun l => inRainBucket l ∧ isNegativeAction l) logs) ∧
    ("- In rainy conditions, user enjoys cozy / mellow tracks; leaning into chill rain vibes is okay." ∈
        linesOf (summarizePreferences logs) ↔
      3 ≤ countWhere (fun l => inRainBucket l ∧ isNegativeAction l) logs +
          countWhere (fun l => inRainBucket l ∧ isLoved l) logs ∧
        countWhere (fun l => inRainBucket l ∧ isNegativeAction l) logs <
          countWhere (fun l => inRainBucket l ∧ isLoved l) logs) ∧
    ("- In heavy traffic with focus vibe, user often dislikes the music; try slightly more uplifting but still non-stressful tracks." ∈
        linesOf (summarizePreferences logs) ↔
      3 ≤ countWhere (fun l => inHeavyFocusBucket l ∧ isNegativeAction l) logs +
          countWhere (fun l => inHeavyFocusBucket l ∧ isLoved l) logs ∧
        countWhere (fun l => inHeavyFocusBucket l ∧ isLoved l) logs <
          countWhere (fun l => inHeavyFocusBucket l ∧ isNegativeAction l) logs) ∧
    ("- In heavy traffic with focus vibe, current calm / focus style works well; keep similar low-distraction tracks." ∈
        linesOf (summarizePreferences logs) ↔
      3 ≤ countWhere (fun l => inHeavyFocusBucket l ∧ isNegativeAction l) logs +
          countWhere (fun l => inHeavyFocusBucket l ∧ isLoved l) logs ∧
        countWhere (fun l => inHeavyFocusBucket l ∧ isNegativeAction l) logs <
          countWhere (fun l => inHeavyFocusBucket l ∧ isLoved l) logs) ∧
    ("- In clear weather with hype/energetic vibe, user tends to love energetic tracks; high-energy songs are a good choice here." ∈
        linesOf (summarizePreferences logs) ↔
      2 ≤ countWhere (fun l => inClearBucket l ∧ isLoved l) logs) := by
  have hmem : ∀ x : PreferenceLine, x ≠ .noFeedbackYet → x ≠ .noStrongPatterns →
      (x.text ∈ linesOf (summarizePreferences logs) ↔ x ∈ ruleLines (tally logs)) :=
    fun x h1 h2 => (mem_linesOf_summary_iff logs x).trans (mem_summaryLines_iff logs x h1 h2)
  have h1 := hmem .rainAvoid (by decide) (by decide)
  have h2 := hmem .rainEnjoy (by decide) (by decide)
  have h3 := hmem .heavyFocusDislike (by decide) (by decide)
  have h4 := hmem .heavyFocusWorks (by decide) (by decide)
  have h5 := hmem .hypeClearLove (by decide) (by decide)
  simp only [PreferenceLine.text] at h1 h2 h3 h4 h5
  refine ⟨?_, ?_, ?_, ?_, ?_⟩
  · rw [h1, mem_ruleLines_iff, mem_rainLines_iff, mem_heavyFocusLines_iff,
      mem_hypeClearLines_iff, mem_tripLines_iff, tally_eq]
    simp
  · rw [h2, mem_ruleLines_iff, mem_rainLines_iff, mem_heavyFocusLines_iff,
      mem_hypeClearLines_iff, mem_tripLines_iff, tally_eq]
    simp
  · rw [h3, mem_ruleLines_iff, mem_rainLines_iff, mem_heavyFocusLines_iff,
      mem_hypeClearLines_iff, mem_tripLines_iff, tally_eq]
    simp
  · rw [h4, mem_ruleLines_iff, mem_rainLines_iff, mem_heavyFocusLines_iff,
      mem_hypeClearLines_iff, mem_tripLines_iff, tally_eq]
    simp
  · rw [h5, mem_ruleLines_iff, mem_rainLines_iff, mem_heavyFocusLines_iff,
      mem_hypeClearLines_iff, mem_tripLines_iff, tally_eq]
    simp

theorem countWhere_eq_zero (p : FeedbackLog → Prop) [DecidablePred p]
    (logs : List FeedbackLog) (h : ∀ l ∈ logs, ¬ p l) : countWhere p logs = 0 := by
  unfold countWhere
  rw [List.countP_eq_zero]
  intro l hl
  simpa using h l hl

theorem tripCount_eq_zero (rating : String) (logs : List FeedbackLog)
    (h : ∀ l ∈ logs, l.type = some "track_action") : tripCount rating logs = 0 := by
  unfold tripCount
  rw [List.countP_eq_zero]
  intro l hl
  simp [h l hl]

theorem rain_clear_disjoint (log : FeedbackLog) : ¬ (inRainBucket log ∧ inClearBucket log) := by
  unfold inRainBucket inClearBucket
  rintro ⟨⟨_, hw | hw | hw⟩, _, hc | hc⟩ <;> rw [hw] at hc <;> exact absurd hc (by decide)

theorem heavyFocus_clear_disjoint (log : FeedbackLog) :
    ¬ (inHeavyFocusBucket log ∧ inClearBucket log) := by
  unfold inHeavyFocusBucket inClearBucket
  rintro ⟨⟨_, _, hv⟩, _, _, hc | hc⟩ <;> rw [hv] at hc <;> exact absurd hc (by decide)

set_option maxRecDepth 100000 in
/-- C17, counterexample: a track action skipped in a thunderstorm, in heavy
traffic with a focus vibe, lies in the rain bucket and in the heavy-traffic
bucket and raises the counters of both; for a log of three such actions, all
recorded in rain-family weather, the returned text holds the heavy-traffic
line next to the rain line; and for a log of one loved action in rain the
returned text holds no `avoid` line. -/
theorem rain_bucket_overlaps_heavy_focus :
    (inRainBucket (trackLog "skipped" "Thunderstorm" "heavy" "focus") ∧
      inHeavyFocusBucket (trackLog "skipped" "Thunderstorm" "heavy" "focus")) ∧
    (tally [trackLog "skipped" "Thunderstorm" "heavy" "focus"]).rainSkips = 1 ∧
    (tally [trackLog "skipped" "Thunderstorm" "heavy" "focus"]).heavyFocusSkips = 1 ∧
    (∀ l ∈ stormHeavyFocusLog, inRainBucket l) ∧
    summarizePreferences stormHeavyFocusLog =
      "- In rainy conditions, user often skips or marks tracks as bad fit; avoid overly mellow or sleepy rain music." ++ "\n" ++
      "- In heavy traffic with focus vibe, user often dislikes the music; try slightly more uplifting but still non-stressful tracks." ∧
    "- In heavy traffic with focus vibe, user often dislikes the music; try slightly more uplifting but still non-stressful tracks." ∈
      linesOf (summarizePreferences stormHeavyFocusLog) ∧
    inRainBucket (trackLog "loved" "Rain" "light" "calm") ∧
    summarizePreferences [trackLog "loved" "Rain" "light" "calm"] =
      "- No strong patterns detected yet; use general good-driving-music defaults and balanced choices." := by
  have hlines := linesOf_summary stormHeavyFocusLog
  have hsum : summaryLines stormHeavyFocusLog = [.rainAvoid, .heavyFocusDislike] := by decide
  rw [hsum] at hlines
  refine ⟨by decide, by decide, by decide, by decide, by decide, ?_, by decide, by decide⟩
  rw [hlines]
  decide

set_option maxRecDepth 100000 in
/-- C17 (amended): a track action is never counted both in the rain bucket
and the clear-weather bucket, nor both in the heavy-traffic bucket and the
clear-weather bucket.  For every log made only of track actions recorded in
rain, none of them in heavy or severe traffic with a focus vibe, that holds
at least 3 loved or skipped/bad-fit actions with more negative than loved
ones, the returned text is the `avoid mellow rain music` line alone: it holds
neither a heavy-traffic line nor the clear-weather line. -/
theorem rain_only_log_summary (logs : List FeedbackLog)
    (hrain : ∀ l ∈ logs, inRainBucket l ∧ ¬ inHeavyFocusBucket l)
    (hcount : 3 ≤ countWhere (fun l => inRainBucket l ∧ isNegativeAction l) logs +
      countWhere (fun l => inRainBucket l ∧ isLoved l) logs)
    (hneg : countWhere (fun l => inRainBucket l ∧ isLoved l) logs <
      countWhere (fun l => inRainBucket l ∧ isNegativeAction l) logs) :
    (∀ log, ¬ (inRainBucket log ∧ inClearBucket log) ∧
      ¬ (inHeavyFocusBucket log ∧ inClearBucket log)) ∧
    summarizePreferences logs =
      "- In rainy conditions, user often skips or marks tracks as bad fit; avoid overly mellow or sleepy rain music." ∧
    linesOf (summarizePreferences logs) =
      ["- In rainy conditions, user often skips or marks tracks as bad fit; avoid overly mellow or sleepy rain music."] ∧
    "- In heavy traffic with focus vibe, user often dislikes the music; try slightly more uplifting but still non-stressful tracks." ∉
      linesOf (summarizePreferences logs) ∧
    "- In heavy traffic with focus vibe, current calm / focus style works well; keep similar low-distraction tracks." ∉
      linesOf (summarizePreferences logs) ∧
    "- In clear weather with hype/energetic vibe, user tends to love energetic tracks; high-energy songs are a good choice here." ∉
      linesOf (summarizePreferences logs) := by
  have h1 := countWhere_eq_zero (fun l => inHeavyFocusBucket l ∧ isNegativeAction l) logs
    (fun l hl h => (hrain l hl).2 h.1)
  have h2 := countWhere_eq_zero (fun l => inHeavyFocusBucket l ∧ isLoved l) logs
    (fun l hl h => (hrain l hl).2 h.1)
  have h3 := countWhere_eq_zero (fun l => inClearBucket l ∧ isLoved l) logs
    (fun l hl h => rain_clear_disjoint l ⟨(hrain l hl).1, h.1⟩)
  have htype : ∀ l ∈ logs, l.type = some "track_action" := fun l hl => (hrain l hl).1.1
  have h4 := tripCount_eq_zero "great" logs htype
  have h5 := tripCount_eq_zero "meh" logs htype
  have h6 := tripCount_eq_zero "bad" logs htype
  have hlogs : ¬ logs.length = 0 := by
    intro h0
    rw [List.length_eq_zero.1 h0] at hcount
    exact absurd hcount (by decide)
  have hrules : ruleLines (tally logs) = [.rainAvoid] := by
    have hr : rainLines (tally logs) = [.rainAvoid] := by
      rw [tally_eq]
      unfold rainLines
      simp only []
      rw [if_pos hcount, if_pos hneg]
    have hh : heavyFocusLines (tally logs) = [] := by
      rw [heavyFocusLines_eq_nil_iff, tally_eq]
      simp only []
      omega
    have hc : hypeClearLines (tally logs) = [] := by
      rw [hypeClearLines_eq_nil_iff, tally_eq]
      simp only []
      omega
    have ht : tripLines (tally logs) = [] := by
      rw [tripLines_eq_nil_iff, tally_eq]
      simp only []
      omega
    unfold ruleLines
    rw [hr, hh, hc, ht]
    rfl
  have hsum : summaryLines logs = [.rainAvoid] := by
    unfold summaryLines
    rw [if_neg hlogs]
    simp only []
    rw [hrules]
    rfl
  have htext : summarizePreferences logs = PreferenceLine.rainAvoid.text := by
    unfold summarizePreferences
    rw [hsum]
    rfl
  have hlines : linesOf (summarizePreferences logs) = [PreferenceLine.rainAvoid.text] := by
    rw [linesOf_summary, hsum]
    rfl
  refine ⟨fun log => ⟨rain_clear_disjoint log, heavyFocus_clear_disjoint log⟩, htext, hlines,
    ?_, ?_, ?_⟩ <;>
    rw [hlines] <;> decide

set_option maxRecDepth 100000 in
/-- Witness of `rain_only_log_summary`: the scenario of five track actions in
rain, four skipped and one loved. -/
theorem rain_only_log_summary_witness :
    summarizePreferences rainScenarioLog =
      "- In rainy conditions, user often skips or marks tracks as bad fit; avoid overly mellow or sleepy rain music." ∧
    "- In heavy traffic with focus vibe, user often dislikes the music; try slightly more uplifting but still non-stressful tracks." ∉
      linesOf (summarizePreferences rainScenarioLog) ∧
    "- In clear weather with hype/energetic vibe, user tends to love energetic tracks; high-energy songs are a good choice here." ∉
      linesOf (summarizePreferences rainScenarioLog) :=
  have h := rain_only_log_summary rainScenarioLog (by decide) (by decide) (by decide)
  ⟨h.2.1, h.2.2.2.1, h.2.2.2.2.2⟩

theorem tripLine_mem_summaryLines_iff (logs : List FeedbackLog) (x : PreferenceLine)
    (hx : x.isTripLine = true) : x ∈ summaryLines logs ↔ x ∈ tripLines (tally logs) := by
  have h1 : x ≠ .noFeedbackYet := by rintro rfl; exact absurd hx (by decide)
  have h2 : x ≠ .noStrongPatterns := by rintro rfl; exact absurd hx (by decide)
  rw [mem_summaryLines_iff logs x h1 h2]
  constructor
  · intro h
    have hf : x ∈ (ruleLines (tally logs)).filter PreferenceLine.isTripLine :=
      List.mem_filter.2 ⟨h, hx⟩
    rwa [filter_isTripLine_ruleLines] at hf
  · intro h
    rw [← filter_isTripLine_ruleLines] at h
    exact (List.mem_filter.1 h).1

theorem filter_isTripLine_summaryLines_length (logs : List FeedbackLog) :
    ((summaryLines logs).filter PreferenceLine.isTripLine).length ≤ 1 := by
  unfold summaryLines
  by_cases h1 : logs.length = 0
  · rw [if_pos h1]
    decide
  · rw [if_neg h1]
    simp only []
    by_cases h2 : (ruleLines (tally logs)).length = 0
    · rw [if_pos h2]
      decide
    · rw [if_neg h2, filter_isTripLine_ruleLines]
      exact tripLines_length_le _

theorem mem_tripLines_tally_iff (logs : List FeedbackLog) (x : PreferenceLine) :
    x ∈ tripLines (tally logs) ↔
      3 ≤ tripCount "great" logs + tripCount "meh" logs + tripCount "bad" logs ∧
      ((x = .tripsGreat ∧ tripCount "bad" logs + 2 ≤ tripCount "great" logs) ∨
        (x = .tripsBad ∧ tripCount "great" logs < tripCount "bad" logs + 2 ∧
          tripCount "great" logs + 1 ≤ tripCount "bad" logs) ∨
        (x = .tripsMeh ∧ tripCount "great" logs < tripCount "bad" logs + 2 ∧
          tripCount "bad" logs < tripCount "great" logs + 1 ∧
          tripCount "great" logs < tripCount "meh" logs ∧
          tripCount "bad" logs < tripCount "meh" logs)) := by
  rw [mem_tripLines_iff, tally_eq]

/-- C18: with at least 3 trip ratings, `great ≥ bad + 2` puts the `mostly
good, only subtle adjustments` line into the returned text and
`bad ≥ great + 1` the `be conservative` line; with fewer than 3 trip ratings
the returned text holds no trip-level line; and the returned text never holds
more than one trip-level line. -/
theorem trip_rating_lines (logs : List FeedbackLog) :
    (3 ≤ tripCount "great" logs + tripCount "meh" logs + tripCount "bad" logs →
      tripCount "bad" logs + 2 ≤ tripCount "great" logs →
      "- Overall, trips are often rated great; current strategy is mostly good, so only subtle adjustments are needed." ∈
        linesOf (summarizePreferences logs)) ∧
    (3 ≤ tripCount "great" logs + tripCount "meh" logs + tripCount "bad" logs →
      tripCount "great" logs + 1 ≤ tripCount "bad" logs →
      "- User often rates trips as bad; be conservative, avoid extreme genre shifts, and stay closer to safe, widely-liked tracks." ∈
        linesOf (summarizePreferences logs)) ∧
    (tripCount "great" logs + tripCount "meh" logs + tripCount "bad" logs < 3 →
      "- Overall, trips are often rated great; current strategy is mostly good, so only subtle adjustments are needed." ∉
        linesOf (summarizePreferences logs) ∧
      "- User often rates trips as bad; be conservative, avoid extreme genre shifts, and stay closer to safe, widely-liked tracks." ∉
        linesOf (summarizePreferences logs) ∧
      "- Many trips are rated as “meh”; increase variety within the chosen vibe so playlists feel less repetitive." ∉
        linesOf (summarizePreferences logs)) ∧
    ((linesOf (summarizePreferences logs)).filter (fun line => line ∈ tripLevelLines)).length
      ≤ 1 := by
  have hmem : ∀ x : PreferenceLine, x.isTripLine = true →
      (x.text ∈ linesOf (summarizePreferences logs) ↔ x ∈ tripLines (tally logs)) :=
    fun x hx => (mem_linesOf_summary_iff logs x).trans (tripLine_mem_summaryLines_iff logs x hx)
  have hg := hmem .tripsGreat rfl
  have hb := hmem .tripsBad rfl
  have hm := hmem .tripsMeh rfl
  simp only [PreferenceLine.text] at hg hb hm
  refine ⟨?_, ?_, ?_, ?_⟩
  · intro h3 hgreat
    rw [hg, mem_tripLines_tally_iff]
    exact ⟨h3, Or.inl ⟨rfl, hgreat⟩⟩
  · intro h3 hbad
    rw [hb, mem_tripLines_tally_iff]
    exact ⟨h3, Or.inr (Or.inl ⟨rfl, by omega, hbad⟩)⟩
  · intro hlt
    rw [hg, hb, hm, mem_tripLines_tally_iff, mem_tripLines_tally_iff, mem_tripLines_tally_iff]
    refine ⟨fun h => ?_, fun h => ?_, fun h => ?_⟩ <;>
      · have := h.1
        omega
  · rw [linesOf_summary, List.filter_map]
    have hfun : ((fun line => decide (line ∈ tripLevelLines)) ∘ PreferenceLine.text) =
        PreferenceLine.isTripLine := funext isTripLine_iff_text
    rw [hfun, List.length_map]
    exact filter_isTripLine_summaryLines_length logs

set_option maxRecDepth 100000 in
/-- C19, counterexample: in a log of three great and four meh trip ratings
the meh count is strictly the largest and the total is 7, yet the returned
text is the `mostly good` line alone and holds no `increase variety` line. -/
theorem meh_plurality_without_variety_line :
    3 ≤ tripCount "great" mehPluralityLog + tripCount "meh" mehPluralityLog +
      tripCount "bad" mehPluralityLog ∧
    tripCount "great" mehPluralityLog < tripCount "meh" mehPluralityLog ∧
    tripCount "bad" mehPluralityLog < tripCount "meh" mehPluralityLog ∧
    summarizePreferences mehPluralityLog =
      "- Overall, trips are often rated great; current strategy is mostly good, so only subtle adjustments are needed." ∧
    "- Many trips are rated as “meh”; increase variety within the chosen vibe so playlists feel less repetitive." ∉
      linesOf (summarizePreferences mehPluralityLog) := by
  have hlines := linesOf_summary mehPluralityLog
  have hsum : summaryLines mehPluralityLog = [.tripsGreat] := by decide
  rw [hsum] at hlines
  refine ⟨by decide, by decide, by decide, by decide, ?_⟩
  rw [hlines]
  decide

/-- C19 (amended): for every log whose trip ratings total at least 3, in
which the meh count is strictly greater than both the great count and the bad
count, and in which neither `great ≥ bad + 2` nor `bad ≥ great + 1` holds,
the returned text contains the `increase variety` line. -/
theorem meh_plurality_variety_line (logs : List FeedbackLog)
    (htotal : 3 ≤ tripCount "great" logs + tripCount "meh" logs + tripCount "bad" logs)
    (hgreat : tripCount "great" logs < tripCount "meh" logs)
    (hbad : tripCount "bad" logs < tripCount "meh" logs)
    (hnotGreat : ¬ tripCount "bad" logs + 2 ≤ tripCount "great" logs)
    (hnotBad : ¬ tripCount "great" logs + 1 ≤ tripCount "bad" logs) :
    "- Many trips are rated as “meh”; increase variety within the chosen vibe so playlists feel less repetitive." ∈
      linesOf (summarizePreferences logs) := by
  have hm := (mem_linesOf_summary_iff logs .tripsMeh).trans
    (tripLine_mem_summaryLines_iff logs .tripsMeh rfl)
  simp only [PreferenceLine.text] at hm
  rw [hm, mem_tripLines_tally_iff]
  exact ⟨htotal, Or.inr (Or.inr ⟨rfl, by omega, by omega, hgreat, hbad⟩)⟩

set_option maxRecDepth 100000 in
/-- Witness of `meh_plurality_variety_line`: one great and two meh ratings. -/
theorem meh_plurality_variety_line_witness :
    "- Many trips are rated as “meh”; increase variety within the chosen vibe so playlists feel less repetitive." ∈
      linesOf (summarizePreferences mehOnlyLog) :=
  meh_plurality_variety_line mehOnlyLog (by decide) (by decide) (by decide) (by decide)
    (by decide)

set_option maxRecDepth 100000 in
/-- C20, counterexample: on the empty log no rule fires, and the returned
text is the sentence `No explicit feedback yet. Use general
good-driving-music defaults.`, not the line that says no strong patterns were
detected. -/
theorem empty_log_summary_is_not_default_line :
    ¬ ruleFires [] ∧
    summarizePreferences [] =
      "No explicit feedback yet. Use general good-driving-music defaults." ∧
    summarizePreferences [] ≠
      "- No strong patterns detected yet; use general good-driving-music defaults and balanced choices." ∧
    "- No strong patterns detected yet; use general good-driving-music defaults and balanced choices." ∉
      linesOf (summarizePreferences []) := by
  have hlines := linesOf_summary []
  have hsum : summaryLines [] = [.noFeedbackYet] := rfl
  rw [hsum] at hlines
  refine ⟨?_, by decide, by decide, ?_⟩
  · rw [← ruleLines_tally_eq_nil_iff]
    exact ruleLines_tally_nil
  · rw [hlines]
    decide

/-- C20 (amended): for every non-empty log the returned text is the single
line that says no strong patterns were detected if and only if no bucket rule
and no trip-rating rule fires; for the empty log, on which no rule fires, the
returned text is the separate sentence that says there is no explicit
feedback yet; whenever some rule fires the returned text is the rule lines
joined by line feeds and holds neither of the two default lines. -/
theorem default_line_iff_no_rule (logs : List FeedbackLog) :
    (logs ≠ [] →
      (summarizePreferences logs =
          "- No strong patterns detected yet; use general good-driving-music defaults and balanced choices." ↔
        ¬ ruleFires logs)) ∧
    (logs = [] →
      summarizePreferences logs =
          "No explicit feedback yet. Use general good-driving-music defaults." ∧
        ¬ ruleFires logs) ∧
    (ruleFires logs →
      summarizePreferences logs =
          "\n".intercalate ((ruleLines (tally logs)).map PreferenceLine.text) ∧
      "- No strong patterns detected yet; use general good-driving-music defaults and balanced choices." ∉
        linesOf (summarizePreferences logs) ∧
      "No explicit feedback yet. Use general good-driving-music defaults." ∉
        linesOf (summarizePreferences logs)) := by
  have hnotmem : ∀ x, (x = PreferenceLine.noStrongPatterns ∨ x = PreferenceLine.noFeedbackYet) →
      x ∉ ruleLines (tally logs) := by
    intro x hx hmem
    rw [mem_ruleLines_iff, mem_rainLines_iff, mem_heavyFocusLines_iff,
      mem_hypeClearLines_iff, mem_tripLines_iff] at hmem
    rcases hx with rfl | rfl <;> simp at hmem
  have hstrong := mem_linesOf_summary_iff logs .noStrongPatterns
  have hnone := mem_linesOf_summary_iff logs .noFeedbackYet
  simp only [PreferenceLine.text] at hstrong hnone
  refine ⟨?_, ?_, ?_⟩
  · intro hne
    have hlen : ¬ logs.length = 0 := fun h => hne (List.length_eq_zero.1 h)
    have heq := summarizePreferences_eq_iff logs [.noStrongPatterns] (List.cons_ne_nil _ _)
    have hjoin : "\n".intercalate ([PreferenceLine.noStrongPatterns].map PreferenceLine.text) =
        "- No strong patterns detected yet; use general good-driving-music defaults and balanced choices." :=
      rfl
    rw [hjoin] at heq
    rw [heq, ← ruleLines_tally_eq_nil_iff]
    unfold summaryLines
    rw [if_neg hlen]
    simp only []
    constructor
    · intro h
      by_contra hrules
      have hlen2 : ¬ (ruleLines (tally logs)).length = 0 :=
        fun h0 => hrules (List.length_eq_zero.1 h0)
      rw [if_neg hlen2] at h
      exact hnotmem _ (Or.inl rfl) (h ▸ List.mem_singleton.2 rfl)
    · intro h
      rw [h]
      rfl
  · rintro rfl
    refine ⟨rfl, ?_⟩
    rw [← ruleLines_tally_eq_nil_iff]
    exact ruleLines_tally_nil
  · intro hfire
    have hrules : ruleLines (tally logs) ≠ [] :=
      fun h => (ruleLines_tally_eq_nil_iff logs).1 h hfire
    have hlogs : ¬ logs.length = 0 := by
      intro h0
      rw [List.length_eq_zero.1 h0] at hrules
      exact hrules ruleLines_tally_nil
    have hlen2 : ¬ (ruleLines (tally logs)).length = 0 :=
      fun h0 => hrules (List.length_eq_zero.1 h0)
    have hsum : summaryLines logs = ruleLines (tally logs) := by
      unfold summaryLines
      rw [if_neg hlogs]
      simp only []
      rw [if_neg hlen2]
    refine ⟨?_, ?_, ?_⟩
    · unfold summarizePreferences
      rw [hsum]
    · rw [hstrong, hsum]
      exact hnotmem _ (Or.inl rfl)
    · rw [hnone, hsum]
      exact hnotmem _ (Or.inr rfl)

/-! ## GeoProgressTracker and DemoSimulator: the step index -/

theorem trackProgress_steps (m : JsMath) (demoMode : Bool) (s : TripSession) :
    (trackProgress m demoMode s).navigationSteps = s.navigationSteps := by
  unfold trackProgress
  split
  · rfl
  · split_ifs
    · rfl
    · split
      · rfl
      · split
        · rfl
        · simp only []
          split_ifs <;> rfl

theorem trackProgress_index_cases (m : JsMath) (demoMode : Bool) (s : TripSession) :
    (trackProgress m demoMode s).currentStepIndex = s.currentStepIndex ∨
    ((trackProgress m demoMode s).currentStepIndex = s.currentStepIndex + 1 ∧
      s.currentStepIndex < s.navigationSteps.length - 1) := by
  unfold trackProgress
  split
  · exact Or.inl rfl
  · split_ifs
    · exact Or.inl rfl
    · split
      · exact Or.inl rfl
      · split
        · exact Or.inl rfl
        · simp only []
          split_ifs with h
          · exact Or.inr ⟨rfl, h.2⟩
          · exact Or.inl rfl

theorem moveToWaypoint_steps (point : Waypoint) (s : TripSession) :
    (moveToWaypoint point s).navigationSteps = s.navigationSteps := rfl

theorem moveToWaypoint_index (point : Waypoint) (s : TripSession) :
    (moveToWaypoint point s).currentStepIndex = s.currentStepIndex := rfl

theorem installPlaylist_steps (outcome : Except String PlaylistResult) (s : TripSession) :
    (installPlaylist outcome s).navigationSteps = s.navigationSteps := by
  cases outcome <;> rfl

theorem installPlaylist_index (outcome : Except String PlaylistResult) (s : TripSession) :
    (installPlaylist outcome s).currentStepIndex = s.currentStepIndex := by
  cases outcome <;> rfl

theorem advanceDemoStep_steps (cl : DemoClosure) (index : Nat) (s : TripSession) :
    (advanceDemoStep cl index s).navigationSteps = s.navigationSteps := by
  unfold advanceDemoStep
  split_ifs <;> rfl

theorem advanceDemoStep_index (cl : DemoClosure) (index : Nat) (s : TripSession) :
    (advanceDemoStep cl index s).currentStepIndex =
      if (cl.navigationSteps.length > 0 ∧
          cl.currentStepIndex < cl.navigationSteps.length - 1) ∧ index % 2 = 0 then
        min (s.currentStepIndex + 1) (cl.navigationSteps.length - 1)
      else s.currentStepIndex := by
  unfold advanceDemoStep
  by_cases h1 : cl.navigationSteps.length > 0 ∧
      cl.currentStepIndex < cl.navigationSteps.length - 1
  · by_cases h2 : index % 2 = 0
    · rw [if_pos h1, if_pos h2, if_pos ⟨h1, h2⟩]
    · rw [if_pos h1, if_neg h2, if_neg (fun h => h2 h.2)]
  · rw [if_neg h1, if_neg (fun h => h1 h.1)]

/-- A tick on a stopped loop does nothing. -/
theorem demoTick_of_stopped (cl : DemoClosure) (env : TickEnv) (r : DemoRun)
    (hrun : r.running = false) : demoTick cl env r = r := by
  unfold demoTick
  rw [if_pos hrun]

/-- The tick that finds the script exhausted clears the interval. -/
theorem demoTick_of_end (cl : DemoClosure) (env : TickEnv) (r : DemoRun)
    (hrun : r.running = true) (hend : MOCK_ROUTE.length ≤ r.index + 1) :
    demoTick cl env r = { r with index := r.index + 1, running := false } := by
  unfold demoTick
  rw [if_neg (by simp [hrun])]
  simp only []
  rw [if_pos hend]

/-- The tick that finds a waypoint moves there, may advance the step, and
issues one request. -/
theorem demoTick_of_point (cl : DemoClosure) (env : TickEnv) (r : DemoRun) (point : Waypoint)
    (hrun : r.running = true) (hpoint : MOCK_ROUTE[r.index + 1]? = some point) :
    demoTick cl env r =
      { index := r.index + 1, running := true,
        session := installPlaylist
          (generatePlaylistPrompt env.recommend env.shuffle
            (demoTickArgs cl.currentVibe point cl.userTracks
              (getPreferenceSummary env.store cl.username)))
          (advanceDemoStep cl (r.index + 1) (moveToWaypoint point r.session)),
        requests := r.requests ++
          [demoTickArgs cl.currentVibe point cl.userTracks
            (getPreferenceSummary env.store cl.username)] } := by
  have hlt : ¬ MOCK_ROUTE.length ≤ r.index + 1 := by
    intro hge
    rw [List.getElem?_eq_none hge] at hpoint
    exact Option.noConfusion hpoint
  unfold demoTick
  rw [if_neg (by simp [hrun])]
  simp only []
  rw [if_neg hlt, hpoint]

/-- The three cases of a tick. -/
theorem demoTick_cases (cl : DemoClosure) (env : TickEnv) (r : DemoRun) :
    demoTick cl env r = r ∨
    demoTick cl env r = { r with index := r.index + 1, running := false } ∨
    ∃ point, MOCK_ROUTE[r.index + 1]? = some point ∧
      demoTick cl env r =
        { index := r.index + 1, running := true,
          session := installPlaylist
            (generatePlaylistPrompt env.recommend env.shuffle
              (demoTickArgs cl.currentVibe point cl.userTracks
                (getPreferenceSummary env.store cl.username)))
            (advanceDemoStep cl (r.index + 1) (moveToWaypoint point r.session)),
          requests := r.requests ++
            [demoTickArgs cl.currentVibe point cl.userTracks
              (getPreferenceSummary env.store cl.username)] } := by
  by_cases hrun : r.running = false
  · exact Or.inl (demoTick_of_stopped cl env r hrun)
  · have hrun2 : r.running = true := by simpa using hrun
    by_cases hend : MOCK_ROUTE.length ≤ r.index + 1
    · exact Or.inr (Or.inl (demoTick_of_end cl env r hrun2 hend))
    · cases hp : MOCK_ROUTE[r.index + 1]? with
      | none =>
        rw [List.getElem?_eq_none_iff] at hp
        exact absurd hp hend
      | some point => exact Or.inr (Or.inr ⟨point, rfl, demoTick_of_point cl env r point hrun2 hp⟩)

theorem demoTick_steps (cl : DemoClosure) (env : TickEnv) (r : DemoRun) :
    (demoTick cl env r).session.navigationSteps = r.session.navigationSteps := by
  rcases demoTick_cases cl env r with h | h | ⟨point, _, h⟩
  · rw [h]
  · rw [h]
  · rw [h]
    simp only [installPlaylist_steps, advanceDemoStep_steps, moveToWaypoint_steps]

theorem demoTick_index_bounds (cl : DemoClosure) (env : TickEnv) (r : DemoRun)
    (hcl : cl.navigationSteps = [] ∨ cl.navigationSteps = r.session.navigationSteps)
    (hidx : r.session.currentStepIndex < r.session.navigationSteps.length) :
    r.session.currentStepIndex ≤ (demoTick cl env r).session.currentStepIndex ∧
    (demoTick cl env r).session.currentStepIndex < r.session.navigationSteps.length := by
  rcases demoTick_cases cl env r with h | h | ⟨point, _, h⟩
  · rw [h]
    exact ⟨Nat.le_refl _, hidx⟩
  · rw [h]
    exact ⟨Nat.le_refl _, hidx⟩
  · rw [h]
    simp only [installPlaylist_index, advanceDemoStep_index, moveToWaypoint_index]
    rcases hcl with hcl | hcl
    · simp [hcl, hidx]
    · rw [hcl]
      split_ifs <;> omega

theorem demoTicks_invariant (cl : DemoClosure) (envs : List TickEnv) (r : DemoRun)
    (hcl : cl.navigationSteps = [] ∨ cl.navigationSteps = r.session.navigationSteps)
    (hidx : r.session.currentStepIndex < r.session.navigationSteps.length) :
    (demoTicks cl envs r).session.navigationSteps = r.session.navigationSteps ∧
    r.session.currentStepIndex ≤ (demoTicks cl envs r).session.currentStepIndex ∧
    (demoTicks cl envs r).session.currentStepIndex < r.session.navigationSteps.length := by
  induction envs generalizing r with
  | nil => exact ⟨rfl, Nat.le_refl _, hidx⟩
  | cons env rest ih =>
    have hsteps := demoTick_steps cl env r
    have hb := demoTick_index_bounds cl env r hcl hidx
    have h := ih (demoTick cl env r) (by rw [hsteps]; exact hcl) (by rw [hsteps]; exact hb.2)
    rw [hsteps] at h
    show (demoTicks cl rest (demoTick cl env r)).session.navigationSteps = _ ∧ _
    exact ⟨h.1, Nat.le_trans hb.1 h.2.1, h.2.2⟩

/-- C12: for a step index within the step sequence, the index after one run
of the live progress tracker is at least the index before and at most
`steps.length - 1`, and the steps are unchanged; the same holds after any
sequence of demo ticks, whose callback holds either the steps of the trip or
the empty list it captured before the steps were set. -/
theorem step_index_bounds :
    (∀ (m : JsMath) (demoMode : Bool) (s : TripSession),
      s.currentStepIndex < s.navigationSteps.length →
      (trackProgress m demoMode s).navigationSteps = s.navigationSteps ∧
      s.currentStepIndex ≤ (trackProgress m demoMode s).currentStepIndex ∧
      (trackProgress m demoMode s).currentStepIndex ≤ s.navigationSteps.length - 1) ∧
    (∀ (cl : DemoClosure) (envs : List TickEnv) (r : DemoRun),
      (cl.navigationSteps = [] ∨ cl.navigationSteps = r.session.navigationSteps) →
      r.session.currentStepIndex < r.session.navigationSteps.length →
      (demoTicks cl envs r).session.navigationSteps = r.session.navigationSteps ∧
      r.session.currentStepIndex ≤ (demoTicks cl envs r).session.currentStepIndex ∧
      (demoTicks cl envs r).session.currentStepIndex ≤
        r.session.navigationSteps.length - 1) := by
  constructor
  · intro m demoMode s hidx
    refine ⟨trackProgress_steps m demoMode s, ?_, ?_⟩
    · rcases trackProgress_index_cases m demoMode s with h | ⟨h, _⟩ <;> omega
    · rcases trackProgress_index_cases m demoMode s with h | ⟨h, hlt⟩ <;> omega
  · intro cl envs r hcl hidx
    have h := demoTicks_invariant cl envs r hcl hidx
    exact ⟨h.1, h.2.1, by omega⟩

/-! ## GeoProgressTracker: distance and advance -/

theorem calculateDistance_nan (m : JsMath) (lat1 lng1 lat2 lng2 : JsNumber)
    (h : lat1 = none ∨ lng1 = none) : calculateDistance m lat1 lng1 lat2 lng2 = none := by
  rcases h with rfl | rfl
  · rfl
  · cases lat1 <;> rfl

theorem calculateDistance_constant (d lat1 lng1 lat2 lng2 : ℚ) :
    calculateDistance (constantDistanceMath d) (some lat1) (some lng1) (some lat2)
      (some lng2) = some d := by
  simp only [calculateDistance, constantDistanceMath, Option.bind_eq_bind, Option.some_bind,
    Option.pure_def, Option.some.injEq]
  ring

/-- The effect once it has found the current step and its maneuver point. -/
theorem trackProgress_of_step (m : JsMath) (s : TripSession) (position : Coordinate)
    (step : ManeuverStep) (location : JsNumber × JsNumber)
    (hloc : s.currentLocation = some position)
    (hstep : s.navigationSteps[s.currentStepIndex]? = some step)
    (hpoint : step.location = some location) :
    trackProgress m false s =
      if jsLess (calculateDistance m position.lat position.lng location.2 location.1) 20 = true ∧
          s.currentStepIndex < s.navigationSteps.length - 1 then
        { s with
          distanceToNextStep :=
            some (calculateDistance m position.lat position.lng location.2 location.1),
          currentStepIndex := s.currentStepIndex + 1 }
      else
        { s with
          distanceToNextStep :=
            some (calculateDistance m position.lat position.lng location.2 location.1) } := by
  have hne : ¬ (s.navigationSteps.length = 0 ∨ false = true) := by
    rintro (h | h)
    · rw [List.length_eq_zero.1 h] at hstep
      exact Option.noConfusion hstep
    · exact Bool.noConfusion h
  unfold trackProgress
  rw [hloc]
  simp only []
  rw [if_neg hne, hstep]
  simp only []
  rw [hpoint]

/-- The distance under the small-angle functions between two points on
the same meridian. -/
theorem calculateDistance_smallAngle (lat1 lat2 lng : ℚ) (hle : lat1 ≤ lat2)
    (hclose : (lat2 - lat1) * (355 / 113) / 180 / 2 ≤ 1) :
    calculateDistance smallAngleMath (some lat1) (some lng) (some lat2) (some lng) =
      some (6371000 * ((lat2 - lat1) * (355 / 113) / 180)) := by
  have hq : 0 ≤ (lat2 - lat1) * (355 / 113) / 180 / 2 := by
    have : 0 ≤ lat2 - lat1 := sub_nonneg.2 hle
    positivity
  have ha : ¬ (lat2 - lat1) * (355 / 113) / 180 / 2 * ((lat2 - lat1) * (355 / 113) / 180 / 2)
      < 0 := not_lt.2 (mul_nonneg hq hq)
  have hb : ¬ 1 - (lat2 - lat1) * (355 / 113) / 180 / 2 * ((lat2 - lat1) * (355 / 113) / 180 / 2)
      < 0 := by
    have : (lat2 - lat1) * (355 / 113) / 180 / 2 * ((lat2 - lat1) * (355 / 113) / 180 / 2) ≤ 1 :=
      mul_le_one₀ hclose hq hclose
    linarith
  simp only [calculateDistance, smallAngleMath, Option.bind_eq_bind, Option.some_bind,
    Option.pure_def, sub_self, zero_mul, zero_div, mul_zero, add_zero, if_neg ha, if_neg hb,
    Rat.sqrt_eq, abs_of_nonneg hq, Option.some.injEq]
  ring

/-- C13: in live mode, with the current step and its maneuver point at hand,
one run of the tracker stores as the distance to the next maneuver the
haversine distance, in metres on a sphere of radius 6371 km, from the
position to the maneuver point, and moves to step `currentIndex + 1` exactly
when that distance `d` is below 20 and the current step is not the last one;
otherwise the index stays, so `d = 20` does not advance. -/
theorem tracker_advances_iff_close (m : JsMath) (s : TripSession) (position : Coordinate)
    (step : ManeuverStep) (location : JsNumber × JsNumber)
    (hloc : s.currentLocation = some position)
    (hstep : s.navigationSteps[s.currentStepIndex]? = some step)
    (hpoint : step.location = some location) :
    (trackProgress m false s).distanceToNextStep =
      some (calculateDistance m position.lat position.lng location.2 location.1) ∧
    (∀ lat lng stepLat stepLng a rootA rootB : ℚ,
      position.lat = some lat → position.lng = some lng →
      location.2 = some stepLat → location.1 = some stepLng →
      a = m.sin ((stepLat - lat) * m.pi / 180 / 2) * m.sin ((stepLat - lat) * m.pi / 180 / 2) +
        m.cos (lat * m.pi / 180) * m.cos (stepLat * m.pi / 180) *
          m.sin ((stepLng - lng) * m.pi / 180 / 2) * m.sin ((stepLng - lng) * m.pi / 180 / 2) →
      m.sqrt a = some rootA → m.sqrt (1 - a) = some rootB →
      (trackProgress m false s).distanceToNextStep =
        some (some (6371000 * (2 * m.atan2 rootA rootB)))) ∧
    (∀ d : ℚ, (trackProgress m false s).distanceToNextStep = some (some d) →
      (trackProgress m false s).currentStepIndex =
        (if d < 20 ∧ s.currentStepIndex ≠ s.navigationSteps.length - 1 then
          s.currentStepIndex + 1
        else s.currentStepIndex) ∧
      ((trackProgress m false s).currentStepIndex = s.currentStepIndex + 1 ↔
        (d < 20 ∧ s.currentStepIndex ≠ s.navigationSteps.length - 1)) ∧
      (20 ≤ d → (trackProgress m false s).currentStepIndex = s.currentStepIndex)) := by
  have hidx : s.currentStepIndex < s.navigationSteps.length := by
    obtain ⟨h, _⟩ := List.getElem?_eq_some.1 hstep
    exact h
  have hdistance : (trackProgress m false s).distanceToNextStep =
      some (calculateDistance m position.lat position.lng location.2 location.1) := by
    rw [trackProgress_of_step m s position step location hloc hstep hpoint]
    split_ifs <;> rfl
  refine ⟨hdistance, ?_, ?_⟩
  · intro lat lng stepLat stepLng a rootA rootB hlat hlng hslat hslng ha hrootA hrootB
    rw [hdistance, hlat, hlng, hslat, hslng]
    simp only [calculateDistance, Option.bind_eq_bind, Option.some_bind, Option.pure_def,
      ← ha, hrootA, hrootB]
  · intro d hd
    rw [hdistance] at hd
    have hdist : calculateDistance m position.lat position.lng location.2 location.1 = some d :=
      Option.some.inj hd
    have hless : jsLess (some d) 20 = true ↔ d < 20 := by simp [jsLess]
    rw [trackProgress_of_step m s position step location hloc hstep hpoint, hdist]
    by_cases hd : d < 20
    · by_cases hlast : s.currentStepIndex < s.navigationSteps.length - 1
      · have hne : s.currentStepIndex ≠ s.navigationSteps.length - 1 := by omega
        rw [if_pos ⟨hless.2 hd, hlast⟩, if_pos ⟨hd, hne⟩]
        exact ⟨rfl, ⟨fun _ => ⟨hd, hne⟩, fun _ => rfl⟩,
          fun h20 => absurd hd (not_lt.2 h20)⟩
      · have heq : s.currentStepIndex = s.navigationSteps.length - 1 := by omega
        rw [if_neg (fun h => hlast h.2), if_neg (fun h => h.2 heq)]
        refine ⟨rfl, ⟨fun h => ?_, fun h => absurd heq h.2⟩, fun _ => rfl⟩
        have h2 : s.currentStepIndex = s.currentStepIndex + 1 := h
        omega
    · rw [if_neg (fun h => hd (hless.1 h.1)), if_neg (fun h => hd h.1)]
      refine ⟨rfl, ⟨fun h => ?_, fun h => absurd h.1 hd⟩, fun _ => rfl⟩
      have h2 : s.currentStepIndex = s.currentStepIndex + 1 := h
      omega

/-- Witness of `tracker_advances_iff_close`: seven steps, current index 2;
from the position 19 metres south of the maneuver point the tracker reports
19 metres and moves to step 3, from the position 21 metres south of it the
tracker reports 21 metres and stays at step 2, and from the position 20
metres south of it the tracker reports 20 metres and stays at step 2. -/
theorem tracker_advances_iff_close_witness :
    (trackProgress smallAngleMath false
      (liveSession 2 (southOfThirdStep 19) none)).distanceToNextStep = some (some 19) ∧
    (trackProgress smallAngleMath false
      (liveSession 2 (southOfThirdStep 19) none)).currentStepIndex = 3 ∧
    (trackProgress smallAngleMath false
      (liveSession 2 (southOfThirdStep 21) none)).distanceToNextStep = some (some 21) ∧
    (trackProgress smallAngleMath false
      (liveSession 2 (southOfThirdStep 21) none)).currentStepIndex = 2 ∧
    (trackProgress smallAngleMath false
      (liveSession 2 (southOfThirdStep 20) none)).distanceToNextStep = some (some 20) ∧
    (trackProgress smallAngleMath false
      (liveSession 2 (southOfThirdStep 20) none)).currentStepIndex = 2 := by
  have h := tracker_advances_iff_close smallAngleMath
    (liveSession 2 (southOfThirdStep 19) none) (southOfThirdStep 19)
    (ManeuverStep.mk 300 "Turn right onto Whitney Way" "turn" "right"
      (some (some (-89.4811), some 43.0624)))
    (some (-89.4811), some 43.0624) rfl rfl rfl
  have k := tracker_advances_iff_close smallAngleMath
    (liveSession 2 (southOfThirdStep 21) none) (southOfThirdStep 21)
    (ManeuverStep.mk 300 "Turn right onto Whitney Way" "turn" "right"
      (some (some (-89.4811), some 43.0624)))
    (some (-89.4811), some 43.0624) rfl rfl rfl
  have hd19 : (trackProgress smallAngleMath false
      (liveSession 2 (southOfThirdStep 19) none)).distanceToNextStep = some (some 19) := by
    rw [h.1]
    show some (calculateDistance smallAngleMath (some _) (some (-89.4811)) (some 43.0624)
      (some (-89.4811))) = _
    rw [calculateDistance_smallAngle _ _ _ (by norm_num) (by norm_num)]
    norm_num
  have hd21 : (trackProgress smallAngleMath false
      (liveSession 2 (southOfThirdStep 21) none)).distanceToNextStep = some (some 21) := by
    rw [k.1]
    show some (calculateDistance smallAngleMath (some _) (some (-89.4811)) (some 43.0624)
      (some (-89.4811))) = _
    rw [calculateDistance_smallAngle _ _ _ (by norm_num) (by norm_num)]
    norm_num
  have l := tracker_advances_iff_close smallAngleMath
    (liveSession 2 (southOfThirdStep 20) none) (southOfThirdStep 20)
    (ManeuverStep.mk 300 "Turn right onto Whitney Way" "turn" "right"
      (some (some (-89.4811), some 43.0624)))
    (some (-89.4811), some 43.0624) rfl rfl rfl
  have hd20 : (trackProgress smallAngleMath false
      (liveSession 2 (southOfThirdStep 20) none)).distanceToNextStep = some (some 20) := by
    rw [l.1]
    show some (calculateDistance smallAngleMath (some _) (some (-89.4811)) (some 43.0624)
      (some (-89.4811))) = _
    rw [calculateDistance_smallAngle _ _ _ (by norm_num) (by norm_num)]
    norm_num
  have hlen : (liveSession 2 (southOfThirdStep 19) none).navigationSteps.length = 7 := rfl
  have hi : (liveSession 2 (southOfThirdStep 19) none).currentStepIndex = 2 := rfl
  have hi2 : (liveSession 2 (southOfThirdStep 21) none).currentStepIndex = 2 := rfl
  have hi3 : (liveSession 2 (southOfThirdStep 20) none).currentStepIndex = 2 := rfl
  refine ⟨hd19, ?_, hd21, ?_, hd20, ?_⟩
  · rw [(h.2.2 19 hd19).1, hlen, hi]
    norm_num
  · rw [(k.2.2 21 hd21).2.2 (by norm_num), hi2]
  · rw [(l.2.2 20 hd20).2.2 (by norm_num), hi3]

/-- C15, counterexample: for a position whose latitude is not a number the
tracker returns a state, not an error, and that state holds not-a-number as
the distance to the next maneuver, in place of `null` and in place of a
distance of 35 metres stored before. -/
theorem nan_position_stores_nan_distance :
    (trackProgress (constantDistanceMath 19) false
      (liveSession 2 (Coordinate.mk none (some (-89))) none)).distanceToNextStep =
        some none ∧
    (trackProgress (constantDistanceMath 19) false
      (liveSession 2 (Coordinate.mk none (some (-89)))
        (some (some 35)))).distanceToNextStep = some none ∧
    (trackProgress (constantDistanceMath 19) false
      (liveSession 2 (Coordinate.mk none (some (-89))) none)).currentStepIndex = 2 := by
  refine ⟨rfl, rfl, rfl⟩

/-- C15 (amended): when the position has a not-a-number latitude or
longitude, the computed distance is not a number and a run of the live
progress tracker raises no error: it stores not-a-number as the distance to
the next maneuver, and the step index and every other part of the state stay
as they were. -/
theorem tracker_on_nan_position (m : JsMath) (s : TripSession) (position : Coordinate)
    (step : ManeuverStep) (location : JsNumber × JsNumber)
    (hloc : s.currentLocation = some position)
    (hstep : s.navigationSteps[s.currentStepIndex]? = some step)
    (hpoint : step.location = some location)
    (hnan : position.lat = none ∨ position.lng = none) :
    calculateDistance m position.lat position.lng location.2 location.1 = none ∧
    trackProgress m false s = { s with distanceToNextStep := some none } ∧
    (trackProgress m false s).currentStepIndex = s.currentStepIndex := by
  have hd := calculateDistance_nan m position.lat position.lng location.2 location.1 hnan
  have heq : trackProgress m false s = { s with distanceToNextStep := some none } := by
    rw [trackProgress_of_step m s position step location hloc hstep hpoint, hd]
    rw [if_neg (fun h => Bool.noConfusion h.1)]
  rw [heq]
  exact ⟨hd, rfl, rfl⟩

/-- Witness of `tracker_on_nan_position`: seven steps, current index 2, a
position without a latitude. -/
theorem tracker_on_nan_position_witness :
    (trackProgress (constantDistanceMath 19) false
      (liveSession 2 (Coordinate.mk none (some (-89))) none)).currentStepIndex = 2 :=
  (tracker_on_nan_position (constantDistanceMath 19)
    (liveSession 2 (Coordinate.mk none (some (-89))) none)
    (Coordinate.mk none (some (-89)))
    (ManeuverStep.mk 300 "Turn right onto Whitney Way" "turn" "right"
      (some (some (-89.4811), some 43.0624)))
    (some (-89.4811), some 43.0624) rfl rfl rfl (Or.inl rfl)).2.2

/-! ## TripSession: the sequence position of the requests -/

theorem demoTick_requests (cl : DemoClosure) (env : TickEnv) (r : DemoRun)
    (h : ∀ a ∈ r.requests, a.trackNumber = 0) :
    ∀ a ∈ (demoTick cl env r).requests, a.trackNumber = 0 := by
  rcases demoTick_cases cl env r with hc | hc | ⟨point, _, hc⟩
  · rw [hc]
    exact h
  · rw [hc]
    exact h
  · rw [hc]
    intro a ha
    rcases List.mem_append.1 ha with ha | ha
    · exact h a ha
    · rw [List.mem_singleton.1 ha]
      rfl

theorem demoTicks_requests (cl : DemoClosure) (envs : List TickEnv) (r : DemoRun)
    (h : ∀ a ∈ r.requests, a.trackNumber = 0) :
    ∀ a ∈ (demoTicks cl envs r).requests, a.trackNumber = 0 := by
  induction envs generalizing r with
  | nil => exact h
  | cons env rest ih => exact ih (demoTick cl env r) (demoTick_requests cl env r h)

/-- C11, the code at the fourth request of a demo trip: none of the three
call sites passes `trackNumber`, so the request at trip start in demo and in
live mode and the request of every demo tick carry sequence position 0.  In a
demo trip started with mood `calm`, the request issued by the third tick is
the fourth of the trip; its sequence position is 0, not 3 or more, and its
priority note is the one for song number 1. -/
theorem demo_requests_carry_position_zero :
    (∀ vibe start tracks prefs, (demoStartArgs vibe start tracks prefs).trackNumber = 0) ∧
    (∀ vibe weather traffic duration tracks prefs,
      (liveStartArgs vibe weather traffic duration tracks prefs).trackNumber = 0) ∧
    (∀ vibe point tracks prefs, (demoTickArgs vibe point tracks prefs).trackNumber = 0) ∧
    (∀ (cl : DemoClosure) (envs : List TickEnv) mood username tracks env,
      ∀ a ∈ (demoTicks cl envs (startDemo mood username tracks env)).requests,
        a.trackNumber = 0) ∧
    ((demoTicks
        (closureOf (startDemo "calm" (some "ann") (some (numberedPool 20)) quietEnv).session
          (some "ann") (some (numberedPool 20)))
        [quietEnv, quietEnv, quietEnv]
        (startDemo "calm" (some "ann") (some (numberedPool 20)) quietEnv)).requests.map
      (fun a => (a.trackNumber, (buildPrompt a).priorityNote))) =
      [(0, .moodPriorityNote 1 "hype"), (0, .moodPriorityNote 1 "hype"),
        (0, .moodPriorityNote 1 "hype"), (0, .moodPriorityNote 1 "hype")] := by
  refine ⟨fun _ _ _ _ => rfl, fun _ _ _ _ _ _ => rfl, fun _ _ _ _ => rfl, ?_, ?_⟩
  · intro cl envs mood username tracks env
    apply demoTicks_requests
    intro a ha
    have hreq : (startDemo mood username tracks env).requests =
        [demoStartArgs
          (chooseInitialVibe mood (some (Weather.mk (some "Clear") (some "sunny") (some 23)))
            (some (Traffic.mk (some "light"))))
          (Waypoint.mk 43.0592 (-89.5040) "light"
            (Weather.mk (some "Clear") (some "sunny") (some 23)))
          tracks (getPreferenceSummary env.store username)] := rfl
    rw [hreq] at ha
    rw [List.mem_singleton.1 ha]
    rfl
  · decide

/-! ## PreferenceLearner: reading and appending -/

theorem getKey_injective {a b : String} (h : getKey a = getKey b) : a = b := by
  unfold getKey at h
  have hdata := congrArg String.data h
  simp only [String.data_append] at hdata
  exact String.ext (List.append_cancel_left hdata)

theorem readFeedbackLogs_eq (username : Option String) (store : FeedbackStore) :
    readFeedbackLogs username store = (getFeedbackLogs store username, store) := by
  unfold readFeedbackLogs getFeedbackLogs asyncGetItem
  cases username with
  | none => rfl
  | some name =>
    by_cases hname : name = ""
    · simp [hname]
    · simp only [hname, if_false]
      cases store (getKey name) <;> rfl

theorem readPreferenceSummary_eq (username : Option String) (store : FeedbackStore) :
    readPreferenceSummary username store = (getPreferenceSummary store username, store) := by
  unfold readPreferenceSummary getPreferenceSummary
  rw [readFeedbackLogs_eq]

/-- C21: `getPreferenceSummary` leaves the storage as it found it, so every
user's log is unchanged; its result is the summary of the log stored for the
user, the whole of it; and a second call right after the first returns the
same summary. -/
theorem preference_summary_read_only (username : Option String) (store : FeedbackStore) :
    (readPreferenceSummary username store).2 = store ∧
    (∀ other, (readFeedbackLogs other (readPreferenceSummary username store).2).1 =
      (readFeedbackLogs other store).1) ∧
    (readPreferenceSummary username (readPreferenceSummary username store).2).1 =
      (readPreferenceSummary username store).1 ∧
    (readPreferenceSummary username store).1 =
      summarizePreferences (readFeedbackLogs username store).1 ∧
    (∀ name records, username = some name → name ≠ "" →
      store (getKey name) = StoredItem.logs records →
      (readPreferenceSummary username store).1 = summarizePreferences records) := by
  have h := readPreferenceSummary_eq username store
  refine ⟨by rw [h], fun other => by rw [h], by rw [h]; exact congrArg Prod.fst h, ?_, ?_⟩
  · rw [h, readFeedbackLogs_eq]
    rfl
  · intro name records hu hname hstore
    rw [h, hu]
    simp [getPreferenceSummary, getFeedbackLogs, hname, hstore]

/-- C22: after a `logFeedback` that succeeds for a non-empty username (the
stored item could be read and the write went through), the log of that user
is the previous log followed by one new record, the entry with the creation
timestamp; every earlier record keeps its position; every other key of the
storage, hence the log of every other username, is unchanged.  With a missing
or empty username nothing is written. -/
theorem log_feedback_appends (now : Nat) (name : String) (entry : FeedbackEntry)
    (store : FeedbackStore) (hname : name ≠ "")
    (hread : store (getKey name) ≠ StoredItem.unreadable) :
    getFeedbackLogs (logFeedback now true (some name) entry store).2 (some name) =
      getFeedbackLogs store (some name) ++ [{ toFeedbackEntry := entry, timestamp := now }] ∧
    (∀ i, i < (getFeedbackLogs store (some name)).length →
      (getFeedbackLogs (logFeedback now true (some name) entry store).2 (some name))[i]? =
        (getFeedbackLogs store (some name))[i]?) ∧
    (∀ key, key ≠ getKey name →
      (logFeedback now true (some name) entry store).2 key = store key) ∧
    (∀ other, other ≠ name →
      getFeedbackLogs (logFeedback now true (some name) entry store).2 (some other) =
        getFeedbackLogs store (some other)) ∧
    (∀ writeOk, (logFeedback now writeOk none entry store).2 = store) ∧
    (∀ writeOk, (logFeedback now writeOk (some "") entry store).2 = store) := by
  have hstore : ∀ key, (logFeedback now true (some name) entry store).2 key =
      if key = getKey name then
        StoredItem.logs (getFeedbackLogs store (some name) ++
          [{ toFeedbackEntry := entry, timestamp := now }])
      else store key := by
    intro key
    unfold logFeedback getFeedbackLogs asyncGetItem asyncSetItem
    simp only [hname, if_false]
    cases hitem : store (getKey name) with
    | unreadable => exact absurd hitem hread
    | missing => simp
    | logs records => simp
  have happ : getFeedbackLogs (logFeedback now true (some name) entry store).2 (some name) =
      getFeedbackLogs store (some name) ++
        [{ toFeedbackEntry := entry, timestamp := now }] := by
    conv_lhs => unfold getFeedbackLogs
    simp only [hname, if_false, hstore, if_true]
  refine ⟨happ, ?_, ?_, ?_, fun _ => rfl, fun _ => rfl⟩
  · intro i hi
    rw [happ, List.getElem?_append_left hi]
  · intro key hkey
    rw [hstore, if_neg hkey]
  · intro other hother
    have hkey : getKey other ≠ getKey name := fun h => hother (getKey_injective h)
    unfold getFeedbackLogs
    by_cases ho : other = ""
    · simp [ho]
    · simp only [ho, if_false, hstore, if_neg hkey]

/-- Witness of `log_feedback_appends`: the first record of user `ann`. -/
theorem log_feedback_appends_witness :
    getFeedbackLogs (logFeedback 1000 true (some "ann") skipEntry emptyStore).2 (some "ann") =
      getFeedbackLogs emptyStore (some "ann") ++
        [{ toFeedbackEntry := skipEntry, timestamp := 1000 }] :=
  (log_feedback_appends 1000 "ann" skipEntry emptyStore (by decide) (by decide)).1

/-! ## Double-precision numbers: rounding -/

theorem bitLength_zero (fuel : Nat) : bitLength fuel 0 = 0 := by
  cases fuel <;> rfl

theorem bitLength_bounds (fuel n : Nat) (h : n ≤ fuel) (hn : 0 < n) :
    1 ≤ bitLength fuel n ∧ 2 ^ (bitLength fuel n - 1) ≤ n ∧ n < 2 ^ bitLength fuel n := by
  induction fuel generalizing n with
  | zero => omega
  | succ fuel ih =>
    have hne : n ≠ 0 := by omega
    have hstep : bitLength (fuel + 1) n = bitLength fuel (n / 2) + 1 := by
      show (if n = 0 then 0 else bitLength fuel (n / 2) + 1) = _
      rw [if_neg hne]
    rw [hstep]
    by_cases h2 : n / 2 = 0
    · rw [h2, bitLength_zero]
      have : n = 1 := by omega
      subst this
      decide
    · obtain ⟨h1, hlo, hhi⟩ := ih (n / 2) (by omega) (by omega)
      have hpow : 2 ^ bitLength fuel (n / 2) = 2 * 2 ^ (bitLength fuel (n / 2) - 1) := by
        rw [← pow_succ']
        congr 1
        omega
      refine ⟨by omega, ?_, ?_⟩
      · rw [Nat.add_sub_cancel, hpow]
        omega
      · rw [pow_succ]
        omega

theorem two_zpow_toNat (e : ℤ) :
    ((2 : ℚ) ^ e.toNat) / (2 : ℚ) ^ (-e).toNat = (2 : ℚ) ^ e := by
  rcases le_total 0 e with h | h
  · have h1 : (-e).toNat = 0 := Int.toNat_eq_zero.2 (by omega)
    rw [h1, pow_zero, div_one, ← zpow_natCast, Int.toNat_of_nonneg h]
  · have h1 : e.toNat = 0 := Int.toNat_eq_zero.2 h
    have h2 : ((-e).toNat : ℤ) = -e := Int.toNat_of_nonneg (by omega)
    rw [h1, pow_zero, one_div, ← zpow_natCast, h2, zpow_neg, inv_inv]

theorem scaled_ratio (num den : Nat) (e : ℤ) :
    ((num * 2 ^ (-e).toNat : Nat) : ℚ) / ((den * 2 ^ e.toNat : Nat) : ℚ) =
      (num : ℚ) / den * (2 : ℚ) ^ (-e) := by
  have h := two_zpow_toNat (-e)
  rw [neg_neg] at h
  rw [← h]
  push_cast
  rw [mul_div_mul_comm]

theorem scaled_ge_iff (num den : Nat) (hden : 0 < den) (b : ℤ) :
    num * 2 ^ (-b).toNat ≥ den * 2 ^ b.toNat ↔ (2 : ℚ) ^ b ≤ (num : ℚ) / den := by
  have hd : (0 : ℚ) < den := by exact_mod_cast hden
  have hp : (0 : ℚ) < (2 : ℚ) ^ (-b).toNat := by positivity
  rw [← two_zpow_toNat b, div_le_div_iff₀ hp hd, ge_iff_le]
  constructor
  · intro h
    have h2 : ((den * 2 ^ b.toNat : Nat) : ℚ) ≤ ((num * 2 ^ (-b).toNat : Nat) : ℚ) := by
      exact_mod_cast h
    push_cast at h2
    linarith
  · intro h
    have h2 : ((den * 2 ^ b.toNat : Nat) : ℚ) ≤ ((num * 2 ^ (-b).toNat : Nat) : ℚ) := by
      push_cast
      linarith
    exact_mod_cast h2

theorem two_zpow_pred (k : Nat) (hk : 1 ≤ k) :
    (2 : ℚ) ^ ((k : ℤ) - 1) = ((2 ^ (k - 1) : Nat) : ℚ) := by
  have h : ((k - 1 : Nat) : ℤ) = (k : ℤ) - 1 := by omega
  rw [← h, zpow_natCast]
  push_cast
  rfl

theorem floorLog_bounds (num den : Nat) (hnum : 0 < num) (hden : 0 < den) :
    (2 : ℚ) ^ ((bitLength num num : ℤ) - (bitLength den den : ℤ) - 1) < (num : ℚ) / den ∧
    (num : ℚ) / den < (2 : ℚ) ^ ((bitLength num num : ℤ) - (bitLength den den : ℤ) + 1) := by
  obtain ⟨hn1, hnlo, hnhi⟩ := bitLength_bounds num num (le_refl _) hnum
  obtain ⟨hd1, hdlo, hdhi⟩ := bitLength_bounds den den (le_refl _) hden
  have hd : (0 : ℚ) < den := by exact_mod_cast hden
  have hnlo' : (2 : ℚ) ^ ((bitLength num num : ℤ) - 1) ≤ num := by
    have : ((2 ^ (bitLength num num - 1) : Nat) : ℚ) ≤ num := by exact_mod_cast hnlo
    rwa [two_zpow_pred _ hn1]
  have hnhi' : (num : ℚ) < (2 : ℚ) ^ (bitLength num num : ℤ) := by
    have : (num : ℚ) < ((2 ^ bitLength num num : Nat) : ℚ) := by exact_mod_cast hnhi
    rw [zpow_natCast]
    push_cast at this
    exact this
  have hdlo' : (2 : ℚ) ^ ((bitLength den den : ℤ) - 1) ≤ den := by
    have : ((2 ^ (bitLength den den - 1) : Nat) : ℚ) ≤ den := by exact_mod_cast hdlo
    rwa [two_zpow_pred _ hd1]
  have hdhi' : (den : ℚ) < (2 : ℚ) ^ (bitLength den den : ℤ) := by
    have : (den : ℚ) < ((2 ^ bitLength den den : Nat) : ℚ) := by exact_mod_cast hdhi
    rw [zpow_natCast]
    push_cast at this
    exact this
  have h2 : (2 : ℚ) ≠ 0 := by norm_num
  constructor
  · rw [lt_div_iff₀ hd]
    have e1 : (2 : ℚ) ^ ((bitLength num num : ℤ) - (bitLength den den : ℤ) - 1) *
        (2 : ℚ) ^ (bitLength den den : ℤ) = (2 : ℚ) ^ ((bitLength num num : ℤ) - 1) := by
      rw [← zpow_add₀ h2]
      congr 1
      ring
    have hpos : (0 : ℚ) < (2 : ℚ) ^ ((bitLength num num : ℤ) - (bitLength den den : ℤ) - 1) := by
      positivity
    calc (2 : ℚ) ^ ((bitLength num num : ℤ) - (bitLength den den : ℤ) - 1) * den
        < (2 : ℚ) ^ ((bitLength num num : ℤ) - (bitLength den den : ℤ) - 1) *
          (2 : ℚ) ^ (bitLength den den : ℤ) := by
          exact mul_lt_mul_of_pos_left hdhi' hpos
      _ = (2 : ℚ) ^ ((bitLength num num : ℤ) - 1) := e1
      _ ≤ num := hnlo'
  · rw [div_lt_iff₀ hd]
    have e1 : (2 : ℚ) ^ ((bitLength num num : ℤ) - (bitLength den den : ℤ) + 1) *
        (2 : ℚ) ^ ((bitLength den den : ℤ) - 1) = (2 : ℚ) ^ (bitLength num num : ℤ) := by
      rw [← zpow_add₀ h2]
      congr 1
      ring
    have hpos : (0 : ℚ) < (2 : ℚ) ^ ((bitLength num num : ℤ) - (bitLength den den : ℤ) + 1) := by
      positivity
    calc (num : ℚ) < (2 : ℚ) ^ (bitLength num num : ℤ) := hnhi'
      _ = (2 : ℚ) ^ ((bitLength num num : ℤ) - (bitLength den den : ℤ) + 1) *
          (2 : ℚ) ^ ((bitLength den den : ℤ) - 1) := e1.symm
      _ ≤ (2 : ℚ) ^ ((bitLength num num : ℤ) - (bitLength den den : ℤ) + 1) * den := by
          exact mul_le_mul_of_nonneg_left hdlo' hpos.le

theorem floorLog2_spec (num den : Nat) (hnum : 0 < num) (hden : 0 < den) :
    (2 : ℚ) ^ floorLog2 num den ≤ (num : ℚ) / den ∧
    (num : ℚ) / den < (2 : ℚ) ^ (floorLog2 num den + 1) := by
  obtain ⟨hlo, hhi⟩ := floorLog_bounds num den hnum hden
  unfold floorLog2
  simp only []
  by_cases h : num * 2 ^ (-((bitLength num num : ℤ) - (bitLength den den : ℤ))).toNat ≥
      den * 2 ^ ((bitLength num num : ℤ) - (bitLength den den : ℤ)).toNat
  · rw [if_pos h]
    exact ⟨(scaled_ge_iff num den hden _).1 h, hhi⟩
  · rw [if_neg h]
    refine ⟨hlo.le, ?_⟩
    rw [sub_add_cancel]
    exact not_le.1 (fun hle => h ((scaled_ge_iff num den hden _).2 hle))

theorem roundAt_spec (num den : Nat) (hden : 0 < den) (e : ℤ) :
    (roundAt num den e).exp = e ∧
    ((roundAt num den e).mant : ℚ) - 1 / 2 ≤ (num : ℚ) / den * (2 : ℚ) ^ (-e) ∧
    (num : ℚ) / den * (2 : ℚ) ^ (-e) ≤ ((roundAt num den e).mant : ℚ) + 1 / 2 ∧
    (((num : ℚ) / den * (2 : ℚ) ^ (-e) = ((roundAt num den e).mant : ℚ) + 1 / 2 ∨
        (num : ℚ) / den * (2 : ℚ) ^ (-e) = ((roundAt num den e).mant : ℚ) - 1 / 2) →
      (roundAt num den e).mant % 2 = 0) := by
  rw [← scaled_ratio num den e]
  have hD : 0 < den * 2 ^ e.toNat := Nat.mul_pos hden (by positivity)
  unfold roundAt
  simp only []
  generalize num * 2 ^ (-e).toNat = N at *
  generalize den * 2 ^ e.toNat = D at *
  have hDq : (0 : ℚ) < D := by exact_mod_cast hD
  have hdm : (N : ℚ) = D * (N / D : Nat) + (N % D : Nat) := by
    exact_mod_cast (Nat.div_add_mod N D).symm
  have hr : N % D < D := Nat.mod_lt N hD
  have hrq : ((N % D : Nat) : ℚ) < D := by exact_mod_cast hr
  have ht : (N : ℚ) / D = (N / D : Nat) + ((N % D : Nat) : ℚ) / D := by
    rw [hdm]
    field_simp
    ring
  have hfrac0 : 0 ≤ ((N % D : Nat) : ℚ) / D := by positivity
  have hfrac1 : ((N % D : Nat) : ℚ) / D < 1 := (div_lt_one hDq).2 hrq
  have hhalf : ∀ c : ℚ, (((N % D : Nat) : ℚ) / D ≤ c ↔ ((N % D : Nat) : ℚ) ≤ c * D) :=
    fun c => div_le_iff₀ hDq
  by_cases hup : 2 * (N % D) > D ∨ (2 * (N % D) = D ∧ N / D % 2 = 1)
  · rw [if_pos hup]
    have h2r : (D : ℚ) ≤ 2 * ((N % D : Nat) : ℚ) := by
      rcases hup with h | h
      · have : D ≤ 2 * (N % D) := h.le
        exact_mod_cast this
      · have : D ≤ 2 * (N % D) := h.1.ge
        exact_mod_cast this
    have hge : (1 : ℚ) / 2 ≤ ((N % D : Nat) : ℚ) / D := by
      rw [le_div_iff₀ hDq]
      linarith
    refine ⟨rfl, ?_, ?_, ?_⟩
    · rw [ht]
      push_cast
      linarith
    · rw [ht]
      push_cast
      linarith
    · rintro (h | h)
      · rw [ht] at h
        push_cast at h
        linarith
      · rw [ht] at h
        push_cast at h
        have hfr : ((N % D : Nat) : ℚ) / D = 1 / 2 := by linarith
        rw [div_eq_iff hDq.ne'] at hfr
        have hnat : 2 * (N % D) = D := by
          have : (2 : ℚ) * ((N % D : Nat) : ℚ) = D := by linarith
          exact_mod_cast this
        rcases hup with h3 | h3
        · omega
        · show (N / D + 1) % 2 = 0
          omega
  · rw [if_neg hup]
    have h2r : 2 * ((N % D : Nat) : ℚ) ≤ D := by
      have : 2 * (N % D) ≤ D := by
        by_contra hc
        exact hup (Or.inl (by omega))
      exact_mod_cast this
    have hle : ((N % D : Nat) : ℚ) / D ≤ 1 / 2 := by
      rw [div_le_iff₀ hDq]
      linarith
    refine ⟨rfl, ?_, ?_, ?_⟩
    · rw [ht]
      linarith
    · rw [ht]
      linarith
    · rintro (h | h)
      · rw [ht] at h
        have hfr : ((N % D : Nat) : ℚ) / D = 1 / 2 := by linarith
        rw [div_eq_iff hDq.ne'] at hfr
        have hnat : 2 * (N % D) = D := by
          have : (2 : ℚ) * ((N % D : Nat) : ℚ) = D := by linarith
          exact_mod_cast this
        show N / D % 2 = 0
        by_contra hodd
        exact hup (Or.inr ⟨hnat, by omega⟩)
      · rw [ht] at h
        linarith

theorem roundDouble_isRounding (num den : Nat) (hden : 0 < den) :
    IsRounding ((num : ℚ) / den) (roundDouble num den) := by
  by_cases hnum : num = 0
  · left
    subst hnum
    refine ⟨by simp, ?_⟩
    unfold roundDouble
    simp
  · right
    have hnumpos : 0 < num := Nat.pos_of_ne_zero hnum
    have hd : (0 : ℚ) < den := by exact_mod_cast hden
    have hn : (0 : ℚ) < num := by exact_mod_cast hnumpos
    have hround : roundDouble num den = roundAt num den (floorLog2 num den - 52) := by
      unfold roundDouble
      rw [if_neg (by omega)]
    obtain ⟨hlo, hhi⟩ := floorLog2_spec num den hnumpos hden
    obtain ⟨hexp, h1, h2, h3⟩ := roundAt_spec num den hden (floorLog2 num den - 52)
    rw [hround, hexp]
    have h2ne : (2 : ℚ) ≠ 0 := by norm_num
    have hpos : (0 : ℚ) < (2 : ℚ) ^ (-(floorLog2 num den - 52)) := by positivity
    have e1 : (2 : ℚ) ^ floorLog2 num den * (2 : ℚ) ^ (-(floorLog2 num den - 52)) =
        (2 : ℚ) ^ 52 := by
      rw [← zpow_add₀ h2ne]
      have : floorLog2 num den + -(floorLog2 num den - 52) = (52 : ℕ) := by push_cast; ring
      rw [this, zpow_natCast]
    have e2 : (2 : ℚ) ^ (floorLog2 num den + 1) * (2 : ℚ) ^ (-(floorLog2 num den - 52)) =
        (2 : ℚ) ^ 53 := by
      rw [← zpow_add₀ h2ne]
      have : floorLog2 num den + 1 + -(floorLog2 num den - 52) = (53 : ℕ) := by push_cast; ring
      rw [this, zpow_natCast]
    refine ⟨div_pos hn hd, ?_, ?_, h1, h2, h3⟩
    · rw [← e1]
      exact mul_le_mul_of_nonneg_right hlo hpos.le
    · rw [← e2]
      exact mul_lt_mul_of_pos_right hhi hpos

theorem JsDouble.toRat_nonneg (d : JsDouble) : 0 ≤ d.toRat := by
  unfold JsDouble.toRat
  positivity

/-- The relative error of a rounding is at most `2 ^ -53`. -/
theorem IsRounding.error {x : ℚ} {d : JsDouble} (h : IsRounding x d) :
    x * (1 - 1 / 2 ^ 53) ≤ d.toRat ∧ d.toRat ≤ x * (1 + 1 / 2 ^ 53) := by
  rcases h with ⟨hx, hm⟩ | ⟨hx, hlo, hhi, h1, h2, _⟩
  · unfold JsDouble.toRat
    rw [hx, hm]
    simp
  · have hp : (0 : ℚ) < (2 : ℚ) ^ d.exp := by positivity
    have hxe : x = x * (2 : ℚ) ^ (-d.exp) * (2 : ℚ) ^ d.exp := by
      rw [mul_assoc, ← zpow_add₀ (by norm_num : (2 : ℚ) ≠ 0), neg_add_cancel, zpow_zero,
        mul_one]
    unfold JsDouble.toRat
    generalize x * (2 : ℚ) ^ (-d.exp) = t at *
    generalize (2 : ℚ) ^ d.exp = p at *
    have ht : (0 : ℚ) < t := lt_of_lt_of_le (by norm_num) hlo
    rw [hxe]
    have k1 : t * p * (1 / 2 ^ 53) ≥ p / 2 := by
      have : t * p * (1 / 2 ^ 53) - p / 2 = p * ((t - 2 ^ 52) / 2 ^ 53) := by ring
      have h3 : 0 ≤ p * ((t - 2 ^ 52) / 2 ^ 53) := by
        apply mul_nonneg hp.le
        apply div_nonneg _ (by norm_num)
        linarith
      linarith
    constructor
    · have : (d.mant : ℚ) * p ≥ (t - 1 / 2) * p := by
        apply mul_le_mul_of_nonneg_right _ hp.le
        linarith
      nlinarith
    · have : (d.mant : ℚ) * p ≤ (t + 1 / 2) * p := by
        apply mul_le_mul_of_nonneg_right _ hp.le
        linarith
      nlinarith

theorem zpow_two_lt_of_lt {a b : ℤ} (h : a < b) : (2 : ℚ) ^ a * 2 ≤ (2 : ℚ) ^ b := by
  have h1 : (2 : ℚ) ^ a * 2 = (2 : ℚ) ^ (a + 1) := by
    rw [zpow_add₀ (by norm_num : (2 : ℚ) ≠ 0), zpow_one]
  rw [h1]
  exact zpow_le_zpow_right₀ (by norm_num) (by omega)

/-- A number has one rounding. -/
theorem IsRounding.unique {x : ℚ} {d1 d2 : JsDouble} (h1 : IsRounding x d1)
    (h2 : IsRounding x d2) : d1.toRat = d2.toRat := by
  rcases h1 with ⟨hx1, hm1⟩ | ⟨hx1, hlo1, hhi1, ha1, hb1, ht1⟩
  · rcases h2 with ⟨_, hm2⟩ | ⟨hx2, _⟩
    · unfold JsDouble.toRat
      rw [hm1, hm2]
      simp
    · rw [hx1] at hx2
      exact absurd hx2 (lt_irrefl _)
  · rcases h2 with ⟨hx2, _⟩ | ⟨hx2, hlo2, hhi2, ha2, hb2, ht2⟩
    · rw [hx2] at hx1
      exact absurd hx1 (lt_irrefl _)
    · have hexp : d1.exp = d2.exp := by
        by_contra hne
        rcases lt_or_gt_of_ne hne with hlt | hgt
        · have hz := zpow_two_lt_of_lt (neg_lt_neg hlt)
          have : x * (2 : ℚ) ^ (-d2.exp) * 2 ≤ x * (2 : ℚ) ^ (-d1.exp) := by
            rw [mul_assoc]
            exact mul_le_mul_of_nonneg_left hz hx1.le
          linarith
        · have hz := zpow_two_lt_of_lt (neg_lt_neg hgt)
          have : x * (2 : ℚ) ^ (-d1.exp) * 2 ≤ x * (2 : ℚ) ^ (-d2.exp) := by
            rw [mul_assoc]
            exact mul_le_mul_of_nonneg_left hz hx1.le
          linarith
      rw [hexp] at ha1 hb1 ht1
      have hmant : d1.mant = d2.mant := by
        generalize x * (2 : ℚ) ^ (-d2.exp) = t at *
        have hle1 : (d1.mant : ℚ) ≤ d2.mant + 1 := by linarith
        have hle2 : (d2.mant : ℚ) ≤ d1.mant + 1 := by linarith
        have hn1 : d1.mant ≤ d2.mant + 1 := by exact_mod_cast hle1
        have hn2 : d2.mant ≤ d1.mant + 1 := by exact_mod_cast hle2
        by_contra hne
        rcases Nat.lt_or_gt_of_ne hne with hlt | hgt
        · have heq : d2.mant = d1.mant + 1 := by omega
          have hq : (d2.mant : ℚ) = d1.mant + 1 := by exact_mod_cast heq
          have htie : t = (d1.mant : ℚ) + 1 / 2 := by linarith
          have e1 := ht1 (Or.inl htie)
          have e2 := ht2 (Or.inr (by linarith))
          omega
        · have heq : d1.mant = d2.mant + 1 := by omega
          have hq : (d1.mant : ℚ) = d2.mant + 1 := by exact_mod_cast heq
          have htie : t = (d2.mant : ℚ) + 1 / 2 := by linarith
          have e1 := ht2 (Or.inl htie)
          have e2 := ht1 (Or.inr (by linarith))
          omega
      unfold JsDouble.toRat
      rw [hexp, hmant]

/-- A number just below a natural number below `2 ^ 53` rounds to it. -/
theorem IsRounding.to_nat {x : ℚ} {d : JsDouble} (h : IsRounding x d) (K : Nat)
    (hK : K < 2 ^ 53) (hle : x ≤ K) (hclose : ((K : ℚ) - x) * 2 ^ 54 < x) :
    d.toRat = K := by
  rcases h with ⟨hx, hm⟩ | ⟨hx, hlo, hhi, h1, h2, _⟩
  · rw [hx] at hclose hle
    have hK0 : (K : ℚ) ≤ 0 := by linarith
    have hK1 : (0 : ℚ) ≤ K := Nat.cast_nonneg K
    unfold JsDouble.toRat
    rw [hm]
    have : (K : ℚ) = 0 := le_antisymm hK0 hK1
    rw [this]
    simp
  · have hKq : (K : ℚ) < 2 ^ 53 := by exact_mod_cast hK
    have hpn : (0 : ℚ) < (2 : ℚ) ^ (-d.exp) := by positivity
    -- the exponent is not positive
    have hexp : d.exp ≤ 0 := by
      by_contra hpos
      have hz := zpow_two_lt_of_lt (show -d.exp < 0 by omega)
      rw [zpow_zero] at hz
      have hxK : x * (2 : ℚ) ^ (-d.exp) ≤ K * (2 : ℚ) ^ (-d.exp) :=
        mul_le_mul_of_nonneg_right hle hpn.le
      have hK2 : (K : ℚ) * (2 : ℚ) ^ (-d.exp) * 2 ≤ K * 1 := by
        rw [mul_assoc]
        exact mul_le_mul_of_nonneg_left hz (Nat.cast_nonneg K)
      linarith
    obtain ⟨n, hn⟩ : ∃ n : Nat, -d.exp = (n : ℤ) := ⟨(-d.exp).toNat, by omega⟩
    have hscale : (K : ℚ) * (2 : ℚ) ^ (-d.exp) = ((K * 2 ^ n : Nat) : ℚ) := by
      rw [hn, zpow_natCast]
      push_cast
      rfl
    have hdiff : (K : ℚ) * (2 : ℚ) ^ (-d.exp) - x * (2 : ℚ) ^ (-d.exp) < 1 / 2 := by
      have e1 : (K : ℚ) * (2 : ℚ) ^ (-d.exp) - x * (2 : ℚ) ^ (-d.exp) =
          ((K : ℚ) - x) * (2 : ℚ) ^ (-d.exp) := by ring
      rw [e1]
      have e2 : ((K : ℚ) - x) * 2 ^ 54 * (2 : ℚ) ^ (-d.exp) < x * (2 : ℚ) ^ (-d.exp) :=
        mul_lt_mul_of_pos_right hclose hpn
      nlinarith
    have hge : x * (2 : ℚ) ^ (-d.exp) ≤ (K : ℚ) * (2 : ℚ) ^ (-d.exp) :=
      mul_le_mul_of_nonneg_right hle hpn.le
    rw [hscale] at hdiff hge
    have hm1 : (d.mant : ℚ) < ((K * 2 ^ n : Nat) : ℚ) + 1 := by linarith
    have hm2 : ((K * 2 ^ n : Nat) : ℚ) < (d.mant : ℚ) + 1 := by linarith
    have hn1 : d.mant < K * 2 ^ n + 1 := by exact_mod_cast hm1
    have hn2 : K * 2 ^ n < d.mant + 1 := by exact_mod_cast hm2
    have hmant : d.mant = K * 2 ^ n := by omega
    unfold JsDouble.toRat
    rw [hmant, ← hscale, mul_assoc, ← zpow_add₀ (by norm_num : (2 : ℚ) ≠ 0), neg_add_cancel,
      zpow_zero, mul_one]

theorem ofNat_isRounding (n : Nat) : IsRounding (n : ℚ) (JsDouble.ofNat n) := by
  have h := roundDouble_isRounding n 1 Nat.one_pos
  simpa using h

theorem ofNat_toRat (n : Nat) (h : n < 2 ^ 53) : (JsDouble.ofNat n).toRat = n := by
  by_cases h0 : n = 0
  · subst h0
    simp [JsDouble.ofNat, roundDouble, JsDouble.toRat]
  · have hpos : (0 : ℚ) < n := by exact_mod_cast Nat.pos_of_ne_zero h0
    exact (ofNat_isRounding n).to_nat n h le_rfl (by simpa using hpos)

theorem mul_isRounding (a b : JsDouble) : IsRounding (a.toRat * b.toRat) (a.mul b) := by
  have h := roundDouble_isRounding (a.mant * b.mant * 2 ^ (a.exp + b.exp).toNat)
    (2 ^ (-(a.exp + b.exp)).toNat) (by positivity)
  have e : ((a.mant * b.mant * 2 ^ (a.exp + b.exp).toNat : Nat) : ℚ) /
      ((2 ^ (-(a.exp + b.exp)).toNat : Nat) : ℚ) = a.toRat * b.toRat := by
    push_cast
    rw [mul_div_assoc, two_zpow_toNat, zpow_add₀ (by norm_num : (2 : ℚ) ≠ 0)]
    unfold JsDouble.toRat
    ring
  rw [e] at h
  exact h

theorem div_isRounding (a b : JsDouble) (hb : 0 < b.mant) :
    IsRounding (a.toRat / b.toRat) (a.div b) := by
  have h := roundDouble_isRounding (a.mant * 2 ^ (a.exp - b.exp).toNat)
    (b.mant * 2 ^ (b.exp - a.exp).toNat) (Nat.mul_pos hb (by positivity))
  have hneg : b.exp - a.exp = -(a.exp - b.exp) := by ring
  have hbq : (b.mant : ℚ) ≠ 0 := by exact_mod_cast hb.ne'
  have e : ((a.mant * 2 ^ (a.exp - b.exp).toNat : Nat) : ℚ) /
      ((b.mant * 2 ^ (b.exp - a.exp).toNat : Nat) : ℚ) = a.toRat / b.toRat := by
    push_cast
    rw [hneg, mul_div_mul_comm, two_zpow_toNat, zpow_sub₀ (by norm_num : (2 : ℚ) ≠ 0)]
    unfold JsDouble.toRat
    have hp : (2 : ℚ) ^ b.exp ≠ 0 := by positivity
    field_simp
  rw [e] at h
  exact h

theorem JsDouble.lt_iff (a b : JsDouble) : a.lt b = true ↔ a.toRat < b.toRat := by
  have ha : ((a.exp - min a.exp b.exp).toNat : ℤ) = a.exp - min a.exp b.exp :=
    Int.toNat_of_nonneg (by omega)
  have hb : ((b.exp - min a.exp b.exp).toNat : ℤ) = b.exp - min a.exp b.exp :=
    Int.toNat_of_nonneg (by omega)
  have h2 : (2 : ℚ) ≠ 0 := by norm_num
  have hp : (0 : ℚ) < (2 : ℚ) ^ min a.exp b.exp := by positivity
  have ea : a.toRat = ((a.mant * 2 ^ (a.exp - min a.exp b.exp).toNat : Nat) : ℚ) *
      (2 : ℚ) ^ min a.exp b.exp := by
    unfold JsDouble.toRat
    push_cast
    rw [mul_assoc, ← zpow_natCast, ha, ← zpow_add₀ h2, sub_add_cancel]
  have eb : b.toRat = ((b.mant * 2 ^ (b.exp - min a.exp b.exp).toNat : Nat) : ℚ) *
      (2 : ℚ) ^ min a.exp b.exp := by
    unfold JsDouble.toRat
    push_cast
    rw [mul_assoc, ← zpow_natCast, hb, ← zpow_add₀ h2, sub_add_cancel]
  rw [ea, eb, mul_lt_mul_right hp]
  unfold JsDouble.lt
  rw [decide_eq_true_iff]
  exact Nat.cast_lt.symm

/-- The test `k > n * c` for a constant `c` within `2 ^ -53` below `q`. -/
theorem product_test (n k : Nat) (c : JsDouble) (q : ℚ) (hn : n < 2 ^ 32) (hk : k < 2 ^ 32)
    (hq1 : q ≤ 1) (hc1 : c.toRat ≤ q) (hc2 : q - 1 / 2 ^ 53 ≤ c.toRat) :
    (q * n + 1 / 10 ≤ k → ((JsDouble.ofNat n).mul c).lt (JsDouble.ofNat k) = true) ∧
    ((k : ℚ) + 1 / 10 ≤ q * n → ((JsDouble.ofNat n).mul c).lt (JsDouble.ofNat k) = false) := by
  have hnv := ofNat_toRat n (lt_trans hn (by norm_num))
  have hkv := ofNat_toRat k (lt_trans hk (by norm_num))
  have hP := (mul_isRounding (JsDouble.ofNat n) c).error
  rw [hnv] at hP
  have hnq : (n : ℚ) < 2 ^ 32 := by exact_mod_cast hn
  have hkq : (k : ℚ) < 2 ^ 32 := by exact_mod_cast hk
  have hn0 : (0 : ℚ) ≤ n := Nat.cast_nonneg n
  have hk0 : (0 : ℚ) ≤ k := Nat.cast_nonneg k
  have hX1 : (n : ℚ) * c.toRat ≤ q * n := by
    rw [mul_comm q]
    exact mul_le_mul_of_nonneg_left hc1 hn0
  have hX2 : q * n - n / 2 ^ 53 ≤ (n : ℚ) * c.toRat := by
    have : (n : ℚ) * (q - 1 / 2 ^ 53) ≤ n * c.toRat := mul_le_mul_of_nonneg_left hc2 hn0
    have e : (n : ℚ) * (q - 1 / 2 ^ 53) = q * n - n / 2 ^ 53 := by ring
    rw [e] at this
    exact this
  have hqn : q * n ≤ n := by
    have := mul_le_mul_of_nonneg_right hq1 hn0
    rw [one_mul] at this
    exact this
  generalize (n : ℚ) * c.toRat = X at *
  constructor
  · intro h
    rw [JsDouble.lt_iff, hkv]
    have e1 : X * (1 + 1 / 2 ^ 53) = X + X / 2 ^ 53 := by ring
    rw [e1] at hP
    have : X / 2 ^ 53 < 1 / 10 := by
      rw [div_lt_iff₀ (by norm_num)]
      linarith
    linarith [hP.2]
  · intro h
    rw [Bool.eq_false_iff]
    intro hlt
    rw [JsDouble.lt_iff, hkv] at hlt
    have e1 : X * (1 - 1 / 2 ^ 53) = X - X / 2 ^ 53 := by ring
    rw [e1] at hP
    have h1 : X / 2 ^ 53 < 1 / 20 := by
      rw [div_lt_iff₀ (by norm_num)]
      linarith
    have h2 : (n : ℚ) / 2 ^ 53 < 1 / 20 := by
      rw [div_lt_iff₀ (by norm_num)]
      linarith
    linarith [hP.1]

/-- The test `k > n * c` when `q * n` is the natural number `k`. -/
theorem product_test_boundary (n k : Nat) (c : JsDouble) (q : ℚ) (hn0 : 0 < n)
    (hk : k < 2 ^ 53) (hq : 1 / 4 ≤ q) (hc1 : c.toRat ≤ q)
    (hc2 : q - 1 / (5 * 2 ^ 54) ≤ c.toRat) (hkn : (k : ℚ) = q * n) (hn : n < 2 ^ 53) :
    ((JsDouble.ofNat n).mul c).lt (JsDouble.ofNat k) = false := by
  have hnv := ofNat_toRat n hn
  have hkv := ofNat_toRat k hk
  have hP := mul_isRounding (JsDouble.ofNat n) c
  rw [hnv] at hP
  have hnq : (0 : ℚ) < n := by exact_mod_cast hn0
  have hX1 : (n : ℚ) * c.toRat ≤ k := by
    rw [hkn, mul_comm q]
    exact mul_le_mul_of_nonneg_left hc1 hnq.le
  have hX2 : (k : ℚ) - n / (5 * 2 ^ 54) ≤ (n : ℚ) * c.toRat := by
    have : (n : ℚ) * (q - 1 / (5 * 2 ^ 54)) ≤ n * c.toRat :=
      mul_le_mul_of_nonneg_left hc2 hnq.le
    have e : (n : ℚ) * (q - 1 / (5 * 2 ^ 54)) = q * n - n / (5 * 2 ^ 54) := by ring
    rw [e, ← hkn] at this
    exact this
  have hval : ((JsDouble.ofNat n).mul c).toRat = k := by
    apply hP.to_nat k hk hX1
    have h1 : ((k : ℚ) - n * c.toRat) * 2 ^ 54 ≤ n / 5 := by
      have : (k : ℚ) - n * c.toRat ≤ n / (5 * 2 ^ 54) := by linarith
      calc ((k : ℚ) - n * c.toRat) * 2 ^ 54 ≤ n / (5 * 2 ^ 54) * 2 ^ 54 :=
            mul_le_mul_of_nonneg_right this (by positivity)
        _ = n / 5 := by field_simp; ring
    have h2 : (n : ℚ) / 5 < n * c.toRat := by
      have h4 : (n : ℚ) * (1 / 4) ≤ q * n := by
        rw [mul_comm q]
        exact mul_le_mul_of_nonneg_left hq hnq.le
      rw [hkn] at hX2
      linarith
    linarith
  rw [Bool.eq_false_iff]
  intro hlt
  rw [JsDouble.lt_iff, hval, hkv] at hlt
  exact lt_irrefl _ hlt

theorem IsRounding.mant_pos {x : ℚ} {d : JsDouble} (h : IsRounding x d) (hx : 0 < x) :
    0 < d.mant := by
  rcases h with ⟨h0, _⟩ | ⟨_, hlo, _, _, h2, _⟩
  · rw [h0] at hx
    exact absurd hx (lt_irrefl _)
  · by_contra hm
    have hm0 : d.mant = 0 := by omega
    rw [hm0] at h2
    have : (2 : ℚ) ^ 52 ≤ ((0 : Nat) : ℚ) + 1 / 2 := le_trans hlo h2
    norm_num at this

/-- The test `k / n * 100 > c` for a whole percentage `c`. -/
theorem percent_test (n k c : Nat) (hn0 : 0 < n) (hn : n < 2 ^ 32) (hk : k ≤ n) (hc : c ≤ 40)
    (hval : ((roundDouble c 100).mul (JsDouble.ofNat 100)).toRat = c) :
    (JsDouble.ofNat c).lt
        (((JsDouble.ofNat k).div (JsDouble.ofNat n)).mul (JsDouble.ofNat 100)) = true ↔
      c * n < 100 * k := by
  have hnq0 : (0 : ℚ) < n := by exact_mod_cast hn0
  have hnq : (n : ℚ) < 2 ^ 32 := by exact_mod_cast hn
  have hcq : (c : ℚ) ≤ 40 := by exact_mod_cast hc
  have hc0 : (0 : ℚ) ≤ c := Nat.cast_nonneg c
  have hnv := ofNat_toRat n (lt_trans hn (by norm_num))
  have hcv := ofNat_toRat c (lt_of_le_of_lt hc (by norm_num))
  have h100 := ofNat_toRat 100 (by norm_num)
  have hnmant : 0 < (JsDouble.ofNat n).mant := (ofNat_isRounding n).mant_pos hnq0
  rw [JsDouble.lt_iff, hcv]
  have hkv := ofNat_toRat k (lt_of_le_of_lt hk (lt_trans hn (by norm_num)))
  have ha := div_isRounding (JsDouble.ofNat k) (JsDouble.ofNat n) hnmant
  rw [hkv, hnv] at ha
  have hp := mul_isRounding ((JsDouble.ofNat k).div (JsDouble.ofNat n)) (JsDouble.ofNat 100)
  rw [h100] at hp
  push_cast at hp
  have hsmall : (n : ℚ) / (100 * 2 ^ 32) < 1 / 100 := by
    rw [div_lt_iff₀ (by norm_num)]
    linarith
  rcases Nat.lt_trichotomy (c * n) (100 * k) with hlt | heq | hgt
  · -- above the threshold
    have hnat : (c : ℚ) * n + 1 ≤ 100 * k := by exact_mod_cast hlt
    have hR : (c : ℚ) / 100 + 1 / (100 * 2 ^ 32) ≤ (k : ℚ) / n := by
      rw [le_div_iff₀ hnq0]
      have e : ((c : ℚ) / 100 + 1 / (100 * 2 ^ 32)) * n = c * n / 100 + n / (100 * 2 ^ 32) := by
        ring
      rw [e]
      linarith
    have hae := ha.error.1
    have hpe := hp.error.1
    refine ⟨fun _ => hlt, fun _ => ?_⟩
    have e1 : (k : ℚ) / n * (1 - 1 / 2 ^ 53) = (k : ℚ) / n - (k : ℚ) / n / 2 ^ 53 := by ring
    rw [e1] at hae
    generalize (k : ℚ) / n = R at *
    generalize ((JsDouble.ofNat k).div (JsDouble.ofNat n)).toRat = A at *
    have e2 : A * 100 * (1 - 1 / 2 ^ 53) = 100 * A - 100 * A / 2 ^ 53 := by ring
    rw [e2] at hpe
    linarith
  · -- on the threshold
    have hnat : (c : ℚ) * n = 100 * k := by exact_mod_cast heq
    have hratio : (k : ℚ) / n = (c : ℚ) / (100 : Nat) := by
      rw [div_eq_div_iff hnq0.ne' (by norm_num)]
      push_cast
      linarith
    rw [hratio] at ha
    have hc := roundDouble_isRounding c 100 (by norm_num)
    have hsame := ha.unique hc
    rw [hsame] at hp
    have hq := mul_isRounding (roundDouble c 100) (JsDouble.ofNat 100)
    rw [h100] at hq
    push_cast at hq
    have hpv := hp.unique hq
    rw [hval] at hpv
    rw [hpv]
    constructor
    · intro h
      exact absurd h (lt_irrefl _)
    · intro h
      omega
  · -- below the threshold
    have hnat : 100 * (k : ℚ) + 1 ≤ c * n := by exact_mod_cast hgt
    have hk0 : (0 : ℚ) ≤ (k : ℚ) / n := by positivity
    have hR : (k : ℚ) / n ≤ (c : ℚ) / 100 - 1 / (100 * 2 ^ 32) := by
      rw [div_le_iff₀ hnq0]
      have e : ((c : ℚ) / 100 - 1 / (100 * 2 ^ 32)) * n = c * n / 100 - n / (100 * 2 ^ 32) := by
        ring
      rw [e]
      linarith
    have hae := ha.error.2
    have hpe := hp.error.2
    refine ⟨fun h => ?_, fun h => by omega⟩
    exfalso
    have e1 : (k : ℚ) / n * (1 + 1 / 2 ^ 53) = (k : ℚ) / n + (k : ℚ) / n / 2 ^ 53 := by ring
    rw [e1] at hae
    generalize (k : ℚ) / n = R at *
    generalize ((JsDouble.ofNat k).div (JsDouble.ofNat n)).toRat = A at *
    have e2 : A * 100 * (1 + 1 / 2 ^ 53) = 100 * A + 100 * A / 2 ^ 53 := by ring
    rw [e2] at hpe
    linarith

/-! ## Traffic analysis -/

set_option maxRecDepth 100000 in
theorem double_three_tenths :
    (roundDouble 3 10).toRat = 5404319552844595 / 2 ^ 54 := by
  have h : roundDouble 3 10 = JsDouble.mk 5404319552844595 (-54) := by decide
  rw [h]
  norm_num [JsDouble.toRat]

set_option maxRecDepth 100000 in
theorem double_seven_tenths :
    (roundDouble 7 10).toRat = 6305039478318694 / 2 ^ 53 := by
  have h : roundDouble 7 10 = JsDouble.mk 6305039478318694 (-53) := by decide
  rw [h]
  norm_num [JsDouble.toRat]

set_option maxRecDepth 100000 in
theorem double_percent_values :
    ((roundDouble 20 100).mul (JsDouble.ofNat 100)).toRat = (20 : Nat) ∧
    ((roundDouble 30 100).mul (JsDouble.ofNat 100)).toRat = (30 : Nat) ∧
    ((roundDouble 40 100).mul (JsDouble.ofNat 100)).toRat = (40 : Nat) := by
  have h20 : (roundDouble 20 100).mul (JsDouble.ofNat 100) =
      JsDouble.mk 5629499534213120 (-48) := by decide
  have h30 : (roundDouble 30 100).mul (JsDouble.ofNat 100) =
      JsDouble.mk 8444249301319680 (-48) := by decide
  have h40 : (roundDouble 40 100).mul (JsDouble.ofNat 100) =
      JsDouble.mk 5629499534213120 (-47) := by decide
  rw [h20, h30, h40]
  norm_num [JsDouble.toRat]

/-- The test `severe > total * 0.3` agrees with the comparison of the
fraction with 30%. -/
theorem severe_test_iff (n k : Nat) (hn0 : 0 < n) (hn : n < 2 ^ 32) (hk : k ≤ n) :
    ((JsDouble.ofNat n).mul (roundDouble 3 10)).lt (JsDouble.ofNat k) = true ↔
      3 * n < 10 * k := by
  have hk32 : k < 2 ^ 32 := lt_of_le_of_lt hk hn
  have hc := double_three_tenths
  have h := product_test n k (roundDouble 3 10) (3 / 10) hn hk32 (by norm_num)
    (by rw [hc]; norm_num) (by rw [hc]; norm_num)
  rcases Nat.lt_trichotomy (3 * n) (10 * k) with hlt | heq | hgt
  · have hq : (3 : ℚ) * n + 1 ≤ 10 * k := by exact_mod_cast hlt
    exact ⟨fun _ => hlt, fun _ => h.1 (by linarith)⟩
  · have hq : (3 : ℚ) * n = 10 * k := by exact_mod_cast heq
    have hb := product_test_boundary n k (roundDouble 3 10) (3 / 10) hn0
      (lt_trans hk32 (by norm_num)) (by norm_num) (by rw [hc]; norm_num)
      (by rw [hc]; norm_num) (by linarith) (lt_trans hn (by norm_num))
    rw [hb]
    constructor
    · intro hf
      exact absurd hf (by decide)
    · intro hf
      omega
  · have hq : (10 : ℚ) * k + 1 ≤ 3 * n := by exact_mod_cast hgt
    rw [h.2 (by linarith)]
    constructor
    · intro hf
      exact absurd hf (by decide)
    · intro hf
      omega

/-- The test `low > total * 0.7` holds above 70% and fails below 70%. -/
theorem light_test_bounds (n k : Nat) (hn : n < 2 ^ 32) (hk : k ≤ n) :
    (7 * n < 10 * k →
      ((JsDouble.ofNat n).mul (roundDouble 7 10)).lt (JsDouble.ofNat k) = true) ∧
    (((JsDouble.ofNat n).mul (roundDouble 7 10)).lt (JsDouble.ofNat k) = true →
      7 * n ≤ 10 * k) := by
  have hk32 : k < 2 ^ 32 := lt_of_le_of_lt hk hn
  have hc := double_seven_tenths
  have h := product_test n k (roundDouble 7 10) (7 / 10) hn hk32 (by norm_num)
    (by rw [hc]; norm_num) (by rw [hc]; norm_num)
  constructor
  · intro hlt
    have hq : (7 : ℚ) * n + 1 ≤ 10 * k := by exact_mod_cast hlt
    exact h.1 (by linarith)
  · intro ht
    by_contra hgt
    have hgt2 : 10 * k + 1 ≤ 7 * n := by omega
    have hq : (10 : ℚ) * k + 1 ≤ 7 * n := by exact_mod_cast hgt2
    rw [h.2 (by linarith)] at ht
    exact absurd ht (by decide)

theorem foldl_countCongestion (data : List String) (c : CongestionCounts) :
    data.foldl countCongestion c = CongestionCounts.mk
      (c.heavy + data.countP (fun l => l == "heavy"))
      (c.moderate + data.countP (fun l => l == "moderate"))
      (c.low + data.countP isOtherSample)
      (c.severe + data.countP (fun l => l == "severe")) := by
  induction data generalizing c with
  | nil => simp
  | cons level rest ih =>
    rw [List.foldl_cons, ih]
    unfold countCongestion isOtherSample
    by_cases h1 : level = "severe"
    · subst h1
      simp [List.countP_cons]
      omega
    · by_cases h2 : level = "heavy"
      · subst h2
        simp [List.countP_cons]
        omega
      · by_cases h3 : level = "moderate"
        · subst h3
          simp [List.countP_cons]
          omega
        · simp [List.countP_cons, h1, h2, h3]
          omega

theorem countP_heavy_or_severe (data : List String) :
    data.countP (fun l => l == "heavy" || l == "severe") =
      data.countP (fun l => l == "heavy") + data.countP (fun l => l == "severe") := by
  induction data with
  | nil => rfl
  | cons level rest ih =>
    by_cases h1 : level = "severe"
    · subst h1
      simp [List.countP_cons, ih]
      omega
    · by_cases h2 : level = "heavy"
      · subst h2
        simp [List.countP_cons, ih]
        omega
      · simp [List.countP_cons, ih, h1, h2]

/-- A fraction of the samples exceeds a whole percentage. -/
theorem sampleFraction_gt_iff (p : String → Bool) (data : List String) (hne : data ≠ [])
    (c : Nat) :
    sampleFraction p data > (c : ℚ) / 100 ↔ c * data.length < 100 * data.countP p := by
  have hn : (0 : ℚ) < (data.length : ℚ) := by
    exact_mod_cast List.length_pos.2 hne
  unfold sampleFraction
  rw [gt_iff_lt, div_lt_div_iff₀ (by norm_num) hn]
  constructor
  · intro h
    have : ((c * data.length : Nat) : ℚ) < ((100 * data.countP p : Nat) : ℚ) := by
      push_cast
      linarith
    exact_mod_cast this
  · intro h
    have : ((c * data.length : Nat) : ℚ) < ((100 * data.countP p : Nat) : ℚ) := by
      exact_mod_cast h
    push_cast at this
    linarith

set_option maxRecDepth 100000 in
/-- C23, counterexample: ten samples without a level, none of them `low`,
give the level `light`; and of ninety samples of which 63 are low, 18
moderate and 9 heavy, exactly 70% are low, no more, yet the level is `light`:
the product `90 * 0.7` is `62.99999999999999` in double precision, below 63.
With 7 low samples of 10 the level is `smooth`. -/
theorem traffic_level_beside_low_fraction :
    (analyzeTraffic (some unknownRoute)).level = "light" ∧
    unknownRoute.countP (fun l => l == "low") = 0 ∧
    (analyzeTraffic (some seventyPercentLowRoute)).level = "light" ∧
    seventyPercentLowRoute.length = 90 ∧
    seventyPercentLowRoute.countP (fun l => l == "low") = 63 ∧
    seventyPercentLowRoute.countP (fun l => l == "moderate") = 18 ∧
    seventyPercentLowRoute.countP (fun l => l == "heavy" || l == "severe") = 9 ∧
    ¬ sampleFraction (fun l => l == "low") seventyPercentLowRoute > 70 / 100 ∧
    ((JsDouble.ofNat 90).mul (roundDouble 7 10)).toRat = 8866461766385663 / 2 ^ 47 ∧
    (analyzeTraffic (some shortLowRoute)).level = "smooth" := by
  have hmul : (JsDouble.ofNat 90).mul (roundDouble 7 10) =
      JsDouble.mk 8866461766385663 (-47) := by decide
  have hfrac : sampleFraction (fun l => l == "low") seventyPercentLowRoute = 7 / 10 := by
    have h1 : seventyPercentLowRoute.countP (fun l => l == "low") = 63 := by decide
    have h2 : seventyPercentLowRoute.length = 90 := by decide
    unfold sampleFraction
    rw [h1, h2]
    norm_num
  refine ⟨by decide, by decide, by decide, by decide, by decide, by decide, by decide, ?_, ?_,
    by decide⟩
  · rw [hfrac]
    norm_num
  · rw [hmul]
    norm_num [JsDouble.toRat]

/-- C23 (amended): for a non-empty list of fewer than `2 ^ 32` congestion
samples, the most a JavaScript array holds, `analyzeTraffic` returns the level
of the first matching rule: `severe` if the severe fraction exceeds 30%; else
`heavy` if the heavy-or-severe fraction exceeds 40%; else `moderate` if the
moderate fraction exceeds 30% or the heavy-or-severe fraction exceeds 20%;
else `light` if the number of remaining samples, those that are neither
severe, heavy nor moderate, exceeds the double-precision product of the
length and `0.7`; else `smooth`.  That last test holds whenever the fraction
of the remaining samples exceeds 70% and only when it is at least 70%.  For a
missing or empty list the level is `unknown`. -/
theorem analyzeTraffic_level (data : List String) (hne : data ≠ [])
    (hlen : data.length < 2 ^ 32) :
    (analyzeTraffic (some data)).level = levelByFractions data ∧
    (sampleFraction isOtherSample data > 70 / 100 → otherSamplesExceed data = true) ∧
    (otherSamplesExceed data = true → sampleFraction isOtherSample data ≥ 70 / 100) ∧
    (analyzeTraffic none).level = "unknown" ∧
    (analyzeTraffic (some [])).level = "unknown" := by
  have hlen0 : ¬ data.length = 0 := fun h => hne (List.length_eq_zero.1 h)
  have hpos : 0 < data.length := Nat.pos_of_ne_zero hlen0
  have hn : (0 : ℚ) < (data.length : ℚ) := by exact_mod_cast hpos
  have hcount : ∀ p : String → Bool, data.countP p ≤ data.length :=
    fun p => List.countP_le_length p
  have hvals := double_percent_values
  have hA : ((JsDouble.ofNat data.length).mul (roundDouble 3 10)).lt
        (JsDouble.ofNat (data.countP (fun l => l == "severe"))) = true ↔
      sampleFraction (fun l => l == "severe") data > 30 / 100 := by
    rw [severe_test_iff _ _ hpos hlen (hcount _)]
    have h := sampleFraction_gt_iff (fun l => l == "severe") data hne 30
    push_cast at h
    rw [h]
    omega
  have hB40 : (JsDouble.ofNat 40).lt
        (((JsDouble.ofNat (data.countP (fun l => l == "heavy") +
          data.countP (fun l => l == "severe"))).div (JsDouble.ofNat data.length)).mul
          (JsDouble.ofNat 100)) = true ↔
      sampleFraction (fun l => l == "heavy" || l == "severe") data > 40 / 100 := by
    rw [← countP_heavy_or_severe, percent_test _ _ 40 hpos hlen (hcount _) (le_refl _) hvals.2.2]
    have h := sampleFraction_gt_iff (fun l => l == "heavy" || l == "severe") data hne 40
    push_cast at h
    rw [h]
  have hB20 : (JsDouble.ofNat 20).lt
        (((JsDouble.ofNat (data.countP (fun l => l == "heavy") +
          data.countP (fun l => l == "severe"))).div (JsDouble.ofNat data.length)).mul
          (JsDouble.ofNat 100)) = true ↔
      sampleFraction (fun l => l == "heavy" || l == "severe") data > 20 / 100 := by
    rw [← countP_heavy_or_severe, percent_test _ _ 20 hpos hlen (hcount _) (by norm_num)
      hvals.1]
    have h := sampleFraction_gt_iff (fun l => l == "heavy" || l == "severe") data hne 20
    push_cast at h
    rw [h]
  have hC : (JsDouble.ofNat 30).lt
        (((JsDouble.ofNat (data.countP (fun l => l == "moderate"))).div
          (JsDouble.ofNat data.length)).mul (JsDouble.ofNat 100)) = true ↔
      sampleFraction (fun l => l == "moderate") data > 30 / 100 := by
    rw [percent_test _ _ 30 hpos hlen (hcount _) (by norm_num) hvals.2.1]
    have h := sampleFraction_gt_iff (fun l => l == "moderate") data hne 30
    push_cast at h
    rw [h]
  have hlight := light_test_bounds data.length (data.countP isOtherSample) hlen (hcount _)
  refine ⟨?_, ?_, ?_, rfl, rfl⟩
  · unfold analyzeTraffic levelByFractions otherSamplesExceed
    simp only [hlen0, if_false, foldl_countCongestion, Nat.zero_add, hA, hB40, hB20, hC]
    split_ifs <;> rfl
  · intro h
    have h70 := sampleFraction_gt_iff isOtherSample data hne 70
    push_cast at h70
    rw [h70] at h
    exact hlight.1 (by omega)
  · intro h
    have h2 := hlight.2 h
    unfold sampleFraction
    rw [ge_iff_le, div_le_div_iff₀ (by norm_num) hn]
    have h3 : ((7 * data.length : Nat) : ℚ) ≤ ((10 * data.countP isOtherSample : Nat) : ℚ) := by
      exact_mod_cast h2
    push_cast at h3
    linarith

set_option maxRecDepth 100000 in
/-- Witness of `analyzeTraffic_level`: ten samples, 7 low, 2 moderate and 1
heavy. -/
theorem analyzeTraffic_level_witness :
    (analyzeTraffic (some shortLowRoute)).level = levelByFractions shortLowRoute ∧
    (otherSamplesExceed shortLowRoute = true →
      sampleFraction isOtherSample shortLowRoute ≥ 70 / 100) :=
  have h := analyzeTraffic_level shortLowRoute (by decide) (by decide)
  ⟨h.1, h.2.2.1⟩

/-! ## DemoSimulator: a run to completion -/

theorem MOCK_ROUTE_length : MOCK_ROUTE.length = 16 := rfl

theorem demoTicks_append (cl : DemoClosure) (envs : List TickEnv) (env : TickEnv) (r : DemoRun) :
    demoTicks cl (envs ++ [env]) r = demoTick cl env (demoTicks cl envs r) := by
  unfold demoTicks
  rw [List.foldl_append]
  rfl

theorem startDemo_frame (mood : String) (username : Option String)
    (userTracks : Option (List Track)) (env : TickEnv) :
    (startDemo mood username userTracks env).index = 0 ∧
    (startDemo mood username userTracks env).running = true ∧
    (startDemo mood username userTracks env).session.navigationSteps = demoNavigationSteps ∧
    (startDemo mood username userTracks env).session.currentStepIndex = 0 ∧
    (startDemo mood username userTracks env).session.currentVibe =
      chooseInitialVibe mood (some (Weather.mk (some "Clear") (some "sunny") (some 23)))
        (some (Traffic.mk (some "light"))) ∧
    (startDemo mood username userTracks env).session.weatherData =
      some (Weather.mk (some "Clear") (some "sunny") (some 23)) ∧
    (startDemo mood username userTracks env).session.trafficData =
      some (Traffic.mk (some "light")) ∧
    (startDemo mood username userTracks env).requests =
      [demoStartArgs
        (chooseInitialVibe mood (some (Weather.mk (some "Clear") (some "sunny") (some 23)))
          (some (Traffic.mk (some "light"))))
        (Waypoint.mk 43.0592 (-89.5040) "light"
          (Weather.mk (some "Clear") (some "sunny") (some 23)))
        userTracks (getPreferenceSummary env.store username)] := by
  refine ⟨rfl, rfl, ?_, ?_, ?_, ?_, ?_, rfl⟩ <;>
  · unfold startDemo
    simp only [MOCK_ROUTE, List.head?_cons]
    split <;> rfl

theorem installPlaylist_conditions (outcome : Except String PlaylistResult) (s : TripSession) :
    (installPlaylist outcome s).conditions = s.conditions := by
  cases outcome <;> rfl

theorem installPlaylist_vibe (outcome : Except String PlaylistResult) (s : TripSession) :
    (installPlaylist outcome s).currentVibe = s.currentVibe := by
  cases outcome <;> rfl

theorem advanceDemoStep_conditions (cl : DemoClosure) (index : Nat) (s : TripSession) :
    (advanceDemoStep cl index s).conditions = s.conditions := by
  unfold advanceDemoStep
  split_ifs <;> rfl

theorem advanceDemoStep_vibe (cl : DemoClosure) (index : Nat) (s : TripSession) :
    (advanceDemoStep cl index s).currentVibe = s.currentVibe := by
  unfold advanceDemoStep
  split_ifs <;> rfl

theorem advanceDemoStep_playlist (cl : DemoClosure) (index : Nat) (s : TripSession) :
    (advanceDemoStep cl index s).playlist = s.playlist ∧
    (advanceDemoStep cl index s).currentTrackIndex = s.currentTrackIndex := by
  unfold advanceDemoStep
  split_ifs <;> exact ⟨rfl, rfl⟩

theorem moveToWaypoint_conditions (point : Waypoint) (s : TripSession) :
    (moveToWaypoint point s).conditions =
      (some point.conditions.1, some point.conditions.2) := rfl

theorem MOCK_ROUTE_getElem? (i : Nat) (h : i < 16) : ∃ point, MOCK_ROUTE[i]? = some point := by
  have hlt : i < MOCK_ROUTE.length := by rw [MOCK_ROUTE_length]; exact h
  exact ⟨MOCK_ROUTE[i], List.getElem?_eq_getElem hlt⟩

/-- The state of the demo loop after a number of ticks from a loop at its
start: while the script lasts the cursor is the number of ticks, the screen
shows the conditions of the waypoint under the cursor and one request per
waypoint has been issued, in script order; the sixteenth tick clears the
interval and changes nothing else, and later ticks change nothing. -/
theorem demoTicks_script (cl : DemoClosure) (r : DemoRun) (hrun : r.running = true)
    (hidx : r.index = 0)
    (hcond : r.session.conditions =
      (MOCK_ROUTE[0]?.map (fun p => p.conditions.1), MOCK_ROUTE[0]?.map (fun p => p.conditions.2)))
    (hreq : r.requests.map PlaylistArgs.conditions =
      (MOCK_ROUTE.take 1).map Waypoint.conditions)
    (envs : List TickEnv) :
    (envs.length ≤ 15 →
      (demoTicks cl envs r).running = true ∧
      (demoTicks cl envs r).index = envs.length ∧
      (demoTicks cl envs r).session.conditions =
        (MOCK_ROUTE[envs.length]?.map (fun p => p.conditions.1),
          MOCK_ROUTE[envs.length]?.map (fun p => p.conditions.2)) ∧
      (demoTicks cl envs r).requests.map PlaylistArgs.conditions =
        (MOCK_ROUTE.take (envs.length + 1)).map Waypoint.conditions) ∧
    (16 ≤ envs.length →
      (demoTicks cl envs r).running = false ∧
      (demoTicks cl envs r).index = 16 ∧
      (demoTicks cl envs r).session.conditions =
        (MOCK_ROUTE[15]?.map (fun p => p.conditions.1),
          MOCK_ROUTE[15]?.map (fun p => p.conditions.2)) ∧
      (demoTicks cl envs r).requests.map PlaylistArgs.conditions =
        MOCK_ROUTE.map Waypoint.conditions) := by
  induction envs using List.reverseRecOn with
  | nil =>
    refine ⟨fun _ => ⟨hrun, hidx, hcond, hreq⟩, fun h => absurd h (by decide)⟩
  | append_singleton envs env ih =>
    rw [demoTicks_append, List.length_append, List.length_singleton]
    by_cases hk : envs.length + 1 ≤ 15
    · obtain ⟨h1, h2, _, h4⟩ := ih.1 (by omega)
      obtain ⟨point, hpoint⟩ := MOCK_ROUTE_getElem? (envs.length + 1) (by omega)
      have hpoint2 : MOCK_ROUTE[(demoTicks cl envs r).index + 1]? = some point := by
        rw [h2]; exact hpoint
      refine ⟨fun _ => ?_, fun h => absurd h (by omega)⟩
      rw [demoTick_of_point cl env _ point h1 hpoint2]
      refine ⟨rfl, by rw [h2], ?_, ?_⟩
      · show (installPlaylist _ (advanceDemoStep cl _ (moveToWaypoint point _))).conditions = _
        rw [installPlaylist_conditions, advanceDemoStep_conditions, moveToWaypoint_conditions,
          hpoint]
        rfl
      · show ((demoTicks cl envs r).requests ++ [_]).map PlaylistArgs.conditions = _
        rw [List.map_append, h4, List.take_succ (n := envs.length + 1), List.map_append, hpoint]
        rfl
    · by_cases hk2 : envs.length + 1 = 16
      · obtain ⟨h1, h2, h3, h4⟩ := ih.1 (by omega)
        have hend : MOCK_ROUTE.length ≤ (demoTicks cl envs r).index + 1 := by
          rw [h2, MOCK_ROUTE_length]; omega
        refine ⟨fun h => absurd h hk, fun _ => ?_⟩
        rw [demoTick_of_end cl env _ h1 hend]
        have hlen : envs.length = 15 := by omega
        refine ⟨rfl, ?_, ?_, ?_⟩
        · show (demoTicks cl envs r).index + 1 = 16
          rw [h2]; exact hk2
        · show (demoTicks cl envs r).session.conditions = _
          rw [h3, hlen]
        · show (demoTicks cl envs r).requests.map PlaylistArgs.conditions = _
          rw [h4, hlen]
          rfl
      · obtain ⟨h1, h2, h3, h4⟩ := ih.2 (by omega)
        refine ⟨fun h => absurd h hk, fun _ => ?_⟩
        rw [demoTick_of_stopped cl env _ h1]
        exact ⟨h1, h2, h3, h4⟩

theorem demoTicks_of_stopped (cl : DemoClosure) (envs : List TickEnv) (r : DemoRun)
    (hrun : r.running = false) : demoTicks cl envs r = r := by
  induction envs with
  | nil => rfl
  | cons env rest ih =>
    show demoTicks cl rest (demoTick cl env r) = r
    rw [demoTick_of_stopped cl env r hrun, ih]

theorem demoTicks_split (cl : DemoClosure) (before after : List TickEnv) (r : DemoRun) :
    demoTicks cl (before ++ after) r = demoTicks cl after (demoTicks cl before r) := by
  unfold demoTicks
  rw [List.foldl_append]

/-- C24: a demo run over the 16-waypoint script.  Waypoint 0 is applied at
trip start; after `k ≤ 15` ticks the cursor is `k`, the loop is still set, the
screen shows the conditions of waypoint `k`, and the conditions applied so far
are those of waypoints `0 .. k` in script order.  After 16 or more ticks the
loop has stopped with the cursor at 16, exactly the 16 conditions of the
script have been applied, and the state is the one reached after the
sixteenth tick: later ticks apply nothing. -/
theorem demo_run_to_completion (mood : String) (username : Option String)
    (userTracks : Option (List Track)) (env : TickEnv) (cl : DemoClosure)
    (envs : List TickEnv) :
    MOCK_ROUTE.length = 16 ∧
    (envs.length ≤ 15 →
      (demoTicks cl envs (startDemo mood username userTracks env)).running = true ∧
      (demoTicks cl envs (startDemo mood username userTracks env)).index = envs.length ∧
      (demoTicks cl envs (startDemo mood username userTracks env)).session.conditions =
        (MOCK_ROUTE[envs.length]?.map (fun p => p.conditions.1),
          MOCK_ROUTE[envs.length]?.map (fun p => p.conditions.2)) ∧
      (demoTicks cl envs (startDemo mood username userTracks env)).requests.map
          PlaylistArgs.conditions =
        (MOCK_ROUTE.take (envs.length + 1)).map Waypoint.conditions) ∧
    (16 ≤ envs.length →
      (demoTicks cl envs (startDemo mood username userTracks env)).running = false ∧
      (demoTicks cl envs (startDemo mood username userTracks env)).index = 16 ∧
      (demoTicks cl envs (startDemo mood username userTracks env)).requests.map
          PlaylistArgs.conditions = MOCK_ROUTE.map Waypoint.conditions ∧
      (demoTicks cl envs (startDemo mood username userTracks env)).requests.length = 16 ∧
      demoTicks cl envs (startDemo mood username userTracks env) =
        demoTicks cl (envs.take 16) (startDemo mood username userTracks env) ∧
      (demoTicks cl envs (startDemo mood username userTracks env)).session =
        (demoTicks cl (envs.take 15) (startDemo mood username userTracks env)).session) := by
  have hf := startDemo_frame mood username userTracks env
  have hcond : (startDemo mood username userTracks env).session.conditions =
      (MOCK_ROUTE[0]?.map (fun p => p.conditions.1),
        MOCK_ROUTE[0]?.map (fun p => p.conditions.2)) := by
    unfold TripSession.conditions
    rw [hf.2.2.2.2.2.1, hf.2.2.2.2.2.2.1]
    rfl
  have hreq : (startDemo mood username userTracks env).requests.map PlaylistArgs.conditions =
      (MOCK_ROUTE.take 1).map Waypoint.conditions := by
    rw [hf.2.2.2.2.2.2.2]
    rfl
  have hs := demoTicks_script cl (startDemo mood username userTracks env) hf.2.1 hf.1 hcond hreq
  refine ⟨rfl, (hs envs).1, fun h16 => ?_⟩
  obtain ⟨h1, h2, _, h4⟩ := (hs envs).2 h16
  have htake : (envs.take 16).length = 16 := by
    rw [List.length_take]; omega
  have h16run := (hs (envs.take 16)).2 (by omega)
  have hsplit : demoTicks cl envs (startDemo mood username userTracks env) =
      demoTicks cl (envs.take 16) (startDemo mood username userTracks env) := by
    conv_lhs => rw [← List.take_append_drop 16 envs]
    rw [demoTicks_split, demoTicks_of_stopped _ _ _ h16run.1]
  refine ⟨h1, h2, h4, ?_, hsplit, ?_⟩
  · have hlen := congrArg List.length h4
    rw [List.length_map, List.length_map] at hlen
    rw [hlen]
    rfl
  · have h15 : (envs.take 15).length = 15 := by
      rw [List.length_take]; omega
    have h15run := (hs (envs.take 15)).1 (by omega)
    have hlast : envs.take 16 = envs.take 15 ++ (envs.drop 15).take 1 := by
      rw [← List.take_add]
    obtain ⟨last, hlastEnv⟩ : ∃ last, (envs.drop 15).take 1 = [last] := by
      cases hd : envs.drop 15 with
      | nil =>
        have := congrArg List.length hd
        rw [List.length_drop] at this
        simp at this
        omega
      | cons x xs => exact ⟨x, rfl⟩
    rw [hsplit, hlast, hlastEnv, demoTicks_append]
    have hend : MOCK_ROUTE.length ≤
        (demoTicks cl (envs.take 15) (startDemo mood username userTracks env)).index + 1 := by
      rw [h15run.2.1, h15, MOCK_ROUTE_length]
    rw [demoTick_of_end cl last _ h15run.1 hend]

/-! ## DemoSimulator: vibe and step index -/

theorem chooseInitialVibe_first_waypoint (mood : String) :
    chooseInitialVibe mood (some (Weather.mk (some "Clear") (some "sunny") (some 23)))
      (some (Traffic.mk (some "light"))) = "hype" := by
  simp [chooseInitialVibe]

/-- C30: the first waypoint of the script is Clear weather with light
traffic, so in demo mode the vibe selected at trip start is `hype` whatever
mood was declared, and the request at trip start asks for `hype`. -/
theorem demo_start_vibe_is_hype (mood : String) (username : Option String)
    (userTracks : Option (List Track)) (env : TickEnv) :
    (∃ start, MOCK_ROUTE[0]? = some start ∧ start.weather.condition = some "Clear" ∧
      start.traffic = "light" ∧
      chooseInitialVibe mood (some start.weather) (some (Traffic.mk (some start.traffic))) =
        "hype") ∧
    (startDemo mood username userTracks env).session.currentVibe = "hype" ∧
    (∀ a ∈ (startDemo mood username userTracks env).requests, a.mood = "hype") := by
  have hf := startDemo_frame mood username userTracks env
  refine ⟨⟨_, rfl, rfl, rfl, chooseInitialVibe_first_waypoint mood⟩, ?_, ?_⟩
  · rw [hf.2.2.2.2.1]
    exact chooseInitialVibe_first_waypoint mood
  · intro a ha
    rw [hf.2.2.2.2.2.2.2, List.mem_singleton] at ha
    rw [ha]
    exact chooseInitialVibe_first_waypoint mood

theorem demoLoopClosure_vibe (mood : String) (username : Option String)
    (userTracks : Option (List Track)) (env : TickEnv) :
    (demoLoopClosure mood username userTracks env).currentVibe = "hype" := by
  have hv : (startDemo mood username userTracks env).session.currentVibe = "hype" := by
    rw [(startDemo_frame mood username userTracks env).2.2.2.2.1]
    exact chooseInitialVibe_first_waypoint mood
  unfold demoLoopClosure
  by_cases h : (startDemo mood username userTracks env).session.currentVibe = mood
  · rw [if_pos h]
    show mood = "hype"
    rw [← h, hv]
  · rw [if_neg h]
    exact hv

theorem demoLoopClosure_steps (mood : String) (username : Option String)
    (userTracks : Option (List Track)) (env : TickEnv) :
    (mood = "hype" →
      (demoLoopClosure mood username userTracks env).navigationSteps = []) ∧
    (mood ≠ "hype" →
      (demoLoopClosure mood username userTracks env).navigationSteps = demoNavigationSteps ∧
      (demoLoopClosure mood username userTracks env).currentStepIndex = 0) := by
  have hf := startDemo_frame mood username userTracks env
  have hv : (startDemo mood username userTracks env).session.currentVibe = "hype" := by
    rw [hf.2.2.2.2.1]
    exact chooseInitialVibe_first_waypoint mood
  unfold demoLoopClosure
  rw [hv]
  constructor
  · intro h
    rw [if_pos h.symm]
    rfl
  · intro h
    rw [if_neg (fun h2 => h h2.symm)]
    exact ⟨hf.2.2.1, hf.2.2.2.1⟩

theorem demoTick_vibe (cl : DemoClosure) (env : TickEnv) (r : DemoRun) :
    (demoTick cl env r).session.currentVibe = r.session.currentVibe := by
  rcases demoTick_cases cl env r with h | h | ⟨point, _, h⟩
  · rw [h]
  · rw [h]
  · rw [h]
    show (installPlaylist _ (advanceDemoStep cl _ (moveToWaypoint point _))).currentVibe = _
    rw [installPlaylist_vibe, advanceDemoStep_vibe]
    rfl

theorem demoTick_request_mood (cl : DemoClosure) (env : TickEnv) (r : DemoRun) (vibe : String)
    (hcl : cl.currentVibe = vibe) (h : ∀ a ∈ r.requests, a.mood = vibe) :
    ∀ a ∈ (demoTick cl env r).requests, a.mood = vibe := by
  rcases demoTick_cases cl env r with hc | hc | ⟨point, _, hc⟩
  · rw [hc]; exact h
  · rw [hc]; exact h
  · rw [hc]
    intro a ha
    rcases List.mem_append.1 ha with ha | ha
    · exact h a ha
    · rw [List.mem_singleton.1 ha]
      exact hcl

theorem demoTicks_vibe (cl : DemoClosure) (envs : List TickEnv) (r : DemoRun) (vibe : String)
    (hcl : cl.currentVibe = vibe) (h : ∀ a ∈ r.requests, a.mood = vibe) :
    (demoTicks cl envs r).session.currentVibe = r.session.currentVibe ∧
    ∀ a ∈ (demoTicks cl envs r).requests, a.mood = vibe := by
  induction envs generalizing r with
  | nil => exact ⟨rfl, h⟩
  | cons env rest ih =>
    have hstep := ih (demoTick cl env r) (demoTick_request_mood cl env r vibe hcl h)
    exact ⟨hstep.1.trans (demoTick_vibe cl env r), hstep.2⟩

/-- C27: during a demo run no tick changes the vibe of the session, which
stays the vibe selected at trip start from the declared mood and the first
waypoint, and every request issued by a tick asks for that vibe, whatever the
conditions of the waypoint the tick has moved to. -/
theorem demo_vibe_is_fixed (mood : String) (username : Option String)
    (userTracks : Option (List Track)) (env : TickEnv) (envs : List TickEnv) :
    (∀ (cl : DemoClosure) (tick : TickEnv) (r : DemoRun),
      (demoTick cl tick r).session.currentVibe = r.session.currentVibe) ∧
    (demoTicks (demoLoopClosure mood username userTracks env) envs
        (startDemo mood username userTracks env)).session.currentVibe =
      chooseInitialVibe mood (some (Weather.mk (some "Clear") (some "sunny") (some 23)))
        (some (Traffic.mk (some "light"))) ∧
    (∀ a ∈ (demoTicks (demoLoopClosure mood username userTracks env) envs
        (startDemo mood username userTracks env)).requests,
      a.mood = chooseInitialVibe mood
        (some (Weather.mk (some "Clear") (some "sunny") (some 23)))
        (some (Traffic.mk (some "light")))) := by
  have hf := startDemo_frame mood username userTracks env
  have hv := chooseInitialVibe_first_waypoint mood
  have hstart : ∀ a ∈ (startDemo mood username userTracks env).requests, a.mood = "hype" := by
    intro a ha
    rw [hf.2.2.2.2.2.2.2, List.mem_singleton] at ha
    rw [ha]
    exact hv
  have h := demoTicks_vibe (demoLoopClosure mood username userTracks env) envs
    (startDemo mood username userTracks env) "hype"
    (demoLoopClosure_vibe mood username userTracks env) hstart
  refine ⟨demoTick_vibe, ?_, ?_⟩
  · rw [h.1, hf.2.2.2.2.1]
  · intro a ha
    rw [hv]
    exact h.2 a ha

theorem demoTick_step_frozen (cl : DemoClosure) (env : TickEnv) (r : DemoRun)
    (hcl : cl.navigationSteps = []) :
    (demoTick cl env r).session.currentStepIndex = r.session.currentStepIndex := by
  rcases demoTick_cases cl env r with h | h | ⟨point, _, h⟩
  · rw [h]
  · rw [h]
  · rw [h]
    simp only [installPlaylist_index, advanceDemoStep_index, moveToWaypoint_index]
    simp [hcl]

theorem demoTicks_step_frozen (cl : DemoClosure) (envs : List TickEnv) (r : DemoRun)
    (hcl : cl.navigationSteps = []) :
    (demoTicks cl envs r).session.currentStepIndex = r.session.currentStepIndex := by
  induction envs using List.reverseRecOn with
  | nil => rfl
  | append_singleton envs env ih =>
    rw [demoTicks_append, demoTick_step_frozen cl env _ hcl, ih]

/-- The step index after a number of ticks when the callback has captured
the seven steps of the demo and the step index `0`. -/
theorem demoTicks_step_index (cl : DemoClosure) (r : DemoRun) (hrun : r.running = true)
    (hidx : r.index = 0) (hlen : cl.navigationSteps.length = 7)
    (hcap : cl.currentStepIndex = 0) (hstart : r.session.currentStepIndex = 0)
    (envs : List TickEnv) :
    (envs.length ≤ 15 →
      (demoTicks cl envs r).running = true ∧
      (demoTicks cl envs r).index = envs.length ∧
      (demoTicks cl envs r).session.currentStepIndex = min (envs.length / 2) 6) ∧
    (16 ≤ envs.length →
      (demoTicks cl envs r).running = false ∧
      (demoTicks cl envs r).session.currentStepIndex = 6) := by
  induction envs using List.reverseRecOn with
  | nil =>
    refine ⟨fun _ => ⟨hrun, hidx, ?_⟩, fun h => absurd h (by decide)⟩
    show r.session.currentStepIndex = _
    rw [hstart]
    rfl
  | append_singleton envs env ih =>
    rw [demoTicks_append, List.length_append, List.length_singleton]
    by_cases hk : envs.length + 1 ≤ 15
    · obtain ⟨h1, h2, h3⟩ := ih.1 (by omega)
      obtain ⟨point, hpoint⟩ := MOCK_ROUTE_getElem? (envs.length + 1) (by omega)
      have hpoint2 : MOCK_ROUTE[(demoTicks cl envs r).index + 1]? = some point := by
        rw [h2]; exact hpoint
      refine ⟨fun _ => ?_, fun h => absurd h (by omega)⟩
      rw [demoTick_of_point cl env _ point h1 hpoint2]
      refine ⟨rfl, by rw [h2], ?_⟩
      show (installPlaylist _ (advanceDemoStep cl _ (moveToWaypoint point _))).currentStepIndex = _
      rw [installPlaylist_index, advanceDemoStep_index, moveToWaypoint_index, h2, h3, hlen, hcap]
      split_ifs <;> omega
    · by_cases hk2 : envs.length + 1 = 16
      · obtain ⟨h1, h2, h3⟩ := ih.1 (by omega)
        have hend : MOCK_ROUTE.length ≤ (demoTicks cl envs r).index + 1 := by
          rw [h2, MOCK_ROUTE_length]; omega
        refine ⟨fun h => absurd h hk, fun _ => ?_⟩
        rw [demoTick_of_end cl env _ h1 hend]
        refine ⟨rfl, ?_⟩
        show (demoTicks cl envs r).session.currentStepIndex = 6
        rw [h3]
        omega
      · obtain ⟨h1, h2⟩ := ih.2 (by omega)
        refine ⟨fun h => absurd h hk, fun _ => ?_⟩
        rw [demoTick_of_stopped cl env _ h1]
        exact ⟨h1, h2⟩

theorem demoTicks_step_index_formula (cl : DemoClosure) (r : DemoRun) (hrun : r.running = true)
    (hidx : r.index = 0) (hlen : cl.navigationSteps.length = 7)
    (hcap : cl.currentStepIndex = 0) (hstart : r.session.currentStepIndex = 0)
    (envs : List TickEnv) :
    (demoTicks cl envs r).session.currentStepIndex = min (envs.length / 2) 6 := by
  have h := demoTicks_step_index cl r hrun hidx hlen hcap hstart envs
  by_cases hk : envs.length ≤ 15
  · exact (h.1 hk).2.2
  · rw [(h.2 (by omega)).2]
    omega

/-- The step index of a demo run whose declared mood is `hype`, a mood no
caller of the screen passes: the vibe selected at trip start equals the mood,
the loop keeps the callback set up before the steps were stored, and the step
index stays `0`. -/
theorem demo_step_index_with_hype_mood (username : Option String)
    (userTracks : Option (List Track)) (env : TickEnv) (envs : List TickEnv) :
    (demoTicks (demoLoopClosure "hype" username userTracks env) envs
      (startDemo "hype" username userTracks env)).session.currentStepIndex = 0 := by
  rw [demoTicks_step_frozen _ envs _ ((demoLoopClosure_steps "hype" username userTracks env).1 rfl)]
  exact (startDemo_frame "hype" username userTracks env).2.2.2.1

/-- C25: in a demo run, for a declared mood other than `hype` (the screen is
opened with energetic, chill, happy, focus or sad), the loop runs with the
seven scripted steps: after `k` ticks the step index is `min (k / 2) 6`; tick
number `k + 1` adds one to the index, capped at the last step, when `k + 1`
is even and leaves it when `k + 1` is odd; and from the fifteenth tick on,
hence at the end of a full run, the index is that of the last step, 6. -/
theorem demo_step_index_every_other_tick (mood : String) (username : Option String)
    (userTracks : Option (List Track)) (env : TickEnv) (envs : List TickEnv)
    (hmood : mood ≠ "hype") :
    (startDemo mood username userTracks env).session.navigationSteps.length = 7 ∧
    (demoTicks (demoLoopClosure mood username userTracks env) envs
      (startDemo mood username userTracks env)).session.currentStepIndex =
      min (envs.length / 2)
        ((startDemo mood username userTracks env).session.navigationSteps.length - 1) ∧
    (∀ tick : TickEnv,
      (demoTicks (demoLoopClosure mood username userTracks env) (envs ++ [tick])
        (startDemo mood username userTracks env)).session.currentStepIndex =
        if (envs.length + 1) % 2 = 0 then
          min ((demoTicks (demoLoopClosure mood username userTracks env) envs
            (startDemo mood username userTracks env)).session.currentStepIndex + 1) 6
        else
          (demoTicks (demoLoopClosure mood username userTracks env) envs
            (startDemo mood username userTracks env)).session.currentStepIndex) ∧
    (15 ≤ envs.length →
      (demoTicks (demoLoopClosure mood username userTracks env) envs
        (startDemo mood username userTracks env)).session.currentStepIndex = 6) := by
  have hf := startDemo_frame mood username userTracks env
  obtain ⟨hsteps, hcap⟩ := (demoLoopClosure_steps mood username userTracks env).2 hmood
  have hlen : (startDemo mood username userTracks env).session.navigationSteps.length = 7 := by
    rw [hf.2.2.1]
    rfl
  have hformula : ∀ ticks : List TickEnv,
      (demoTicks (demoLoopClosure mood username userTracks env) ticks
        (startDemo mood username userTracks env)).session.currentStepIndex =
        min (ticks.length / 2) 6 :=
    fun ticks => demoTicks_step_index_formula _ _ hf.2.1 hf.1 (by rw [hsteps]; rfl) hcap
      hf.2.2.2.1 ticks
  refine ⟨hlen, ?_, ?_, ?_⟩
  · rw [hformula, hlen]
  · intro tick
    rw [hformula, hformula, List.length_append, List.length_singleton]
    split_ifs <;> omega
  · intro h15
    rw [hformula]
    omega

/-- Witness of `demo_step_index_every_other_tick`: a demo trip with declared
mood `happy`; after two ticks the step index is 1. -/
theorem demo_step_index_every_other_tick_witness :
    (demoTicks (demoLoopClosure "happy" none (some (numberedPool 20)) quietEnv)
        [quietEnv, quietEnv]
        (startDemo "happy" none (some (numberedPool 20)) quietEnv)).session.currentStepIndex =
      min ([quietEnv, quietEnv].length / 2)
        ((startDemo "happy" none (some (numberedPool 20))
          quietEnv).session.navigationSteps.length - 1) ∧
    min ([quietEnv, quietEnv].length / 2) (7 - 1) = 1 :=
  ⟨(demo_step_index_every_other_tick "happy" none (some (numberedPool 20)) quietEnv
      [quietEnv, quietEnv] (by decide)).2.1, rfl⟩

/-! ## DemoSimulator: a failed request -/

theorem demoStep_music (cl : DemoClosure) (index : Nat) (point : Waypoint) (s : TripSession) :
    (advanceDemoStep cl index (moveToWaypoint point s)).playlist = s.playlist ∧
    (advanceDemoStep cl index (moveToWaypoint point s)).currentTrackIndex =
      s.currentTrackIndex ∧
    (advanceDemoStep cl index (moveToWaypoint point s)).isPlaying = s.isPlaying := by
  unfold advanceDemoStep
  split_ifs <;> exact ⟨rfl, rfl, rfl⟩

/-- C26: a demo tick whose recommendation request fails.  The tick returns
a state: the playlist, the current track index and the playing flag are those
from before the tick, the waypoint and step updates of the tick are kept, the
interval stays set and the cursor has moved by one, so the following tick
runs and handles the waypoint after. -/
theorem demo_tick_request_failure (cl : DemoClosure) (env : TickEnv) (r : DemoRun)
    (point : Waypoint) (e : String) (hrun : r.running = true)
    (hpoint : MOCK_ROUTE[r.index + 1]? = some point)
    (hfail : generatePlaylistPrompt env.recommend env.shuffle
      (demoTickArgs cl.currentVibe point cl.userTracks
        (getPreferenceSummary env.store cl.username)) = .error e) :
    (demoTick cl env r).session.playlist = r.session.playlist ∧
    (demoTick cl env r).session.currentTrackIndex = r.session.currentTrackIndex ∧
    (demoTick cl env r).session.isPlaying = r.session.isPlaying ∧
    (demoTick cl env r).session =
      advanceDemoStep cl (r.index + 1) (moveToWaypoint point r.session) ∧
    (demoTick cl env r).running = true ∧
    (demoTick cl env r).index = r.index + 1 ∧
    (∀ next : TickEnv,
      (demoTick cl next (demoTick cl env r)).index = r.index + 2 ∧
      (∀ after, MOCK_ROUTE[r.index + 2]? = some after →
        (demoTick cl next (demoTick cl env r)).running = true ∧
        (demoTick cl next (demoTick cl env r)).session.conditions =
          (some after.weather, some (Traffic.mk (some after.traffic))) ∧
        (demoTick cl next (demoTick cl env r)).requests.length = r.requests.length + 2)) := by
  have htick := demoTick_of_point cl env r point hrun hpoint
  rw [hfail] at htick
  have hsession : (demoTick cl env r).session =
      advanceDemoStep cl (r.index + 1) (moveToWaypoint point r.session) := by
    rw [htick]
    rfl
  have hrunning : (demoTick cl env r).running = true := by rw [htick]
  have hindex : (demoTick cl env r).index = r.index + 1 := by rw [htick]
  have hmusic := demoStep_music cl (r.index + 1) point r.session
  refine ⟨?_, ?_, ?_, hsession, hrunning, hindex, ?_⟩
  · rw [hsession]; exact hmusic.1
  · rw [hsession]; exact hmusic.2.1
  · rw [hsession]; exact hmusic.2.2
  · intro next
    constructor
    · rcases demoTick_cases cl next (demoTick cl env r) with h | h | ⟨p, _, h⟩
      · have hstop : (demoTick cl next (demoTick cl env r)) ≠ demoTick cl env r := by
          intro hsame
          by_cases hend : MOCK_ROUTE.length ≤ (demoTick cl env r).index + 1
          · have h2 := demoTick_of_end cl next _ hrunning hend
            rw [h2] at hsame
            have h3 := congrArg DemoRun.running hsame
            rw [hrunning] at h3
            exact Bool.noConfusion h3
          · obtain ⟨p, hp⟩ : ∃ p, MOCK_ROUTE[(demoTick cl env r).index + 1]? = some p := by
              cases hq : MOCK_ROUTE[(demoTick cl env r).index + 1]? with
              | none =>
                rw [List.getElem?_eq_none_iff] at hq
                exact absurd hq hend
              | some p => exact ⟨p, rfl⟩
            have h2 := demoTick_of_point cl next _ p hrunning hp
            rw [h2] at hsame
            have h3 := congrArg DemoRun.index hsame
            simp at h3
        exact absurd h hstop
      · rw [h]
        show (demoTick cl env r).index + 1 = r.index + 2
        rw [hindex]
      · rw [h]
        show (demoTick cl env r).index + 1 = r.index + 2
        rw [hindex]
    · intro after hafter
      have hafter2 : MOCK_ROUTE[(demoTick cl env r).index + 1]? = some after := by
        rw [hindex]; exact hafter
      rw [demoTick_of_point cl next _ after hrunning hafter2]
      refine ⟨rfl, ?_, ?_⟩
      · show (installPlaylist _ (advanceDemoStep cl _ (moveToWaypoint after _))).conditions = _
        rw [installPlaylist_conditions, advanceDemoStep_conditions, moveToWaypoint_conditions]
        rfl
      · show ((demoTick cl env r).requests ++ [_]).length = _
        rw [htick]
        simp

/-- Witness of `demo_tick_request_failure`: the first tick of a demo trip
with twenty tracks during which the recommender call fails. -/
theorem demo_tick_request_failure_witness :
    (startDemo "calm" none (some (numberedPool 20)) quietEnv).session.playlist.length = 12 ∧
    (demoTick (demoLoopClosure "calm" none (some (numberedPool 20)) quietEnv) failingEnv
        (startDemo "calm" none (some (numberedPool 20)) quietEnv)).session.playlist =
      (startDemo "calm" none (some (numberedPool 20)) quietEnv).session.playlist ∧
    (demoTick (demoLoopClosure "calm" none (some (numberedPool 20)) quietEnv) failingEnv
        (startDemo "calm" none (some (numberedPool 20)) quietEnv)).running = true :=
  have h := demo_tick_request_failure
    (demoLoopClosure "calm" none (some (numberedPool 20)) quietEnv) failingEnv
    (startDemo "calm" none (some (numberedPool 20)) quietEnv)
    (Waypoint.mk 43.0608 (-89.4976) "light" (Weather.mk (some "Clear") (some "sunny") (some 23)))
    "Network request failed" rfl rfl rfl
  ⟨by decide, h.1, h.2.2.2.2.1⟩

/-! ## TripSession: the two indices across events -/

theorem trackProgress_track (m : JsMath) (demoMode : Bool) (s : TripSession) :
    (trackProgress m demoMode s).currentTrackIndex = s.currentTrackIndex := by
  unfold trackProgress
  split
  · rfl
  · split_ifs
    · rfl
    · split
      · rfl
      · split
        · rfl
        · simp only []
          split_ifs <;> rfl

theorem handleNext_frame (s : TripSession) :
    (handleNext s).navigationSteps = s.navigationSteps ∧
    (handleNext s).currentStepIndex = s.currentStepIndex ∧
    s.currentTrackIndex ≤ (handleNext s).currentTrackIndex := by
  unfold handleNext
  split_ifs
  · exact ⟨rfl, rfl, Nat.le_succ _⟩
  · exact ⟨rfl, rfl, Nat.le_refl _⟩

theorem handlePrevious_frame (s : TripSession) :
    (handlePrevious s).navigationSteps = s.navigationSteps ∧
    (handlePrevious s).currentStepIndex = s.currentStepIndex ∧
    (handlePrevious s).currentTrackIndex = s.currentTrackIndex - 1 := by
  unfold handlePrevious
  split_ifs with h
  · exact ⟨rfl, rfl, rfl⟩
  · refine ⟨rfl, rfl, ?_⟩
    omega

theorem demoTick_track (cl : DemoClosure) (env : TickEnv) (r : DemoRun) :
    (demoTick cl env r).session.currentTrackIndex = r.session.currentTrackIndex ∨
    (demoTick cl env r).session.currentTrackIndex = 0 := by
  rcases demoTick_cases cl env r with h | h | ⟨point, _, h⟩
  · rw [h]; exact Or.inl rfl
  · rw [h]; exact Or.inl rfl
  · rw [h]
    show (installPlaylist _ (advanceDemoStep cl _ (moveToWaypoint point _))).currentTrackIndex = _
      ∨ (installPlaylist _ (advanceDemoStep cl _ (moveToWaypoint point _))).currentTrackIndex = 0
    cases generatePlaylistPrompt env.recommend env.shuffle
      (demoTickArgs cl.currentVibe point cl.userTracks
        (getPreferenceSummary env.store cl.username)) with
    | error e => exact Or.inl (demoStep_music cl (r.index + 1) point r.session).2.1
    | ok result => exact Or.inr rfl

/-- The steps and the step index across one event: the steps are kept, the
index does not decrease, and in demo mode it stays within the steps. -/
theorem applyEvent_step (m : JsMath) (demoMode : Bool) (cl : DemoClosure) (r : DemoRun)
    (e : TripEvent)
    (hinv : demoMode = true →
      (cl.navigationSteps = [] ∨ cl.navigationSteps = r.session.navigationSteps) ∧
      r.session.currentStepIndex < r.session.navigationSteps.length) :
    (applyEvent m demoMode cl r e).session.navigationSteps = r.session.navigationSteps ∧
    r.session.currentStepIndex ≤ (applyEvent m demoMode cl r e).session.currentStepIndex ∧
    (demoMode = true →
      (applyEvent m demoMode cl r e).session.currentStepIndex <
        r.session.navigationSteps.length) := by
  cases e with
  | positionUpdate position =>
    show (trackProgress m demoMode _).navigationSteps = _ ∧
      _ ≤ (trackProgress m demoMode _).currentStepIndex ∧
      (_ → (trackProgress m demoMode _).currentStepIndex < _)
    refine ⟨trackProgress_steps m demoMode _, ?_, ?_⟩
    · rcases trackProgress_index_cases m demoMode
        { r.session with currentLocation := some position } with h | h
      · rw [h]
      · rw [h.1]; exact Nat.le_succ _
    · intro hd
      rcases trackProgress_index_cases m demoMode
        { r.session with currentLocation := some position } with h | h
      · rw [h]; exact (hinv hd).2
      · rw [h.1]
        have h2 := h.2
        show r.session.currentStepIndex + 1 < r.session.navigationSteps.length
        have h3 : r.session.currentStepIndex < r.session.navigationSteps.length - 1 := h2
        omega
  | demoTick env =>
    by_cases hd : demoMode = true
    · have hb := demoTick_index_bounds cl env r (hinv hd).1 (hinv hd).2
      show (if demoMode = true then demoTick cl env r else r).session.navigationSteps = _ ∧
        _ ≤ (if demoMode = true then demoTick cl env r else r).session.currentStepIndex ∧
        (_ → (if demoMode = true then demoTick cl env r else r).session.currentStepIndex < _)
      rw [if_pos hd]
      exact ⟨demoTick_steps cl env r, hb.1, fun _ => hb.2⟩
    · show (if demoMode = true then demoTick cl env r else r).session.navigationSteps = _ ∧
        _ ≤ (if demoMode = true then demoTick cl env r else r).session.currentStepIndex ∧
        (_ → (if demoMode = true then demoTick cl env r else r).session.currentStepIndex < _)
      rw [if_neg hd]
      exact ⟨rfl, Nat.le_refl _, fun h => absurd h hd⟩
  | nextTrack =>
    have h := handleNext_frame r.session
    show (handleNext r.session).navigationSteps = _ ∧
      _ ≤ (handleNext r.session).currentStepIndex ∧
      (_ → (handleNext r.session).currentStepIndex < _)
    rw [h.1, h.2.1]
    exact ⟨rfl, Nat.le_refl _, fun hd => (hinv hd).2⟩
  | previousTrack =>
    have h := handlePrevious_frame r.session
    show (handlePrevious r.session).navigationSteps = _ ∧
      _ ≤ (handlePrevious r.session).currentStepIndex ∧
      (_ → (handlePrevious r.session).currentStepIndex < _)
    rw [h.1, h.2.1]
    exact ⟨rfl, Nat.le_refl _, fun hd => (hinv hd).2⟩

theorem applyEvents_append (m : JsMath) (demoMode : Bool) (cl : DemoClosure)
    (events : List TripEvent) (e : TripEvent) (r : DemoRun) :
    applyEvents m demoMode cl (events ++ [e]) r =
      applyEvent m demoMode cl (applyEvents m demoMode cl events r) e := by
  unfold applyEvents
  rw [List.foldl_append]
  rfl

theorem applyEvents_step (m : JsMath) (demoMode : Bool) (cl : DemoClosure) (r : DemoRun)
    (hinv : demoMode = true →
      (cl.navigationSteps = [] ∨ cl.navigationSteps = r.session.navigationSteps) ∧
      r.session.currentStepIndex < r.session.navigationSteps.length)
    (events : List TripEvent) :
    (applyEvents m demoMode cl events r).session.navigationSteps = r.session.navigationSteps ∧
    r.session.currentStepIndex ≤ (applyEvents m demoMode cl events r).session.currentStepIndex ∧
    (demoMode = true →
      (applyEvents m demoMode cl events r).session.currentStepIndex <
        r.session.navigationSteps.length) := by
  induction events using List.reverseRecOn with
  | nil => exact ⟨rfl, Nat.le_refl _, fun hd => (hinv hd).2⟩
  | append_singleton events e ih =>
    rw [applyEvents_append]
    have h := applyEvent_step m demoMode cl (applyEvents m demoMode cl events r) e
      (fun hd => ⟨by rw [ih.1]; exact (hinv hd).1, by rw [ih.1]; exact ih.2.2 hd⟩)
    rw [ih.1] at h
    exact ⟨h.1, Nat.le_trans ih.2.1 h.2.1, h.2.2⟩

theorem applyEvent_track (m : JsMath) (demoMode : Bool) (cl : DemoClosure) (r : DemoRun)
    (e : TripEvent)
    (hlt : (applyEvent m demoMode cl r e).session.currentTrackIndex <
      r.session.currentTrackIndex) :
    (e = TripEvent.previousTrack ∧
      (applyEvent m demoMode cl r e).session.currentTrackIndex + 1 =
        r.session.currentTrackIndex) ∨
    (demoMode = true ∧ (∃ env, e = TripEvent.demoTick env) ∧
      (applyEvent m demoMode cl r e).session.currentTrackIndex = 0) := by
  cases e with
  | positionUpdate position =>
    have h : (applyEvent m demoMode cl r (TripEvent.positionUpdate position)).session.currentTrackIndex
        = r.session.currentTrackIndex :=
      trackProgress_track m demoMode _
    omega
  | demoTick env =>
    by_cases hd : demoMode = true
    · have he : applyEvent m demoMode cl r (TripEvent.demoTick env) = demoTick cl env r := by
        show (if demoMode = true then demoTick cl env r else r) = _
        rw [if_pos hd]
      rw [he] at hlt ⊢
      rcases demoTick_track cl env r with h | h
      · omega
      · exact Or.inr ⟨hd, ⟨env, rfl⟩, h⟩
    · have he : applyEvent m demoMode cl r (TripEvent.demoTick env) = r := by
        show (if demoMode = true then demoTick cl env r else r) = _
        rw [if_neg hd]
      rw [he] at hlt
      exact absurd hlt (Nat.lt_irrefl _)
  | nextTrack =>
    have h : r.session.currentTrackIndex ≤
        (applyEvent m demoMode cl r TripEvent.nextTrack).session.currentTrackIndex :=
      (handleNext_frame r.session).2.2
    omega
  | previousTrack =>
    have h : (applyEvent m demoMode cl r TripEvent.previousTrack).session.currentTrackIndex =
        r.session.currentTrackIndex - 1 :=
      (handlePrevious_frame r.session).2.2
    refine Or.inl ⟨rfl, ?_⟩
    omega

/-- C28, counterexample: in a demo trip the listener moves three tracks
forward and the next demo tick installs a new playlist: the current track
index goes from 3 to 0 although no previous-track action took place. -/
theorem demo_tick_resets_track_index :
    (applyEvents (constantDistanceMath 100) true
        (demoLoopClosure "calm" none (some (numberedPool 20)) quietEnv)
        [TripEvent.nextTrack, TripEvent.nextTrack, TripEvent.nextTrack]
        (startDemo "calm" none (some (numberedPool 20)) quietEnv)).session.currentTrackIndex = 3 ∧
    (applyEvents (constantDistanceMath 100) true
        (demoLoopClosure "calm" none (some (numberedPool 20)) quietEnv)
        [TripEvent.nextTrack, TripEvent.nextTrack, TripEvent.nextTrack,
          TripEvent.demoTick quietEnv]
        (startDemo "calm" none (some (numberedPool 20)) quietEnv)).session.currentTrackIndex = 0 := by
  constructor <;> decide

/-- C28, amended: across every sequence of events the steps are kept and
the step index never decreases; the current track index decreases only by a
previous-track action, which lowers it by one, or by a demo tick, which sets
it to `0` when it installs a playlist. -/
theorem indices_move_forward (m : JsMath) (demoMode : Bool) (cl : DemoClosure) (r : DemoRun)
    (hinv : demoMode = true →
      (cl.navigationSteps = [] ∨ cl.navigationSteps = r.session.navigationSteps) ∧
      r.session.currentStepIndex < r.session.navigationSteps.length)
    (events : List TripEvent) (e : TripEvent) :
    r.session.currentStepIndex ≤ (applyEvents m demoMode cl events r).session.currentStepIndex ∧
    (applyEvents m demoMode cl events r).session.currentStepIndex ≤
      (applyEvents m demoMode cl (events ++ [e]) r).session.currentStepIndex ∧
    ((applyEvents m demoMode cl (events ++ [e]) r).session.currentTrackIndex <
        (applyEvents m demoMode cl events r).session.currentTrackIndex →
      (e = TripEvent.previousTrack ∧
        (applyEvents m demoMode cl (events ++ [e]) r).session.currentTrackIndex + 1 =
          (applyEvents m demoMode cl events r).session.currentTrackIndex) ∨
      (demoMode = true ∧ (∃ env, e = TripEvent.demoTick env) ∧
        (applyEvents m demoMode cl (events ++ [e]) r).session.currentTrackIndex = 0)) := by
  have hpre := applyEvents_step m demoMode cl r hinv events
  have hstep := applyEvent_step m demoMode cl (applyEvents m demoMode cl events r) e
    (fun hd => ⟨by rw [hpre.1]; exact (hinv hd).1, by rw [hpre.1]; exact hpre.2.2 hd⟩)
  rw [applyEvents_append]
  exact ⟨hpre.2.1, hstep.2.1, applyEvent_track m demoMode cl _ e⟩

/-- Witness of `indices_move_forward`: the demo trip of the counterexample,
at the tick that follows the three next-track actions. -/
theorem indices_move_forward_witness :
    (applyEvents (constantDistanceMath 100) true
        (demoLoopClosure "calm" none (some (numberedPool 20)) quietEnv)
        [TripEvent.nextTrack, TripEvent.nextTrack, TripEvent.nextTrack]
        (startDemo "calm" none (some (numberedPool 20)) quietEnv)).session.currentStepIndex ≤
      (applyEvents (constantDistanceMath 100) true
        (demoLoopClosure "calm" none (some (numberedPool 20)) quietEnv)
        ([TripEvent.nextTrack, TripEvent.nextTrack, TripEvent.nextTrack] ++
          [TripEvent.demoTick quietEnv])
        (startDemo "calm" none (some (numberedPool 20)) quietEnv)).session.currentStepIndex :=
  (indices_move_forward (constantDistanceMath 100) true
    (demoLoopClosure "calm" none (some (numberedPool 20)) quietEnv)
    (startDemo "calm" none (some (numberedPool 20)) quietEnv)
    (fun _ => ⟨Or.inr
      (((demoLoopClosure_steps "calm" none (some (numberedPool 20)) quietEnv).2
        (by decide)).1.trans
        (startDemo_frame "calm" none (some (numberedPool 20)) quietEnv).2.2.1.symm),
      by decide⟩)
    [TripEvent.nextTrack, TripEvent.nextTrack, TripEvent.nextTrack]
    (TripEvent.demoTick quietEnv)).2.1

/-! ## TripSession: a live start without weather -/

/-- C29, counterexample: a live start at which the route is obtained and
the weather request fails.  Initialization ends in the error alert: no
conditions are stored, the vibe is still the declared mood, no playlist is
requested or installed and nothing plays. -/
theorem weather_failure_stops_live_start :
    (initializeTripLive "happy" none (some (numberedPool 20)) weatherDownEnv).alert =
      some "Network Error" ∧
    (initializeTripLive "happy" none (some (numberedPool 20)) weatherDownEnv).requests = [] ∧
    (initializeTripLive "happy" none (some (numberedPool 20)) weatherDownEnv).session.playlist =
      [] ∧
    (initializeTripLive "happy" none (some (numberedPool 20)) weatherDownEnv).session.weatherData =
      none ∧
    (initializeTripLive "happy" none (some (numberedPool 20)) weatherDownEnv).session.trafficData =
      none ∧
    (initializeTripLive "happy" none (some (numberedPool 20)) weatherDownEnv).session.currentVibe =
      "happy" ∧
    (initializeTripLive "happy" none (some (numberedPool 20)) weatherDownEnv).session.isPlaying =
      false :=
  ⟨rfl, rfl, rfl, rfl, rfl, rfl, rfl⟩

/-- C29, amended: in live mode, if the weather request fails after the
position and the route were obtained, initialization stops in its error
handler: an alert with the message of the error is shown and `loading` is
cleared; the position and the steps of the route stay stored and location
tracking stays on; no conditions are stored, the vibe stays the declared
mood, and no playlist is requested or installed. -/
theorem live_start_without_weather (mood : String) (username : Option String)
    (userTracks : Option (List Track)) (env : LiveEnv) (origin : Coordinate)
    (routeInfo : RouteInfo) (e : String)
    (hperm : env.permissionGranted = true) (hpos : env.position = .ok origin)
    (hroute : env.route = .ok routeInfo) (hweather : env.weather = .error e) :
    (initializeTripLive mood username userTracks env).alert =
      some (if e != "" then e else "Failed to initialize trip") ∧
    (initializeTripLive mood username userTracks env).requests = [] ∧
    (initializeTripLive mood username userTracks env).tracking = true ∧
    (initializeTripLive mood username userTracks env).session.loading = false ∧
    (initializeTripLive mood username userTracks env).session.currentLocation = some origin ∧
    (initializeTripLive mood username userTracks env).session.weatherData = none ∧
    (initializeTripLive mood username userTracks env).session.trafficData = none ∧
    (initializeTripLive mood username userTracks env).session.currentVibe = mood ∧
    (initializeTripLive mood username userTracks env).session.playlist = [] ∧
    (initializeTripLive mood username userTracks env).session.isPlaying = false ∧
    (initializeTripLive mood username userTracks env).session.currentStepIndex = 0 ∧
    (∀ steps, routeInfo.steps = some steps →
      (initializeTripLive mood username userTracks env).session.navigationSteps = steps) := by
  have hinit : initializeTripLive mood username userTracks env =
      initFailed
        (match routeInfo.steps with
          | none => { TripSession.initial mood with currentLocation := some origin }
          | some steps =>
            if steps.length > 0 then
              { TripSession.initial mood with
                currentLocation := some origin, navigationSteps := steps, currentStepIndex := 0 }
            else { TripSession.initial mood with currentLocation := some origin })
        [] true e := by
    unfold initializeTripLive
    simp only [hperm, hpos, hroute, hweather]
    rfl
  rw [hinit]
  cases hsteps : routeInfo.steps with
  | none =>
    refine ⟨rfl, rfl, rfl, rfl, rfl, rfl, rfl, rfl, rfl, rfl, rfl, ?_⟩
    intro steps h
    exact Option.noConfusion h
  | some steps =>
    by_cases hlen : steps.length > 0
    · simp only [if_pos hlen]
      refine ⟨rfl, rfl, rfl, rfl, rfl, rfl, rfl, rfl, rfl, rfl, rfl, ?_⟩
      intro steps2 h
      rw [← Option.some.inj h]
      rfl
    · simp only [if_neg hlen]
      refine ⟨rfl, rfl, rfl, rfl, rfl, rfl, rfl, rfl, rfl, rfl, rfl, ?_⟩
      intro steps2 h
      rw [← Option.some.inj h]
      have h0 : steps = [] := List.length_eq_zero.1 (by omega)
      rw [h0]
      rfl

/-- Witness of `live_start_without_weather`: the live start of the
counterexample. -/
theorem live_start_without_weather_witness :
    (initializeTripLive "happy" none (some (numberedPool 20)) weatherDownEnv).tracking = true ∧
    (initializeTripLive "happy" none (some (numberedPool 20)) weatherDownEnv).session.loading =
      false ∧
    (initializeTripLive "happy" none (some (numberedPool 20))
      weatherDownEnv).session.navigationSteps.length = 7 :=
  have h := live_start_without_weather "happy" none (some (numberedPool 20)) weatherDownEnv
    (Coordinate.mk (some 43) (some (-89)))
    { distance := 8000, duration := 1200, congestion := some ["low", "heavy", "low"],
      steps := some demoNavigationSteps }
    "Network Error" rfl rfl rfl rfl
  ⟨h.2.2.1, h.2.2.2.1, by rw [h.2.2.2.2.2.2.2.2.2.2.2 demoNavigationSteps rfl]; rfl⟩

/-! ## GeoProgressTracker: without a current step -/

theorem trackProgress_of_no_step (m : JsMath) (demoMode : Bool) (s : TripSession)
    (h : s.navigationSteps = [] ∨ s.navigationSteps.length ≤ s.currentStepIndex) :
    trackProgress m demoMode s = s := by
  have hstep : s.navigationSteps[s.currentStepIndex]? = none := by
    rw [List.getElem?_eq_none_iff]
    rcases h with h | h
    · rw [h]
      exact Nat.zero_le _
    · exact h
  unfold trackProgress
  cases hloc : s.currentLocation with
  | none => rfl
  | some position =>
    simp only []
    split_ifs
    · rfl
    · rw [hstep]

/-- A run of the tracker stores a distance only when the step index is
within the steps. -/
theorem trackProgress_distance_cases (m : JsMath) (demoMode : Bool) (s : TripSession) :
    (trackProgress m demoMode s).distanceToNextStep = s.distanceToNextStep ∨
    s.currentStepIndex < s.navigationSteps.length := by
  by_cases h : s.currentStepIndex < s.navigationSteps.length
  · exact Or.inr h
  · rw [trackProgress_of_no_step m demoMode s (Or.inr (not_lt.1 h))]
    exact Or.inl rfl

/-- In live mode the events keep this: a distance is stored only when the
step index is within the steps. -/
theorem applyEvent_live_distance (m : JsMath) (cl : DemoClosure) (r : DemoRun) (e : TripEvent)
    (h : r.session.distanceToNextStep = none ∨
      r.session.currentStepIndex < r.session.navigationSteps.length) :
    (applyEvent m false cl r e).session.distanceToNextStep = none ∨
    (applyEvent m false cl r e).session.currentStepIndex <
      (applyEvent m false cl r e).session.navigationSteps.length := by
  cases e with
  | positionUpdate position =>
    show (trackProgress m false _).distanceToNextStep = none ∨
      (trackProgress m false _).currentStepIndex < (trackProgress m false _).navigationSteps.length
    rw [trackProgress_steps]
    have hidx := trackProgress_index_cases m false
      { r.session with currentLocation := some position }
    rcases trackProgress_distance_cases m false
      { r.session with currentLocation := some position } with hd | hd
    · rcases h with h | h
      · exact Or.inl (hd.trans h)
      · refine Or.inr ?_
        rcases hidx with hi | hi
        · rw [hi]; exact h
        · rw [hi.1]
          have h2 : r.session.currentStepIndex < r.session.navigationSteps.length - 1 := hi.2
          show r.session.currentStepIndex + 1 < r.session.navigationSteps.length
          omega
    · refine Or.inr ?_
      rcases hidx with hi | hi
      · rw [hi]; exact hd
      · rw [hi.1]
        have h2 : r.session.currentStepIndex < r.session.navigationSteps.length - 1 := hi.2
        show r.session.currentStepIndex + 1 < r.session.navigationSteps.length
        omega
  | demoTick env => exact h
  | nextTrack =>
    have hf := handleNext_frame r.session
    have hd : (handleNext r.session).distanceToNextStep = r.session.distanceToNextStep := by
      unfold handleNext
      split_ifs <;> rfl
    show (handleNext r.session).distanceToNextStep = none ∨
      (handleNext r.session).currentStepIndex < (handleNext r.session).navigationSteps.length
    rw [hf.1, hf.2.1, hd]
    exact h
  | previousTrack =>
    have hf := handlePrevious_frame r.session
    have hd : (handlePrevious r.session).distanceToNextStep = r.session.distanceToNextStep := by
      unfold handlePrevious
      split_ifs <;> rfl
    show (handlePrevious r.session).distanceToNextStep = none ∨
      (handlePrevious r.session).currentStepIndex <
        (handlePrevious r.session).navigationSteps.length
    rw [hf.1, hf.2.1, hd]
    exact h

theorem applyEvents_live_distance (m : JsMath) (cl : DemoClosure) (r : DemoRun)
    (events : List TripEvent)
    (h : r.session.distanceToNextStep = none ∨
      r.session.currentStepIndex < r.session.navigationSteps.length) :
    (applyEvents m false cl events r).session.distanceToNextStep = none ∨
    (applyEvents m false cl events r).session.currentStepIndex <
      (applyEvents m false cl events r).session.navigationSteps.length := by
  induction events using List.reverseRecOn with
  | nil => exact h
  | append_singleton events e ih =>
    rw [applyEvents_append]
    exact applyEvent_live_distance m cl _ e ih

/-- The start of a live trip stores no distance. -/
theorem initializeTripLive_distance (mood : String) (username : Option String)
    (userTracks : Option (List Track)) (env : LiveEnv) :
    (initializeTripLive mood username userTracks env).session.distanceToNextStep = none := by
  unfold initializeTripLive initFailed
  simp only []
  split_ifs
  · rfl
  · split
    · rfl
    · split
      · rfl
      · split
        · split
          · rfl
          · split_ifs <;> rfl
        · split
          · split
            · rfl
            · split_ifs <;> rfl
          · split
            · rfl
            · split_ifs <;> rfl

/-- C14: in live mode, from the state at mount or the state `initializeTrip`
has produced, after any sequence of events: if the step sequence is empty or
the step index is out of range, a position update leaves the step index as it
is and the distance to the next maneuver is `null`; the only change is the
stored position. -/
theorem tracker_noop_without_step (m : JsMath) (mood : String) (username : Option String)
    (userTracks : Option (List Track)) (env : LiveEnv) (cl : DemoClosure)
    (start s : TripSession) (events : List TripEvent) (position : Coordinate)
    (hstart : start = TripSession.initial mood ∨
      start = (initializeTripLive mood username userTracks env).session)
    (hs : s = (applyEvents m false cl events (liveRun start)).session)
    (hnostep : s.navigationSteps = [] ∨ s.navigationSteps.length ≤ s.currentStepIndex) :
    s.distanceToNextStep = none ∧
    (applyEvents m false cl (events ++ [TripEvent.positionUpdate position])
        (liveRun start)).session = { s with currentLocation := some position } ∧
    (applyEvents m false cl (events ++ [TripEvent.positionUpdate position])
        (liveRun start)).session.currentStepIndex = s.currentStepIndex ∧
    (applyEvents m false cl (events ++ [TripEvent.positionUpdate position])
        (liveRun start)).session.distanceToNextStep = none := by
  have hinit : (liveRun start).session.distanceToNextStep = none := by
    rcases hstart with h | h
    · rw [h]; rfl
    · rw [h]
      exact initializeTripLive_distance mood username userTracks env
  have hinv := applyEvents_live_distance m cl (liveRun start) events (Or.inl hinit)
  rw [← hs] at hinv
  have hnone : s.distanceToNextStep = none := by
    rcases hinv with h | h
    · exact h
    · rcases hnostep with h2 | h2
      · rw [h2] at h
        exact absurd h (Nat.not_lt_zero _)
      · omega
  have hstep : (applyEvents m false cl (events ++ [TripEvent.positionUpdate position])
      (liveRun start)).session = { s with currentLocation := some position } := by
    rw [applyEvents_append]
    show trackProgress m false
      { (applyEvents m false cl events (liveRun start)).session with
        currentLocation := some position } = _
    rw [← hs]
    exact trackProgress_of_no_step m false _ hnostep
  rw [hstep]
  exact ⟨hnone, rfl, rfl, hnone⟩

/-- Witness of `tracker_noop_without_step`: the position fix that arrives
before the route, when the screen holds no steps yet. -/
theorem tracker_noop_without_step_witness :
    (applyEvents smallAngleMath false (closureOf (TripSession.initial "happy") none none)
        ([] ++ [TripEvent.positionUpdate (southOfThirdStep 19)])
        (liveRun (TripSession.initial "happy"))).session.currentStepIndex = 0 ∧
    (applyEvents smallAngleMath false (closureOf (TripSession.initial "happy") none none)
        ([] ++ [TripEvent.positionUpdate (southOfThirdStep 19)])
        (liveRun (TripSession.initial "happy"))).session.distanceToNextStep = none :=
  have h := tracker_noop_without_step smallAngleMath "happy" none none weatherDownEnv
    (closureOf (TripSession.initial "happy") none none)
    (TripSession.initial "happy") (TripSession.initial "happy") []
    (southOfThirdStep 19) (Or.inl rfl) rfl (Or.inl rfl)
  ⟨h.2.2.1, h.2.2.2⟩

end SoundScape
